import Mathlib

/-!
# Presentation-surface lifecycle and frame synchronisation (src/main.cpp)

A shallow embedding of the `HelloTriangleApplication` class of `src/main.cpp`:
the member variables the swapchain code works on become the record `App`, the
member functions become functions from `App` to a `Run` (the object after the
call, the calls made to Vulkan and GLFW in order, and how the call ended), and
what Vulkan and GLFW answer is an explicit argument.

Handles are natural numbers, `VK_NULL_HANDLE` is `0`; `VkResult` values are
integers with the values of the Vulkan headers.
-/

namespace Vulkan2019

/-! ## Constants -/

/-- Value of `VK_SUCCESS` in the Vulkan headers. -/
def VK_SUCCESS : Int := 0

/-- Value of `VK_SUBOPTIMAL_KHR` in the Vulkan headers. -/
def VK_SUBOPTIMAL_KHR : Int := 1000001003

/-- Value of `VK_ERROR_OUT_OF_DATE_KHR` in the Vulkan headers. -/
def VK_ERROR_OUT_OF_DATE_KHR : Int := -1000001004

/-- Value of `VK_ERROR_DEVICE_LOST` in the Vulkan headers. -/
def VK_ERROR_DEVICE_LOST : Int := -4

/-- Value of `VK_ERROR_SURFACE_LOST_KHR` in the Vulkan headers. -/
def VK_ERROR_SURFACE_LOST_KHR : Int := -1000000000

/-- The null handle. -/
def VK_NULL_HANDLE : Nat := 0

/-- Largest `uint32_t`, the sentinel of an undefined current extent. -/
def UINT32_MAX : Nat := 4294967295

/-- Line 59: `const int MAX_FRAMES_IN_FLIGHT = 2`. -/
def MAX_FRAMES_IN_FLIGHT : Nat := 2

/-- Value of `VK_FORMAT_B8G8R8A8_UNORM`. -/
def VK_FORMAT_B8G8R8A8_UNORM : Nat := 44

/-- Value of `VK_COLOR_SPACE_SRGB_NONLINEAR_KHR`. -/
def VK_COLOR_SPACE_SRGB_NONLINEAR_KHR : Nat := 0

/-- Value of `VK_PRESENT_MODE_MAILBOX_KHR`. -/
def VK_PRESENT_MODE_MAILBOX_KHR : Nat := 1

/-- Value of `VK_PRESENT_MODE_FIFO_KHR`. -/
def VK_PRESENT_MODE_FIFO_KHR : Nat := 2

/-- Value of `VK_QUEUE_GRAPHICS_BIT`. -/
def VK_QUEUE_GRAPHICS_BIT : Nat := 1

/-- Value of `VK_SHARING_MODE_EXCLUSIVE`. -/
def VK_SHARING_MODE_EXCLUSIVE : Nat := 0

/-- Value of `VK_SHARING_MODE_CONCURRENT`. -/
def VK_SHARING_MODE_CONCURRENT : Nat := 1

/-- Value of `VK_PIPELINE_STAGE_COLOR_ATTACHMENT_OUTPUT_BIT`. -/
def VK_PIPELINE_STAGE_COLOR_ATTACHMENT_OUTPUT_BIT : Nat := 1024

/-- Value of `VK_IMAGE_USAGE_COLOR_ATTACHMENT_BIT`. -/
def VK_IMAGE_USAGE_COLOR_ATTACHMENT_BIT : Nat := 16

/-- Value of `VK_COMPOSITE_ALPHA_OPAQUE_BIT_KHR`. -/
def VK_COMPOSITE_ALPHA_OPAQUE_BIT_KHR : Nat := 1

/-- Line 42 of main.cpp, line 19 of main-actual.cpp: `const int WIDTH`. -/
def WIDTH : Int := 800

/-- Line 43 of main.cpp, line 20 of main-actual.cpp: `const int HEIGHT`. -/
def HEIGHT : Int := 600

/-! ## Data model -/

/-- A `VkExtent2D`: two `uint32_t`. -/
structure VkExtent2D where
  width : Nat
  height : Nat
  deriving DecidableEq, Repr

/-- The Vulkan structure `VkOffset2D`: two `int32_t`. -/
structure VkOffset2D where
  x : Int
  y : Int
  deriving DecidableEq, Repr

/-- The Vulkan structure `VkRect2D`. -/
structure VkRect2D where
  offset : VkOffset2D
  extent : VkExtent2D
  deriving DecidableEq, Repr

/-- The Vulkan structure `VkViewport`. Its six members are `float`; every
value the program puts there is a whole number, given here as that number. -/
structure VkViewport where
  x : Nat
  y : Nat
  width : Nat
  height : Nat
  minDepth : Nat
  maxDepth : Nat
  deriving DecidableEq, Repr

/-- A `VkSurfaceFormatKHR`. -/
structure VkSurfaceFormatKHR where
  format : Nat
  colorSpace : Nat
  deriving DecidableEq, Repr

/-- The fields of `VkSurfaceCapabilitiesKHR` that the program reads. -/
structure VkSurfaceCapabilitiesKHR where
  minImageCount : Nat
  maxImageCount : Nat
  currentExtent : VkExtent2D
  minImageExtent : VkExtent2D
  maxImageExtent : VkExtent2D
  currentTransform : Nat
  deriving DecidableEq, Repr

/-- Lines 473-477: `struct SwapChainSupportDetails`. -/
structure SwapChainSupportDetails where
  capabilities : VkSurfaceCapabilitiesKHR
  formats : List VkSurfaceFormatKHR
  presentModes : List Nat
  deriving DecidableEq, Repr

/-- Lines 303-309: `struct QueueFamilyIndices`. -/
structure QueueFamilyIndices where
  graphicsFamily : Option Nat
  presentFamily : Option Nat
  deriving DecidableEq, Repr

/-- Lines 306-308: `isComplete`. -/
def QueueFamilyIndices.isComplete (indices : QueueFamilyIndices) : Bool :=
  indices.graphicsFamily.isSome && indices.presentFamily.isSome

/-- What the device reports for one queue family: its `queueFlags`, and the
answer of `vkGetPhysicalDeviceSurfaceSupportKHR` for it. -/
structure QueueFamily where
  queueFlags : Nat
  presentSupport : Bool
  deriving DecidableEq, Repr

/-- The GLFW window behind the `window` member, as the program sees it: the
framebuffer sizes that the coming calls of `glfwGetFramebufferSize` report
(`sizes` in order, then `lastSize` for good), and for the coming calls of
`glfwWaitEvents` whether the framebuffer-size callback is delivered in them. -/
structure Window where
  sizes : List (Int × Int)
  lastSize : Int × Int
  resizeEvents : List Bool
  deriving DecidableEq, Repr

/-- The `VkSwapchainCreateInfoKHR` that `createSwapChain` fills in (lines
425-456). -/
structure SwapchainCreateInfo where
  minImageCount : Nat
  imageFormat : Nat
  imageColorSpace : Nat
  imageExtent : VkExtent2D
  imageArrayLayers : Nat
  imageUsage : Nat
  imageSharingMode : Nat
  queueFamilyIndices : List Nat
  preTransform : Nat
  compositeAlpha : Nat
  presentMode : Nat
  clipped : Bool
  oldSwapchain : Nat
  deriving DecidableEq, Repr

/-- The `VkSubmitInfo` that `drawFrame` fills in (lines 1067-1081). -/
structure SubmitInfo where
  waitSemaphores : List Nat
  waitDstStageMask : List Nat
  commandBuffers : List Nat
  signalSemaphores : List Nat
  deriving DecidableEq, Repr

/-- The `VkPresentInfoKHR` that `drawFrame` fills in (lines 1089-1097). -/
structure PresentInfo where
  waitSemaphores : List Nat
  swapchains : List Nat
  imageIndices : List Nat
  deriving DecidableEq, Repr

/-- One argument of a call, of any of the types that the calls take. -/
inductive Argument where
  | nat (value : Nat)
  | int (value : Int)
  | bool (value : Bool)
  | nats (value : List Nat)
  | extent (value : VkExtent2D)
  | rect (value : VkRect2D)
  | viewport (value : VkViewport)
  | createInfo (value : SwapchainCreateInfo)
  | submitInfo (value : SubmitInfo)
  | presentInfo (value : PresentInfo)
  deriving DecidableEq, Repr

/-- The calls the program makes to Vulkan and GLFW, with their arguments.
`recreateSwapChain` marks the entry into the member function of that name,
and `queueSubmit` also carries the image index at which its command buffer
was read (`commandBuffers[imageIndex]`). -/
inductive Event where
  | waitForFences (fence : Nat)
  | acquireNextImage (swapChain : Nat) (semaphore : Nat)
  | resetFences (fence : Nat)
  | queueSubmit (imageIndex : Nat) (submitInfo : SubmitInfo) (fence : Nat)
  | queuePresent (presentInfo : PresentInfo)
  | recreateSwapChain
  | getFramebufferSize
  | waitEvents
  | deviceWaitIdle
  | destroyFramebuffer (framebuffer : Nat)
  | freeCommandBuffers (commandPool : Nat) (commandBuffers : List Nat)
  | destroyRenderPass (renderPass : Nat)
  | destroyImageView (imageView : Nat)
  | destroySwapchain (swapChain : Nat)
  | getSurfaceCapabilities
  | getSurfaceFormats
  | getSurfacePresentModes
  | getQueueFamilyProperties
  | getSurfaceSupport (queueFamilyIndex : Nat)
  | createSwapchain (createInfo : SwapchainCreateInfo)
  | getSwapchainImages (swapChain : Nat)
  | createImageView (image : Nat) (format : Nat)
  | createRenderPass (format : Nat)
  | createFramebuffer (renderPass : Nat) (attachment : Nat) (extent : VkExtent2D)
  | allocateCommandBuffers (commandPool : Nat) (count : Nat)
  | beginCommandBuffer (commandBuffer : Nat)
  | cmdBeginRenderPass (commandBuffer : Nat) (renderPass : Nat) (framebuffer : Nat)
      (renderArea : VkRect2D) (clearValueCount : Nat)
  | cmdBindPipeline (commandBuffer : Nat) (pipeline : Nat)
  | cmdSetViewport (commandBuffer : Nat) (viewport : VkViewport)
  | cmdSetScissor (commandBuffer : Nat) (scissor : VkRect2D)
  | cmdDraw (commandBuffer : Nat) (vertexCount : Nat) (instanceCount : Nat)
      (firstVertex : Nat) (firstInstance : Nat)
  | cmdEndRenderPass (commandBuffer : Nat)
  | endCommandBuffer (commandBuffer : Nat)
  | createShaderModule
  | destroyShaderModule (shaderModule : Nat)
  | createPipelineLayout
  | createGraphicsPipelines (layout : Nat) (renderPass : Nat)
  | createCommandPool (queueFamilyIndex : Nat)
  | createSemaphore
  | createFence (signaled : Bool)
  | destroyPipeline (pipeline : Nat)
  | destroyPipelineLayout (layout : Nat)
  | destroySemaphore (semaphore : Nat)
  | destroyFence (fence : Nat)
  | destroyCommandPool (commandPool : Nat)
  | destroyDevice
  | destroySurface
  | destroyInstance
  | destroyWindow
  | terminate
  | glfwInit
  | createWindow (width : Int) (height : Int)
  | enumerateInstanceLayerProperties
  | getRequiredInstanceExtensions
  | createInstance
  | enumerateInstanceExtensionProperties
  | createSurface
  | enumeratePhysicalDevices
  | enumerateDeviceExtensionProperties
  | createDevice (queueFamilyIndices : List Nat)
  | getDeviceQueue (queueFamilyIndex : Nat)
  | windowShouldClose
  | pollEvents
  | drawFrame
  deriving Repr

/-- The position of a call in the list of calls, and its arguments. -/
def Event.signature : Event → Nat × List Argument
  | Event.waitForFences fence => (0, [Argument.nat fence])
  | Event.acquireNextImage swapChain semaphore => (1, [Argument.nat swapChain, Argument.nat semaphore])
  | Event.resetFences fence => (2, [Argument.nat fence])
  | Event.queueSubmit imageIndex submitInfo fence => (3, [Argument.nat imageIndex, Argument.submitInfo submitInfo, Argument.nat fence])
  | Event.queuePresent presentInfo => (4, [Argument.presentInfo presentInfo])
  | Event.recreateSwapChain => (5, [])
  | Event.getFramebufferSize => (6, [])
  | Event.waitEvents => (7, [])
  | Event.deviceWaitIdle => (8, [])
  | Event.destroyFramebuffer framebuffer => (9, [Argument.nat framebuffer])
  | Event.freeCommandBuffers commandPool commandBuffers => (10, [Argument.nat commandPool, Argument.nats commandBuffers])
  | Event.destroyRenderPass renderPass => (11, [Argument.nat renderPass])
  | Event.destroyImageView imageView => (12, [Argument.nat imageView])
  | Event.destroySwapchain swapChain => (13, [Argument.nat swapChain])
  | Event.getSurfaceCapabilities => (14, [])
  | Event.getSurfaceFormats => (15, [])
  | Event.getSurfacePresentModes => (16, [])
  | Event.getQueueFamilyProperties => (17, [])
  | Event.getSurfaceSupport queueFamilyIndex => (18, [Argument.nat queueFamilyIndex])
  | Event.createSwapchain createInfo => (19, [Argument.createInfo createInfo])
  | Event.getSwapchainImages swapChain => (20, [Argument.nat swapChain])
  | Event.createImageView image format => (21, [Argument.nat image, Argument.nat format])
  | Event.createRenderPass format => (22, [Argument.nat format])
  | Event.createFramebuffer renderPass attachment extent => (23, [Argument.nat renderPass, Argument.nat attachment, Argument.extent extent])
  | Event.allocateCommandBuffers commandPool count => (24, [Argument.nat commandPool, Argument.nat count])
  | Event.beginCommandBuffer commandBuffer => (25, [Argument.nat commandBuffer])
  | Event.cmdBeginRenderPass commandBuffer renderPass framebuffer renderArea clearValueCount => (26, [Argument.nat commandBuffer, Argument.nat renderPass, Argument.nat framebuffer, Argument.rect renderArea, Argument.nat clearValueCount])
  | Event.cmdBindPipeline commandBuffer pipeline => (27, [Argument.nat commandBuffer, Argument.nat pipeline])
  | Event.cmdSetViewport commandBuffer viewport => (28, [Argument.nat commandBuffer, Argument.viewport viewport])
  | Event.cmdSetScissor commandBuffer scissor => (29, [Argument.nat commandBuffer, Argument.rect scissor])
  | Event.cmdDraw commandBuffer vertexCount instanceCount firstVertex firstInstance => (30, [Argument.nat commandBuffer, Argument.nat vertexCount, Argument.nat instanceCount, Argument.nat firstVertex, Argument.nat firstInstance])
  | Event.cmdEndRenderPass commandBuffer => (31, [Argument.nat commandBuffer])
  | Event.endCommandBuffer commandBuffer => (32, [Argument.nat commandBuffer])
  | Event.createShaderModule => (33, [])
  | Event.destroyShaderModule shaderModule => (34, [Argument.nat shaderModule])
  | Event.createPipelineLayout => (35, [])
  | Event.createGraphicsPipelines layout renderPass => (36, [Argument.nat layout, Argument.nat renderPass])
  | Event.createCommandPool queueFamilyIndex => (37, [Argument.nat queueFamilyIndex])
  | Event.createSemaphore => (38, [])
  | Event.createFence signaled => (39, [Argument.bool signaled])
  | Event.destroyPipeline pipeline => (40, [Argument.nat pipeline])
  | Event.destroyPipelineLayout layout => (41, [Argument.nat layout])
  | Event.destroySemaphore semaphore => (42, [Argument.nat semaphore])
  | Event.destroyFence fence => (43, [Argument.nat fence])
  | Event.destroyCommandPool commandPool => (44, [Argument.nat commandPool])
  | Event.destroyDevice => (45, [])
  | Event.destroySurface => (46, [])
  | Event.destroyInstance => (47, [])
  | Event.destroyWindow => (48, [])
  | Event.terminate => (49, [])
  | Event.glfwInit => (50, [])
  | Event.createWindow width height => (51, [Argument.int width, Argument.int height])
  | Event.enumerateInstanceLayerProperties => (52, [])
  | Event.getRequiredInstanceExtensions => (53, [])
  | Event.createInstance => (54, [])
  | Event.enumerateInstanceExtensionProperties => (55, [])
  | Event.createSurface => (56, [])
  | Event.enumeratePhysicalDevices => (57, [])
  | Event.enumerateDeviceExtensionProperties => (58, [])
  | Event.createDevice queueFamilyIndices => (59, [Argument.nats queueFamilyIndices])
  | Event.getDeviceQueue queueFamilyIndex => (60, [Argument.nat queueFamilyIndex])
  | Event.windowShouldClose => (61, [])
  | Event.pollEvents => (62, [])
  | Event.drawFrame => (63, [])

/-- For each position in the list of calls, the call with given arguments. -/
def Event.readers : List (List Argument → Option Event) :=
  [(fun (arguments : List Argument) => (match arguments with
      | [Argument.nat fence] => some (Event.waitForFences fence)
      | _ => none : Option Event)),
    (fun (arguments : List Argument) => (match arguments with
      | [Argument.nat swapChain, Argument.nat semaphore] => some (Event.acquireNextImage swapChain semaphore)
      | _ => none : Option Event)),
    (fun (arguments : List Argument) => (match arguments with
      | [Argument.nat fence] => some (Event.resetFences fence)
      | _ => none : Option Event)),
    (fun (arguments : List Argument) => (match arguments with
      | [Argument.nat imageIndex, Argument.submitInfo submitInfo, Argument.nat fence] => some (Event.queueSubmit imageIndex submitInfo fence)
      | _ => none : Option Event)),
    (fun (arguments : List Argument) => (match arguments with
      | [Argument.presentInfo presentInfo] => some (Event.queuePresent presentInfo)
      | _ => none : Option Event)),
    (fun (arguments : List Argument) => (match arguments with
      | [] => some Event.recreateSwapChain
      | _ => none : Option Event)),
    (fun (arguments : List Argument) => (match arguments with
      | [] => some Event.getFramebufferSize
      | _ => none : Option Event)),
    (fun (arguments : List Argument) => (match arguments with
      | [] => some Event.waitEvents
      | _ => none : Option Event)),
    (fun (arguments : List Argument) => (match arguments with
      | [] => some Event.deviceWaitIdle
      | _ => none : Option Event)),
    (fun (arguments : List Argument) => (match arguments with
      | [Argument.nat framebuffer] => some (Event.destroyFramebuffer framebuffer)
      | _ => none : Option Event)),
    (fun (arguments : List Argument) => (match arguments with
      | [Argument.nat commandPool, Argument.nats commandBuffers] => some (Event.freeCommandBuffers commandPool commandBuffers)
      | _ => none : Option Event)),
    (fun (arguments : List Argument) => (match arguments with
      | [Argument.nat renderPass] => some (Event.destroyRenderPass renderPass)
      | _ => none : Option Event)),
    (fun (arguments : List Argument) => (match arguments with
      | [Argument.nat imageView] => some (Event.destroyImageView imageView)
      | _ => none : Option Event)),
    (fun (arguments : List Argument) => (match arguments with
      | [Argument.nat swapChain] => some (Event.destroySwapchain swapChain)
      | _ => none : Option Event)),
    (fun (arguments : List Argument) => (match arguments with
      | [] => some Event.getSurfaceCapabilities
      | _ => none : Option Event)),
    (fun (arguments : List Argument) => (match arguments with
      | [] => some Event.getSurfaceFormats
      | _ => none : Option Event)),
    (fun (arguments : List Argument) => (match arguments with
      | [] => some Event.getSurfacePresentModes
      | _ => none : Option Event)),
    (fun (arguments : List Argument) => (match arguments with
      | [] => some Event.getQueueFamilyProperties
      | _ => none : Option Event)),
    (fun (arguments : List Argument) => (match arguments with
      | [Argument.nat queueFamilyIndex] => some (Event.getSurfaceSupport queueFamilyIndex)
      | _ => none : Option Event)),
    (fun (arguments : List Argument) => (match arguments with
      | [Argument.createInfo createInfo] => some (Event.createSwapchain createInfo)
      | _ => none : Option Event)),
    (fun (arguments : List Argument) => (match arguments with
      | [Argument.nat swapChain] => some (Event.getSwapchainImages swapChain)
      | _ => none : Option Event)),
    (fun (arguments : List Argument) => (match arguments with
      | [Argument.nat image, Argument.nat format] => some (Event.createImageView image format)
      | _ => none : Option Event)),
    (fun (arguments : List Argument) => (match arguments with
      | [Argument.nat format] => some (Event.createRenderPass format)
      | _ => none : Option Event)),
    (fun (arguments : List Argument) => (match arguments with
      | [Argument.nat renderPass, Argument.nat attachment, Argument.extent extent] => some (Event.createFramebuffer renderPass attachment extent)
      | _ => none : Option Event)),
    (fun (arguments : List Argument) => (match arguments with
      | [Argument.nat commandPool, Argument.nat count] => some (Event.allocateCommandBuffers commandPool count)
      | _ => none : Option Event)),
    (fun (arguments : List Argument) => (match arguments with
      | [Argument.nat commandBuffer] => some (Event.beginCommandBuffer commandBuffer)
      | _ => none : Option Event)),
    (fun (arguments : List Argument) => (match arguments with
      | [Argument.nat commandBuffer, Argument.nat renderPass, Argument.nat framebuffer, Argument.rect renderArea, Argument.nat clearValueCount] => some (Event.cmdBeginRenderPass commandBuffer renderPass framebuffer renderArea clearValueCount)
      | _ => none : Option Event)),
    (fun (arguments : List Argument) => (match arguments with
      | [Argument.nat commandBuffer, Argument.nat pipeline] => some (Event.cmdBindPipeline commandBuffer pipeline)
      | _ => none : Option Event)),
    (fun (arguments : List Argument) => (match arguments with
      | [Argument.nat commandBuffer, Argument.viewport viewport] => some (Event.cmdSetViewport commandBuffer viewport)
      | _ => none : Option Event)),
    (fun (arguments : List Argument) => (match arguments with
      | [Argument.nat commandBuffer, Argument.rect scissor] => some (Event.cmdSetScissor commandBuffer scissor)
      | _ => none : Option Event)),
    (fun (arguments : List Argument) => (match arguments with
      | [Argument.nat commandBuffer, Argument.nat vertexCount, Argument.nat instanceCount, Argument.nat firstVertex, Argument.nat firstInstance] => some (Event.cmdDraw commandBuffer vertexCount instanceCount firstVertex firstInstance)
      | _ => none : Option Event)),
    (fun (arguments : List Argument) => (match arguments with
      | [Argument.nat commandBuffer] => some (Event.cmdEndRenderPass commandBuffer)
      | _ => none : Option Event)),
    (fun (arguments : List Argument) => (match arguments with
      | [Argument.nat commandBuffer] => some (Event.endCommandBuffer commandBuffer)
      | _ => none : Option Event)),
    (fun (arguments : List Argument) => (match arguments with
      | [] => some Event.createShaderModule
      | _ => none : Option Event)),
    (fun (arguments : List Argument) => (match arguments with
      | [Argument.nat shaderModule] => some (Event.destroyShaderModule shaderModule)
      | _ => none : Option Event)),
    (fun (arguments : List Argument) => (match arguments with
      | [] => some Event.createPipelineLayout
      | _ => none : Option Event)),
    (fun (arguments : List Argument) => (match arguments with
      | [Argument.nat layout, Argument.nat renderPass] => some (Event.createGraphicsPipelines layout renderPass)
      | _ => none : Option Event)),
    (fun (arguments : List Argument) => (match arguments with
      | [Argument.nat queueFamilyIndex] => some (Event.createCommandPool queueFamilyIndex)
      | _ => none : Option Event)),
    (fun (arguments : List Argument) => (match arguments with
      | [] => some Event.createSemaphore
      | _ => none : Option Event)),
    (fun (arguments : List Argument) => (match arguments with
      | [Argument.bool signaled] => some (Event.createFence signaled)
      | _ => none : Option Event)),
    (fun (arguments : List Argument) => (match arguments with
      | [Argument.nat pipeline] => some (Event.destroyPipeline pipeline)
      | _ => none : Option Event)),
    (fun (arguments : List Argument) => (match arguments with
      | [Argument.nat layout] => some (Event.destroyPipelineLayout layout)
      | _ => none : Option Event)),
    (fun (arguments : List Argument) => (match arguments with
      | [Argument.nat semaphore] => some (Event.destroySemaphore semaphore)
      | _ => none : Option Event)),
    (fun (arguments : List Argument) => (match arguments with
      | [Argument.nat fence] => some (Event.destroyFence fence)
      | _ => none : Option Event)),
    (fun (arguments : List Argument) => (match arguments with
      | [Argument.nat commandPool] => some (Event.destroyCommandPool commandPool)
      | _ => none : Option Event)),
    (fun (arguments : List Argument) => (match arguments with
      | [] => some Event.destroyDevice
      | _ => none : Option Event)),
    (fun (arguments : List Argument) => (match arguments with
      | [] => some Event.destroySurface
      | _ => none : Option Event)),
    (fun (arguments : List Argument) => (match arguments with
      | [] => some Event.destroyInstance
      | _ => none : Option Event)),
    (fun (arguments : List Argument) => (match arguments with
      | [] => some Event.destroyWindow
      | _ => none : Option Event)),
    (fun (arguments : List Argument) => (match arguments with
      | [] => some Event.terminate
      | _ => none : Option Event)),
    (fun (arguments : List Argument) => (match arguments with
      | [] => some Event.glfwInit
      | _ => none : Option Event)),
    (fun (arguments : List Argument) => (match arguments with
      | [Argument.int width, Argument.int height] => some (Event.createWindow width height)
      | _ => none : Option Event)),
    (fun (arguments : List Argument) => (match arguments with
      | [] => some Event.enumerateInstanceLayerProperties
      | _ => none : Option Event)),
    (fun (arguments : List Argument) => (match arguments with
      | [] => some Event.getRequiredInstanceExtensions
      | _ => none : Option Event)),
    (fun (arguments : List Argument) => (match arguments with
      | [] => some Event.createInstance
      | _ => none : Option Event)),
    (fun (arguments : List Argument) => (match arguments with
      | [] => some Event.enumerateInstanceExtensionProperties
      | _ => none : Option Event)),
    (fun (arguments : List Argument) => (match arguments with
      | [] => some Event.createSurface
      | _ => none : Option Event)),
    (fun (arguments : List Argument) => (match arguments with
      | [] => some Event.enumeratePhysicalDevices
      | _ => none : Option Event)),
    (fun (arguments : List Argument) => (match arguments with
      | [] => some Event.enumerateDeviceExtensionProperties
      | _ => none : Option Event)),
    (fun (arguments : List Argument) => (match arguments with
      | [Argument.nats queueFamilyIndices] => some (Event.createDevice queueFamilyIndices)
      | _ => none : Option Event)),
    (fun (arguments : List Argument) => (match arguments with
      | [Argument.nat queueFamilyIndex] => some (Event.getDeviceQueue queueFamilyIndex)
      | _ => none : Option Event)),
    (fun (arguments : List Argument) => (match arguments with
      | [] => some Event.windowShouldClose
      | _ => none : Option Event)),
    (fun (arguments : List Argument) => (match arguments with
      | [] => some Event.pollEvents
      | _ => none : Option Event)),
    (fun (arguments : List Argument) => (match arguments with
      | [] => some Event.drawFrame
      | _ => none : Option Event))]

/-- The call with a given position and arguments: the inverse of
`Event.signature`. -/
def Event.ofSignature (s : Nat × List Argument) : Option Event :=
  match Event.readers.get? s.1 with
  | some reader => reader s.2
  | none => none

/-- Two calls are equal when they are the same call with the same arguments. -/
instance : DecidableEq Event := fun a b =>
  decidable_of_iff (a.signature = b.signature)
    ⟨fun h => by
      have ha : Event.ofSignature a.signature = some a := by cases a <;> rfl
      have hb : Event.ofSignature b.signature = some b := by cases b <;> rfl
      have h2 := congrArg Event.ofSignature h
      rw [ha, hb] at h2
      exact Option.some.inj h2,
    fun h => by rw [h]⟩

/-- The `std::runtime_error`s thrown by the modelled functions, one per
message, and the `std::bad_optional_access` of `.value()`. -/
inductive Error where
  /-- thrown with "failed to acquire swap chain image!" -/
  | acquireImage
  /-- thrown with "failed to submit draw command buffer!" -/
  | submitDraw
  /-- thrown with "failed to present swap chain image!" -/
  | presentImage
  /-- thrown with "failed to create swap chain!" -/
  | createSwapChain
  /-- thrown with "failed to create image views!" -/
  | createImageViews
  /-- thrown with "failed to create render pass!" -/
  | createRenderPass
  /-- thrown with "failed to create framebuffer!" -/
  | createFramebuffer
  /-- thrown with "failed to allocate command buffers!" -/
  | allocateCommandBuffers
  /-- thrown with "failed to begin recording command buffer!" -/
  | beginCommandBuffer
  /-- thrown with "failed to record command buffer!" -/
  | recordCommandBuffer
  /-- the `std::bad_optional_access` of `.value()` on an empty optional -/
  | badOptionalAccess
  /-- thrown with "failed to create shader module!" -/
  | createShaderModule
  /-- thrown with "failed to create pipeline layout!" -/
  | createPipelineLayout
  /-- thrown with "failed to create graphics pipeline!" -/
  | createGraphicsPipeline
  /-- thrown with "failed to create command pool!" -/
  | createCommandPool
  /-- thrown with "failed to create synchronization objects for a frame!" -/
  | createSynchObjects
  /-- thrown with "validation layers requested, but not available!" -/
  | validationLayers
  /-- thrown with "createInstance() failed!" -/
  | createInstance
  /-- thrown with "failed to create window surface!" -/
  | createSurface
  /-- thrown with "failed to find GPUs with Vulkan support!" -/
  | noVulkanGpu
  /-- thrown with "failed to find a suitable GPU!" -/
  | noSuitableGpu
  /-- thrown with "failed to create logical device!" -/
  | createLogicalDevice
  deriving DecidableEq, Repr

/-- How a call ended: it returned, it threw, it never comes back (the wait
for a nonzero framebuffer size goes on for ever), or it read a vector outside
its bounds. -/
inductive Outcome where
  | returned
  | threw (error : Error)
  | blocked
  | undefinedBehaviour
  deriving DecidableEq, Repr

/-- The member variables of `HelloTriangleApplication` that the swapchain and
frame code reads or writes (lines 72-96). -/
structure App where
  window : Window
  swapChain : Nat
  swapChainImages : List Nat
  swapChainImageFormat : Nat
  swapChainExtent : VkExtent2D
  swapChainImageViews : List Nat
  renderPass : Nat
  pipelineLayout : Nat
  graphicsPipeline : Nat
  swapChainFramebuffers : List Nat
  commandPool : Nat
  commandBuffers : List Nat
  imageAvailableSemaphores : List Nat
  renderFinishedSemaphores : List Nat
  inFlightFences : List Nat
  imagesInFlight : List Nat
  currentFrame : Nat
  framebufferResized : Bool
  deriving DecidableEq, Repr

/-- A call as it was run: the object afterwards, the calls made, the end. -/
structure Run where
  app : App
  trace : List Event
  outcome : Outcome
  deriving DecidableEq, Repr

/-- A call that does nothing and returns. -/
def Run.ok (st : App) : Run :=
  { app := st, trace := [], outcome := Outcome.returned }

/-- The events `t` happened before the run `r`. -/
def Run.after (t : List Event) (r : Run) : Run :=
  { app := r.app, trace := t ++ r.trace, outcome := r.outcome }

/-- Sequencing of statements: `f` runs only when `r` returned. -/
def Run.andThen (r : Run) (f : App → Run) : Run :=
  match r.outcome with
  | Outcome.returned => Run.after r.trace (f r.app)
  | _ => r

/-- What Vulkan answers during one rebuild of the swapchain. -/
structure RebuildEnv where
  /-- what `querySwapChainSupport` reads from the device -/
  support : SwapChainSupportDetails
  /-- the queue families of the physical device -/
  queueFamilies : List QueueFamily
  /-- result of `vkCreateSwapchainKHR` -/
  createSwapchainResult : Int
  /-- the handle it writes on success -/
  newSwapchain : Nat
  /-- the images `vkGetSwapchainImagesKHR` reports -/
  newImages : List Nat
  /-- result and handle of `vkCreateImageView` for image `i` -/
  createImageView : Nat → Int × Nat
  /-- result and handle of `vkCreateRenderPass` -/
  createRenderPass : Int × Nat
  /-- result and handle of `vkCreateFramebuffer` for view `i` -/
  createFramebuffer : Nat → Int × Nat
  /-- result of `vkAllocateCommandBuffers` -/
  allocateResult : Int
  /-- the handle it writes at position `i` -/
  newCommandBuffer : Nat → Nat
  /-- result of `vkBeginCommandBuffer` for buffer `i` -/
  beginResult : Nat → Int
  /-- result of `vkEndCommandBuffer` for buffer `i` -/
  endResult : Nat → Int

/-- What Vulkan answers during `createGraphicsPipeline`: result and handle of
the two `vkCreateShaderModule` calls, of `vkCreatePipelineLayout` and of
`vkCreateGraphicsPipelines`. -/
structure PipelineEnv where
  vertShaderModule : Int × Nat
  fragShaderModule : Int × Nat
  createPipelineLayout : Int × Nat
  createGraphicsPipelines : Int × Nat

/-- What Vulkan answers during `createSynchObjects`: for frame slot `i`, result
and handle of the two `vkCreateSemaphore` calls and of `vkCreateFence`. -/
structure SyncEnv where
  imageAvailable : Nat → Int × Nat
  renderFinished : Nat → Int × Nat
  inFlight : Nat → Int × Nat

/-- A physical device as `vkEnumeratePhysicalDevices` lists it: its handle,
and what the queries of `isDeviceSuitable` read from it. -/
structure PhysicalDevice where
  handle : Nat
  queueFamilies : List QueueFamily
  availableExtensions : List String
  support : SwapChainSupportDetails
  deriving DecidableEq, Repr

/-- How `pickPhysicalDevice` ends: with the member `physicalDevice` set to a
device, or with an error. -/
inductive Picked where
  | device (physicalDevice : PhysicalDevice)
  | threw (error : Error)
  deriving DecidableEq, Repr

/-- What Vulkan and GLFW answer during `initVulkan`. The creation calls of the
swapchain and of what depends on it answer as in `build`, whose surface
support and queue families are those of the device that was picked. -/
structure InitEnv where
  /-- the layers `vkEnumerateInstanceLayerProperties` lists -/
  availableLayers : List String
  /-- result of `vkCreateInstance` -/
  createInstanceResult : Int
  /-- result of `glfwCreateWindowSurface` -/
  createSurfaceResult : Int
  /-- the devices `vkEnumeratePhysicalDevices` lists -/
  devices : List PhysicalDevice
  /-- result of `vkCreateDevice` -/
  createDeviceResult : Int
  build : RebuildEnv
  pipeline : PipelineEnv
  /-- result and handle of `vkCreateCommandPool` -/
  commandPool : Int × Nat
  sync : SyncEnv

/-- What Vulkan answers during one call of `drawFrame`. -/
structure FrameEnv where
  /-- result of `vkAcquireNextImageKHR` -/
  acquireResult : Int
  /-- the image index it writes -/
  imageIndex : Nat
  /-- result of `vkQueueSubmit` -/
  submitResult : Int
  /-- result of `vkQueuePresentKHR` -/
  presentResult : Int
  /-- the answers to a rebuild, should the call make one -/
  rebuild : RebuildEnv

/-! ## Building the swapchain -/

/-- Line 107-110: `framebufferResizeCallback` sets the flag. -/
def framebufferResizeCallback (st : App) : App :=
  { st with framebufferResized := true }

/-- One call of `glfwGetFramebufferSize`: the size read, and the window
with that report used up. -/
def Window.getFramebufferSize (w : Window) : (Int × Int) × Window :=
  match w.sizes with
  | [] => (w.lastSize, w)
  | size :: rest => (size, { w with sizes := rest })

/-- One call of `glfwWaitEvents`: the callback runs when the window delivers
a framebuffer-size event in it. -/
def glfwWaitEvents (st : App) : App :=
  match st.window.resizeEvents with
  | [] => st
  | fired :: rest =>
    let st1 := { st with window := { st.window with resizeEvents := rest } }
    if fired then framebufferResizeCallback st1 else st1

/-- The search loop of `chooseSwapSurfaceFormat` (lines 503-507). -/
def chooseSwapSurfaceFormat.search : List VkSurfaceFormatKHR → Option VkSurfaceFormatKHR
  | [] => none
  | availableFormat :: rest =>
    if availableFormat.format = VK_FORMAT_B8G8R8A8_UNORM
        ∧ availableFormat.colorSpace = VK_COLOR_SPACE_SRGB_NONLINEAR_KHR then
      some availableFormat
    else chooseSwapSurfaceFormat.search rest

/-- Lines 499-511: `chooseSwapSurfaceFormat`. The result is `none` where the
source reads `availableFormats[0]` of an empty vector. -/
def chooseSwapSurfaceFormat (availableFormats : List VkSurfaceFormatKHR) :
    Option VkSurfaceFormatKHR :=
  match chooseSwapSurfaceFormat.search availableFormats with
  | some availableFormat => some availableFormat
  | none => availableFormats[0]?

/-- Lines 513-524: `chooseSwapPresentMode`. -/
def chooseSwapPresentMode : List Nat → Nat
  | [] => VK_PRESENT_MODE_FIFO_KHR
  | availablePresentMode :: rest =>
    if availablePresentMode = VK_PRESENT_MODE_MAILBOX_KHR then availablePresentMode
    else chooseSwapPresentMode rest

/-- The conversion `static_cast<uint32_t>` of an `int`. -/
def toUint32 (x : Int) : Nat :=
  (x % 4294967296).toNat

/-- Lines 527-541: `chooseSwapExtent`: the extent, the window after the call
and the calls made. -/
def chooseSwapExtent (capabilities : VkSurfaceCapabilitiesKHR) (window : Window) :
    VkExtent2D × Window × List Event :=
  if capabilities.currentExtent.width ≠ UINT32_MAX then
    (capabilities.currentExtent, window, [])
  else
    let read := window.getFramebufferSize
    let actualExtent : VkExtent2D :=
      { width := toUint32 read.1.1, height := toUint32 read.1.2 }
    ({ width := max capabilities.minImageExtent.width
          (min capabilities.maxImageExtent.width actualExtent.width),
       height := max capabilities.minImageExtent.height
          (min capabilities.maxImageExtent.height actualExtent.height) },
     read.2, [Event.getFramebufferSize])

/-- Lines 473-482 of main-actual.cpp: the earlier `chooseSwapExtent`, which
takes the constants `WIDTH` and `HEIGHT` where main.cpp reads the framebuffer
size. -/
def MainActual.chooseSwapExtent (capabilities : VkSurfaceCapabilitiesKHR) : VkExtent2D :=
  if capabilities.currentExtent.width ≠ UINT32_MAX then
    capabilities.currentExtent
  else
    let actualExtent : VkExtent2D := { width := toUint32 WIDTH, height := toUint32 HEIGHT }
    { width := max capabilities.minImageExtent.width
        (min capabilities.maxImageExtent.width actualExtent.width),
      height := max capabilities.minImageExtent.height
        (min capabilities.maxImageExtent.height actualExtent.height) }

/-- The loop of `findQueueFamilies` (lines 324-339): the indices found and
the families whose present support was asked for. -/
def findQueueFamilies.loop :
    List QueueFamily → Nat → QueueFamilyIndices → QueueFamilyIndices × List Event
  | [], _, indices => (indices, [])
  | queueFamily :: rest, i, indices =>
    let indices1 :=
      if queueFamily.queueFlags &&& VK_QUEUE_GRAPHICS_BIT ≠ 0 then
        { indices with graphicsFamily := some i }
      else indices
    let indices2 :=
      if queueFamily.presentSupport then { indices1 with presentFamily := some i }
      else indices1
    if indices2.isComplete then (indices2, [Event.getSurfaceSupport i])
    else
      let r := findQueueFamilies.loop rest (i + 1) indices2
      (r.1, Event.getSurfaceSupport i :: r.2)

/-- Lines 310-341: `findQueueFamilies`. -/
def findQueueFamilies (queueFamilies : List QueueFamily) : QueueFamilyIndices × List Event :=
  let r := findQueueFamilies.loop queueFamilies 0
    { graphicsFamily := none, presentFamily := none }
  (r.1, Event.getQueueFamilyProperties :: Event.getQueueFamilyProperties :: r.2)

/-- Lines 478-497: the calls of `querySwapChainSupport`; a list is fetched
by a second call when its count is not zero. -/
def querySwapChainSupport (details : SwapChainSupportDetails) : List Event :=
  [Event.getSurfaceCapabilities, Event.getSurfaceFormats]
    ++ (if details.formats.length ≠ 0 then [Event.getSurfaceFormats] else [])
    ++ [Event.getSurfacePresentModes]
    ++ (if details.presentModes.length ≠ 0 then [Event.getSurfacePresentModes] else [])

/-- Lines 421-424: the image count that `createSwapChain` asks for, in
`uint32_t` arithmetic. -/
def requestedImageCount (capabilities : VkSurfaceCapabilitiesKHR) : Nat :=
  let imageCount := (capabilities.minImageCount + 1) % 4294967296
  if capabilities.maxImageCount > 0 ∧ imageCount > capabilities.maxImageCount then
    capabilities.maxImageCount
  else imageCount

/-- Lines 414-465: `createSwapChain`. -/
def createSwapChain (env : RebuildEnv) (st : App) : Run :=
  let swapChainSupport := env.support
  let t0 := querySwapChainSupport swapChainSupport
  match chooseSwapSurfaceFormat swapChainSupport.formats with
  | none => { app := st, trace := t0, outcome := Outcome.undefinedBehaviour }
  | some surfaceFormat =>
    let presentMode := chooseSwapPresentMode swapChainSupport.presentModes
    let chosen := chooseSwapExtent swapChainSupport.capabilities st.window
    let extent := chosen.1
    let imageCount := requestedImageCount swapChainSupport.capabilities
    let st1 := { st with
      window := chosen.2.1
      swapChainImageFormat := surfaceFormat.format
      swapChainExtent := extent }
    let found := findQueueFamilies env.queueFamilies
    let t1 := t0 ++ chosen.2.2 ++ found.2
    match found.1.graphicsFamily, found.1.presentFamily with
    | some graphicsFamily, some presentFamily =>
      let createInfo : SwapchainCreateInfo :=
        { minImageCount := imageCount
          imageFormat := surfaceFormat.format
          imageColorSpace := surfaceFormat.colorSpace
          imageExtent := extent
          imageArrayLayers := 1
          imageUsage := VK_IMAGE_USAGE_COLOR_ATTACHMENT_BIT
          imageSharingMode :=
            if graphicsFamily ≠ presentFamily then VK_SHARING_MODE_CONCURRENT
            else VK_SHARING_MODE_EXCLUSIVE
          queueFamilyIndices :=
            if graphicsFamily ≠ presentFamily then [graphicsFamily, presentFamily] else []
          preTransform := swapChainSupport.capabilities.currentTransform
          compositeAlpha := VK_COMPOSITE_ALPHA_OPAQUE_BIT_KHR
          presentMode := presentMode
          clipped := true
          oldSwapchain := VK_NULL_HANDLE }
      if env.createSwapchainResult ≠ VK_SUCCESS then
        { app := st1, trace := t1 ++ [Event.createSwapchain createInfo],
          outcome := Outcome.threw Error.createSwapChain }
      else
        { app := { st1 with swapChain := env.newSwapchain, swapChainImages := env.newImages },
          trace := t1 ++ [Event.createSwapchain createInfo,
            Event.getSwapchainImages env.newSwapchain, Event.getSwapchainImages env.newSwapchain],
          outcome := Outcome.returned }
    | _, _ => { app := st1, trace := t1, outcome := Outcome.threw Error.badOptionalAccess }

/-- The effect of `std::vector::resize(n)` on a vector of handles. -/
def resize (v : List Nat) (n : Nat) : List Nat :=
  v.take n ++ List.replicate (n - v.length) VK_NULL_HANDLE

/-- The loop of `createImageViews` (lines 553-575), from index `i` on. -/
def createImageViews.loop (env : RebuildEnv) : List Nat → Nat → App → Run
  | [], _, st => Run.ok st
  | image :: rest, i, st =>
    let call := Event.createImageView image st.swapChainImageFormat
    if (env.createImageView i).1 ≠ VK_SUCCESS then
      { app := st, trace := [call], outcome := Outcome.threw Error.createImageViews }
    else
      Run.after [call] (createImageViews.loop env rest (i + 1)
        { st with swapChainImageViews := st.swapChainImageViews.set i (env.createImageView i).2 })

/-- Lines 551-576: `createImageViews`. -/
def createImageViews (env : RebuildEnv) (st : App) : Run :=
  createImageViews.loop env st.swapChainImages 0
    { st with swapChainImageViews := resize st.swapChainImageViews st.swapChainImages.length }

/-- Lines 588-629: `createRenderPass`. -/
def createRenderPass (env : RebuildEnv) (st : App) : Run :=
  if env.createRenderPass.1 ≠ VK_SUCCESS then
    { app := st, trace := [Event.createRenderPass st.swapChainImageFormat],
      outcome := Outcome.threw Error.createRenderPass }
  else
    { app := { st with renderPass := env.createRenderPass.2 },
      trace := [Event.createRenderPass st.swapChainImageFormat],
      outcome := Outcome.returned }

/-- The loop of `createFramebuffers` (lines 890-907), from index `i` on. -/
def createFramebuffers.loop (env : RebuildEnv) : List Nat → Nat → App → Run
  | [], _, st => Run.ok st
  | imageView :: rest, i, st =>
    let call := Event.createFramebuffer st.renderPass imageView st.swapChainExtent
    if (env.createFramebuffer i).1 ≠ VK_SUCCESS then
      { app := st, trace := [call], outcome := Outcome.threw Error.createFramebuffer }
    else
      Run.after [call] (createFramebuffers.loop env rest (i + 1)
        { st with
          swapChainFramebuffers := st.swapChainFramebuffers.set i (env.createFramebuffer i).2 })

/-- Lines 887-908: `createFramebuffers`. -/
def createFramebuffers (env : RebuildEnv) (st : App) : Run :=
  createFramebuffers.loop env st.swapChainImageViews 0
    { st with
      swapChainFramebuffers := resize st.swapChainFramebuffers st.swapChainImageViews.length }

/-- The conversion `(float)` of a `uint32_t`: the nearest number with a
24-bit significand, ties to the even one. Every `uint32_t` below 2^24 converts
to itself. -/
def floatOfUint32 (n : Nat) : Nat :=
  if n < 16777216 then n
  else
    let unit := 2 ^ (Nat.log2 n - 23)
    let q := n / unit
    let r := n % unit
    (if 2 * r > unit ∨ (2 * r = unit ∧ q % 2 = 1) then q + 1 else q) * unit

/-- The commands recorded into one command buffer (lines 955-996), up to
the call that ends the recording. -/
def recordCommands (st : App) (commandBuffer framebuffer : Nat) : List Event :=
  [Event.cmdBeginRenderPass commandBuffer st.renderPass framebuffer
     { offset := { x := 0, y := 0 }, extent := st.swapChainExtent } 1,
   Event.cmdBindPipeline commandBuffer st.graphicsPipeline,
   Event.cmdSetViewport commandBuffer
     { x := 0, y := 0,
       width := floatOfUint32 st.swapChainExtent.width,
       height := floatOfUint32 st.swapChainExtent.height,
       minDepth := 0, maxDepth := 1 },
   Event.cmdSetScissor commandBuffer
     { offset := { x := 0, y := 0 }, extent := st.swapChainExtent },
   Event.cmdDraw commandBuffer 3 1 0 0,
   Event.cmdEndRenderPass commandBuffer,
   Event.endCommandBuffer commandBuffer]

/-- The recording loop of `createCommandBuffers` (lines 946-1000), over the
command buffers paired with their framebuffers, from index `i` on. -/
def createCommandBuffers.loop (env : RebuildEnv) (st : App) : List (Nat × Nat) → Nat → Run
  | [], _ => Run.ok st
  | (commandBuffer, framebuffer) :: rest, i =>
    if env.beginResult i ≠ VK_SUCCESS then
      { app := st, trace := [Event.beginCommandBuffer commandBuffer],
        outcome := Outcome.threw Error.beginCommandBuffer }
    else if env.endResult i ≠ VK_SUCCESS then
      { app := st,
        trace := Event.beginCommandBuffer commandBuffer
          :: recordCommands st commandBuffer framebuffer,
        outcome := Outcome.threw Error.recordCommandBuffer }
    else
      Run.after (Event.beginCommandBuffer commandBuffer
          :: recordCommands st commandBuffer framebuffer)
        (createCommandBuffers.loop env st rest (i + 1))

/-- Lines 935-1001: `createCommandBuffers`. -/
def createCommandBuffers (env : RebuildEnv) (st : App) : Run :=
  let count := st.swapChainFramebuffers.length
  let call := Event.allocateCommandBuffers st.commandPool count
  if env.allocateResult ≠ VK_SUCCESS then
    { app := { st with commandBuffers := resize st.commandBuffers count },
      trace := [call], outcome := Outcome.threw Error.allocateCommandBuffers }
  else
    let st1 := { st with commandBuffers := (List.range count).map env.newCommandBuffer }
    Run.after [call]
      (createCommandBuffers.loop env st1 (st1.commandBuffers.zip st1.swapChainFramebuffers) 0)

/-- Lines 1124-1137: `cleanupOldSwapChain`. -/
def cleanupOldSwapChain (st : App) : Run :=
  { app := st,
    trace := st.swapChainFramebuffers.map Event.destroyFramebuffer
      ++ [Event.freeCommandBuffers st.commandPool st.commandBuffers,
          Event.destroyRenderPass st.renderPass]
      ++ st.swapChainImageViews.map Event.destroyImageView
      ++ [Event.destroySwapchain st.swapChain],
    outcome := Outcome.returned }

/-- The loop `while (width == 0 || height == 0)` of `recreateSwapChain`
(lines 1143-1146), with the sizes the window still has to report. When they
are used up and the window stays at a zero size, the loop never ends. -/
def recreateSwapChain.wait : List (Int × Int) → Int → Int → App → Run
  | [], width, height, st =>
    if width = 0 ∨ height = 0 then
      if st.window.lastSize.1 = 0 ∨ st.window.lastSize.2 = 0 then
        { app := st, trace := [], outcome := Outcome.blocked }
      else
        { app := glfwWaitEvents st, trace := [Event.getFramebufferSize, Event.waitEvents],
          outcome := Outcome.returned }
    else Run.ok st
  | size :: rest, width, height, st =>
    if width = 0 ∨ height = 0 then
      Run.after [Event.getFramebufferSize, Event.waitEvents]
        (recreateSwapChain.wait rest size.1 size.2
          (glfwWaitEvents { st with window := { st.window with sizes := rest } }))
    else Run.ok st

/-- Lines 1139-1158: `recreateSwapChain`. -/
def recreateSwapChain (env : RebuildEnv) (st : App) : Run :=
  let read := st.window.getFramebufferSize
  Run.after [Event.recreateSwapChain, Event.getFramebufferSize]
    (((((((recreateSwapChain.wait read.2.sizes read.1.1 read.1.2
        { st with window := read.2 }).andThen
      (fun st1 => Run.after [Event.deviceWaitIdle] (cleanupOldSwapChain st1))).andThen
      (createSwapChain env)).andThen
      (createImageViews env)).andThen
      (createRenderPass env)).andThen
      (createFramebuffers env)).andThen
      (createCommandBuffers env))

/-! ## Drawing a frame -/

/-- Line 1108: `currentFrame = (currentFrame + 1) % MAX_FRAMES_IN_FLIGHT`. -/
def advanceFrame (st : App) : App :=
  { st with currentFrame := (st.currentFrame + 1) % MAX_FRAMES_IN_FLIGHT }

/-- Lines 1046-1110: `drawFrame`. -/
def drawFrame (env : FrameEnv) (st : App) : Run :=
  match st.inFlightFences[st.currentFrame]? with
  | none => { app := st, trace := [], outcome := Outcome.undefinedBehaviour }
  | some inFlightFence =>
  match st.imageAvailableSemaphores[st.currentFrame]? with
  | none =>
    { app := st, trace := [Event.waitForFences inFlightFence],
      outcome := Outcome.undefinedBehaviour }
  | some imageAvailableSemaphore =>
  let t0 := [Event.waitForFences inFlightFence,
    Event.acquireNextImage st.swapChain imageAvailableSemaphore]
  let imageIndex := env.imageIndex
  if env.acquireResult = VK_ERROR_OUT_OF_DATE_KHR then
    Run.after t0 (recreateSwapChain env.rebuild st)
  else if env.acquireResult ≠ VK_SUCCESS ∧ env.acquireResult ≠ VK_SUBOPTIMAL_KHR then
    { app := st, trace := t0, outcome := Outcome.threw Error.acquireImage }
  else
  match st.imagesInFlight[imageIndex]? with
  | none => { app := st, trace := t0, outcome := Outcome.undefinedBehaviour }
  | some imageFence =>
  let t1 := t0 ++ (if imageFence ≠ VK_NULL_HANDLE then [Event.waitForFences imageFence] else [])
  let st1 := { st with imagesInFlight := st.imagesInFlight.set imageIndex inFlightFence }
  match st1.commandBuffers[imageIndex]?, st1.renderFinishedSemaphores[st1.currentFrame]? with
  | some commandBuffer, some renderFinishedSemaphore =>
    let submitInfo : SubmitInfo :=
      { waitSemaphores := [imageAvailableSemaphore]
        waitDstStageMask := [VK_PIPELINE_STAGE_COLOR_ATTACHMENT_OUTPUT_BIT]
        commandBuffers := [commandBuffer]
        signalSemaphores := [renderFinishedSemaphore] }
    let t2 := t1 ++ [Event.resetFences inFlightFence,
      Event.queueSubmit imageIndex submitInfo inFlightFence]
    if env.submitResult ≠ VK_SUCCESS then
      { app := st1, trace := t2, outcome := Outcome.threw Error.submitDraw }
    else
      let presentInfo : PresentInfo :=
        { waitSemaphores := [renderFinishedSemaphore]
          swapchains := [st1.swapChain]
          imageIndices := [imageIndex] }
      let t3 := t2 ++ [Event.queuePresent presentInfo]
      if env.presentResult = VK_ERROR_OUT_OF_DATE_KHR ∨ env.presentResult = VK_SUBOPTIMAL_KHR
          ∨ st1.framebufferResized = true then
        (Run.after t3
          (recreateSwapChain env.rebuild { st1 with framebufferResized := false })).andThen
          (fun st2 => Run.ok (advanceFrame st2))
      else if env.presentResult ≠ VK_SUCCESS then
        { app := st1, trace := t3, outcome := Outcome.threw Error.presentImage }
      else
        { app := advanceFrame st1, trace := t3, outcome := Outcome.returned }
  | _, _ => { app := st1, trace := t1, outcome := Outcome.undefinedBehaviour }

/-- Consecutive calls of `drawFrame`, one per entry of `envs`; a call is made
only when the one before it returned. -/
def drawFrames : List FrameEnv → App → Run
  | [], st => Run.ok st
  | env :: envs, st => (drawFrame env st).andThen (drawFrames envs)

/-! ## The objects that outlive a swapchain -/

/-- Lines 866-875: `createShaderModule`, with the answer of
`vkCreateShaderModule`. -/
def createShaderModule (answer : Int × Nat) (st : App) : Run :=
  { app := st, trace := [Event.createShaderModule],
    outcome := if answer.1 ≠ VK_SUCCESS then Outcome.threw Error.createShaderModule
      else Outcome.returned }

/-- Lines 633-836: `createGraphicsPipeline`, as far as it calls Vulkan: two
shader modules, the pipeline layout, the pipeline, and the two shader modules
destroyed again. -/
def createGraphicsPipeline (env : PipelineEnv) (st : App) : Run :=
  ((createShaderModule env.vertShaderModule st).andThen
    (createShaderModule env.fragShaderModule)).andThen (fun st1 =>
      if env.createPipelineLayout.1 ≠ VK_SUCCESS then
        { app := st1, trace := [Event.createPipelineLayout],
          outcome := Outcome.threw Error.createPipelineLayout }
      else
        let st2 := { st1 with pipelineLayout := env.createPipelineLayout.2 }
        let calls := [Event.createPipelineLayout,
          Event.createGraphicsPipelines st2.pipelineLayout st2.renderPass]
        if env.createGraphicsPipelines.1 ≠ VK_SUCCESS then
          { app := st2, trace := calls, outcome := Outcome.threw Error.createGraphicsPipeline }
        else
          { app := { st2 with graphicsPipeline := env.createGraphicsPipelines.2 },
            trace := calls ++ [Event.destroyShaderModule env.fragShaderModule.2,
              Event.destroyShaderModule env.vertShaderModule.2],
            outcome := Outcome.returned })

/-- Lines 924-933: `createCommandPool`, with the queue families of the
device and the answer of `vkCreateCommandPool`. -/
def createCommandPool (queueFamilies : List QueueFamily) (answer : Int × Nat) (st : App) :
    Run :=
  let found := findQueueFamilies queueFamilies
  match found.1.graphicsFamily with
  | none => { app := st, trace := found.2, outcome := Outcome.threw Error.badOptionalAccess }
  | some graphicsFamily =>
    if answer.1 ≠ VK_SUCCESS then
      { app := st, trace := found.2 ++ [Event.createCommandPool graphicsFamily],
        outcome := Outcome.threw Error.createCommandPool }
    else
      { app := { st with commandPool := answer.2 },
        trace := found.2 ++ [Event.createCommandPool graphicsFamily],
        outcome := Outcome.returned }

/-- The loop of `createSynchObjects` (lines 1037-1043) for the `remaining`
slots from `i` on; the three creations of a slot are joined by `||`, so the
first failure skips the rest. -/
def createSynchObjects.loop (env : SyncEnv) : Nat → Nat → App → Run
  | 0, _, st => Run.ok st
  | remaining + 1, i, st =>
    if (env.imageAvailable i).1 ≠ VK_SUCCESS then
      { app := st, trace := [Event.createSemaphore],
        outcome := Outcome.threw Error.createSynchObjects }
    else
      let st1 := { st with
        imageAvailableSemaphores := st.imageAvailableSemaphores.set i (env.imageAvailable i).2 }
      if (env.renderFinished i).1 ≠ VK_SUCCESS then
        { app := st1, trace := [Event.createSemaphore, Event.createSemaphore],
          outcome := Outcome.threw Error.createSynchObjects }
      else
        let st2 := { st1 with
          renderFinishedSemaphores :=
            st1.renderFinishedSemaphores.set i (env.renderFinished i).2 }
        if (env.inFlight i).1 ≠ VK_SUCCESS then
          { app := st2,
            trace := [Event.createSemaphore, Event.createSemaphore, Event.createFence true],
            outcome := Outcome.threw Error.createSynchObjects }
        else
          Run.after [Event.createSemaphore, Event.createSemaphore, Event.createFence true]
            (createSynchObjects.loop env remaining (i + 1)
              { st2 with inFlightFences := st2.inFlightFences.set i (env.inFlight i).2 })

/-- Lines 1025-1044: `createSynchObjects`. -/
def createSynchObjects (env : SyncEnv) (st : App) : Run :=
  createSynchObjects.loop env MAX_FRAMES_IN_FLIGHT 0
    { st with
      imageAvailableSemaphores := resize st.imageAvailableSemaphores MAX_FRAMES_IN_FLIGHT
      renderFinishedSemaphores := resize st.renderFinishedSemaphores MAX_FRAMES_IN_FLIGHT
      inFlightFences := resize st.inFlightFences MAX_FRAMES_IN_FLIGHT
      imagesInFlight := resize st.imagesInFlight st.swapChainImages.length }

/-- The loop of `cleanup` (lines 1167-1171) over the frame slots: the three
vectors of the ring, read side by side. -/
def cleanup.loop : List (Nat × Nat × Nat) → List Event
  | [] => []
  | (renderFinished, imageAvailable, inFlight) :: rest =>
    Event.destroySemaphore renderFinished :: Event.destroySemaphore imageAvailable
      :: Event.destroyFence inFlight :: cleanup.loop rest

/-- Lines 1161-1178: `cleanup`. The loop runs over `MAX_FRAMES_IN_FLIGHT`
slots, which the three vectors have after `createSynchObjects`. -/
def cleanup (st : App) : Run :=
  let ring := st.renderFinishedSemaphores.zip
    (st.imageAvailableSemaphores.zip st.inFlightFences)
  let calls := (cleanupOldSwapChain st).trace
    ++ [Event.destroyPipeline st.graphicsPipeline,
        Event.destroyPipelineLayout st.pipelineLayout]
  if ring.length < MAX_FRAMES_IN_FLIGHT then
    { app := st, trace := calls, outcome := Outcome.undefinedBehaviour }
  else
    { app := st,
      trace := calls ++ cleanup.loop (ring.take MAX_FRAMES_IN_FLIGHT)
        ++ [Event.destroyCommandPool st.commandPool, Event.destroyDevice, Event.destroySurface,
            Event.destroyInstance, Event.destroyWindow, Event.terminate],
      outcome := Outcome.returned }

/-! ## Start-up, main loop and shutdown -/

/-- Lines 44-47: the validation layers asked for. -/
def validationLayers : List String := ["VK_LAYER_KHRONOS_validation"]

/-- Lines 48-50: the device extensions required; the name is the value of the
macro `VK_KHR_SWAPCHAIN_EXTENSION_NAME` of the Vulkan headers. -/
def deviceExtensions : List String := ["VK_KHR_swapchain"]

/-- Lines 52-56: `NDEBUG` is not defined, so the validation layers are on. -/
def enableValidationLayers : Bool := true

/-- Lines 98-105: `initWindow`. The window it creates is the one behind
`App.window`. -/
def initWindow (st : App) : Run :=
  { app := st, trace := [Event.glfwInit, Event.createWindow WIDTH HEIGHT],
    outcome := Outcome.returned }

/-- Lines 181-201: `checkValidationLayerSupport`, with the layers that the
instance lists. -/
def checkValidationLayerSupport (availableLayers : List String) : Bool :=
  validationLayers.all (fun layerName =>
    availableLayers.any (fun layerProperties => decide (layerName = layerProperties)))

/-- Lines 129-179: `createInstance`, with `showInstanceInfo` at its end. -/
def createInstance (env : InitEnv) (st : App) : Run :=
  let layerCalls := if enableValidationLayers then
    [Event.enumerateInstanceLayerProperties, Event.enumerateInstanceLayerProperties] else []
  if enableValidationLayers && !checkValidationLayerSupport env.availableLayers then
    { app := st, trace := layerCalls, outcome := Outcome.threw Error.validationLayers }
  else
    let calls := layerCalls ++ [Event.getRequiredInstanceExtensions, Event.createInstance]
    if env.createInstanceResult ≠ VK_SUCCESS then
      { app := st, trace := calls, outcome := Outcome.threw Error.createInstance }
    else
      { app := st,
        trace := calls ++ [Event.enumerateInstanceExtensionProperties,
          Event.enumerateInstanceExtensionProperties],
        outcome := Outcome.returned }

/-- Lines 241-245: `createSurface`, with the result of
`glfwCreateWindowSurface`. -/
def createSurface (result : Int) (st : App) : Run :=
  { app := st, trace := [Event.createSurface],
    outcome := if result ≠ VK_SUCCESS then Outcome.threw Error.createSurface
      else Outcome.returned }

/-- Lines 343-355: `checkDeviceExtensionSupport`. The `std::set` of required
names is a list; `erase` takes a name out of it. -/
def checkDeviceExtensionSupport (availableExtensions : List String) : Bool × List Event :=
  let requiredExtensions := availableExtensions.foldl
    (fun required extensionName => required.filter (fun name => decide (name ≠ extensionName)))
    deviceExtensions
  (requiredExtensions.isEmpty,
    [Event.enumerateDeviceExtensionProperties, Event.enumerateDeviceExtensionProperties])

/-- Lines 270-301: `isDeviceSuitable`: its value and the calls it makes. The
swapchain support is queried only when the extensions are supported. -/
def isDeviceSuitable (device : PhysicalDevice) : Bool × List Event :=
  let found := findQueueFamilies device.queueFamilies
  let extensionsSupported := checkDeviceExtensionSupport device.availableExtensions
  let swapChainAdequate :=
    if extensionsSupported.1 then
      !device.support.formats.isEmpty && !device.support.presentModes.isEmpty
    else false
  (found.1.isComplete && extensionsSupported.1 && swapChainAdequate,
    found.2 ++ extensionsSupported.2
      ++ (if extensionsSupported.1 then querySwapChainSupport device.support else []))

/-- The loop of `pickPhysicalDevice` (lines 260-265): the first suitable
device, if there is one, and the calls made. -/
def pickPhysicalDevice.loop : List PhysicalDevice → Option PhysicalDevice × List Event
  | [] => (none, [])
  | device :: rest =>
    if (isDeviceSuitable device).1 then (some device, (isDeviceSuitable device).2)
    else
      ((pickPhysicalDevice.loop rest).1,
        (isDeviceSuitable device).2 ++ (pickPhysicalDevice.loop rest).2)

/-- Lines 249-268: `pickPhysicalDevice`. The member `physicalDevice` starts
as `VK_NULL_HANDLE` (line 75) and is tested against it after the loop. -/
def pickPhysicalDevice (devices : List PhysicalDevice) : Picked × List Event :=
  if devices.length = 0 then
    (Picked.threw Error.noVulkanGpu, [Event.enumeratePhysicalDevices])
  else
    let calls := [Event.enumeratePhysicalDevices, Event.enumeratePhysicalDevices]
      ++ (pickPhysicalDevice.loop devices).2
    match (pickPhysicalDevice.loop devices).1 with
    | none => (Picked.threw Error.noSuitableGpu, calls)
    | some device =>
      if device.handle = VK_NULL_HANDLE then (Picked.threw Error.noSuitableGpu, calls)
      else (Picked.device device, calls)

/-- Lines 359-404: `createLogicalDevice`, with the queue families of the
picked device and the result of `vkCreateDevice`. The `std::set` of the two
family indices is listed in ascending order. -/
def createLogicalDevice (queueFamilies : List QueueFamily) (result : Int) (st : App) : Run :=
  let found := findQueueFamilies queueFamilies
  match found.1.graphicsFamily, found.1.presentFamily with
  | some graphicsFamily, some presentFamily =>
    let uniqueQueueFamilies :=
      if graphicsFamily = presentFamily then [graphicsFamily]
      else if graphicsFamily < presentFamily then [graphicsFamily, presentFamily]
      else [presentFamily, graphicsFamily]
    if result ≠ VK_SUCCESS then
      { app := st, trace := found.2 ++ [Event.createDevice uniqueQueueFamilies],
        outcome := Outcome.threw Error.createLogicalDevice }
    else
      { app := st,
        trace := found.2 ++ [Event.createDevice uniqueQueueFamilies,
          Event.getDeviceQueue graphicsFamily, Event.getDeviceQueue presentFamily],
        outcome := Outcome.returned }
  | _, _ => { app := st, trace := found.2, outcome := Outcome.threw Error.badOptionalAccess }

/-- The steps of `initVulkan` after `pickPhysicalDevice` (lines 116-126), on
the device that was picked. -/
def initVulkan.onDevice (env : InitEnv) (device : PhysicalDevice) (st : App) : Run :=
  let build := { env.build with
    support := device.support, queueFamilies := device.queueFamilies }
  ((((((((createLogicalDevice device.queueFamilies env.createDeviceResult st).andThen
    (createSwapChain build)).andThen
    (createImageViews build)).andThen
    (createRenderPass build)).andThen
    (createGraphicsPipeline env.pipeline)).andThen
    (createFramebuffers build)).andThen
    (createCommandPool device.queueFamilies env.commandPool)).andThen
    (createCommandBuffers build)).andThen
    (createSynchObjects env.sync)

/-- Lines 112-127: `initVulkan`. -/
def initVulkan (env : InitEnv) (st : App) : Run :=
  ((createInstance env st).andThen (createSurface env.createSurfaceResult)).andThen
    (fun st1 =>
      match (pickPhysicalDevice env.devices).1 with
      | Picked.threw error =>
        { app := st1, trace := (pickPhysicalDevice env.devices).2,
          outcome := Outcome.threw error }
      | Picked.device device =>
        Run.after (pickPhysicalDevice env.devices).2 (initVulkan.onDevice env device st1))

/-- One call of `glfwPollEvents`: the pending events are delivered as in
`glfwWaitEvents`, without waiting for one. -/
def glfwPollEvents (st : App) : App :=
  glfwWaitEvents st

/-- Lines 1113-1119: `mainLoop`, for a window that asks to close after as
many rounds as `frames` has entries; `Event.drawFrame` marks the entry into
`drawFrame`. -/
def mainLoop : List FrameEnv → App → Run
  | [], st =>
    { app := st, trace := [Event.windowShouldClose, Event.deviceWaitIdle],
      outcome := Outcome.returned }
  | env :: frames, st =>
    Run.after [Event.windowShouldClose, Event.pollEvents, Event.drawFrame]
      ((drawFrame env (glfwPollEvents st)).andThen (mainLoop frames))

/-- Lines 64-69: `run`. -/
def run (env : InitEnv) (frames : List FrameEnv) (st : App) : Run :=
  (((initWindow st).andThen (initVulkan env)).andThen (mainLoop frames)).andThen cleanup

/-! ## Vocabulary of the statements -/

/-- The call is a `vkQueueSubmit`. -/
def Event.isSubmit : Event → Bool
  | Event.queueSubmit _ _ _ => true
  | _ => false

/-- The call is a `vkResetFences`. -/
def Event.isReset : Event → Bool
  | Event.resetFences _ => true
  | _ => false

/-- The call is a `vkQueuePresentKHR`. -/
def Event.isPresent : Event → Bool
  | Event.queuePresent _ => true
  | _ => false

/-- The call is a `vkAcquireNextImageKHR`. -/
def Event.isAcquire : Event → Bool
  | Event.acquireNextImage _ _ => true
  | _ => false

/-- The call is one that a rebuild makes after its entry: the reads of the
framebuffer size, the event wait, the drain, the teardown and the build calls
of the swapchain and of what depends on it. The five calls of `drawFrame`
itself (fence wait, acquire, fence reset, submit, present), the entry into
`recreateSwapChain`, and the calls that create or destroy the pipeline, the
pipeline layout, the command pool, the semaphores and fences, the device, the
surface, the instance and the window, the calls of the start-up and the calls
of the main loop are not. -/
def Event.isRebuildStep : Event → Bool
  | Event.waitForFences _ => false
  | Event.acquireNextImage _ _ => false
  | Event.resetFences _ => false
  | Event.queueSubmit _ _ _ => false
  | Event.queuePresent _ => false
  | Event.recreateSwapChain => false
  | Event.createShaderModule => false
  | Event.destroyShaderModule _ => false
  | Event.createPipelineLayout => false
  | Event.createGraphicsPipelines _ _ => false
  | Event.createCommandPool _ => false
  | Event.createSemaphore => false
  | Event.createFence _ => false
  | Event.destroyPipeline _ => false
  | Event.destroyPipelineLayout _ => false
  | Event.destroySemaphore _ => false
  | Event.destroyFence _ => false
  | Event.destroyCommandPool _ => false
  | Event.destroyDevice => false
  | Event.destroySurface => false
  | Event.destroyInstance => false
  | Event.destroyWindow => false
  | Event.terminate => false
  | Event.glfwInit => false
  | Event.createWindow _ _ => false
  | Event.enumerateInstanceLayerProperties => false
  | Event.getRequiredInstanceExtensions => false
  | Event.createInstance => false
  | Event.enumerateInstanceExtensionProperties => false
  | Event.createSurface => false
  | Event.enumeratePhysicalDevices => false
  | Event.enumerateDeviceExtensionProperties => false
  | Event.createDevice _ => false
  | Event.getDeviceQueue _ => false
  | Event.windowShouldClose => false
  | Event.pollEvents => false
  | Event.drawFrame => false
  | _ => true

/-- The two objects have the same frame-slot ring, the same image-in-flight
map and the same current slot. -/
def SameRing (a b : App) : Prop :=
  a.currentFrame = b.currentFrame ∧ a.imagesInFlight = b.imagesInFlight
    ∧ a.inFlightFences = b.inFlightFences
    ∧ a.imageAvailableSemaphores = b.imageAvailableSemaphores
    ∧ a.renderFinishedSemaphores = b.renderFinishedSemaphores

/-- The error is one of the three that `drawFrame` throws itself. -/
def Error.isFrameError : Error → Bool
  | Error.acquireImage => true
  | Error.submitDraw => true
  | Error.presentImage => true
  | _ => false

/-- The run did not end with one of the three errors of `drawFrame`. -/
def Outcome.noFrameError : Outcome → Bool
  | Outcome.threw error => !error.isFrameError
  | _ => true

/-- A run from `st` that leaves the ring alone, makes only calls of a
rebuild and throws none of the errors of `drawFrame`. -/
def Quiet (st : App) (r : Run) : Prop :=
  SameRing st r.app ∧ (∀ e ∈ r.trace, e.isRebuildStep = true) ∧ r.outcome.noFrameError = true

/-- What `createSynchObjects` (lines 1025-1044) leaves behind, as far as
`drawFrame` depends on it: the three vectors of the ring have
`MAX_FRAMES_IN_FLIGHT` entries, the fences are created handles, and
`currentFrame` is a slot of the ring. -/
def RingOk (st : App) : Prop :=
  st.imageAvailableSemaphores.length = MAX_FRAMES_IN_FLIGHT
    ∧ st.renderFinishedSemaphores.length = MAX_FRAMES_IN_FLIGHT
    ∧ st.inFlightFences.length = MAX_FRAMES_IN_FLIGHT
    ∧ (∀ fence ∈ st.inFlightFences, fence ≠ VK_NULL_HANDLE)
    ∧ st.currentFrame < MAX_FRAMES_IN_FLIGHT

/-- The acquired image index is an index of the image-in-flight map and of
the command buffers. -/
def IndexOk (env : FrameEnv) (st : App) : Prop :=
  env.imageIndex < st.imagesInFlight.length ∧ env.imageIndex < st.commandBuffers.length

/-- The fence of the current frame slot (`VK_NULL_HANDLE` outside the ring). -/
def App.slotFence (st : App) : Nat :=
  st.inFlightFences.getD st.currentFrame VK_NULL_HANDLE

/-- The part of a trace before its first fence reset or submission. -/
def beforeSubmission (trace : List Event) : List Event :=
  trace.takeWhile (fun e => !(e.isReset || e.isSubmit))

/-- The part of a trace before its first acquire call. -/
def beforeAcquire (trace : List Event) : List Event :=
  trace.takeWhile (fun e => !e.isAcquire)

/-- The number of rebuilds started in a trace. -/
def rebuildCount (trace : List Event) : Nat :=
  trace.count Event.recreateSwapChain

/-- The part of a trace after its first present call. -/
def afterPresent (trace : List Event) : List Event :=
  (trace.dropWhile (fun e => !e.isPresent)).drop 1

/-- The part of a trace before its first present call. -/
def beforePresent (trace : List Event) : List Event :=
  trace.takeWhile (fun e => !e.isPresent)

/-- The traces of the single calls in a run of consecutive `drawFrame`
calls, in order. -/
def frameTraces : List FrameEnv → App → List (List Event)
  | [], _ => []
  | env :: envs, st =>
    (drawFrame env st).trace ::
      (match (drawFrame env st).outcome with
       | Outcome.returned => frameTraces envs (drawFrame env st).app
       | _ => [])

/-- The size has a zero width or a zero height: the test of the loop of
`recreateSwapChain` (line 1143). -/
def zeroExtent (size : Int × Int) : Bool :=
  decide (size.1 = 0 ∨ size.2 = 0)

/-- The number of zero-extent sizes at the head of a list of sizes. -/
def leadingZeros (sizes : List (Int × Int)) : Nat :=
  (sizes.takeWhile zeroExtent).length

/-- The size that a window reports at its read number `j`, counted from 0. -/
def Window.report (w : Window) (j : Nat) : Int × Int :=
  w.sizes.getD j w.lastSize

/-- The calls of `k` rounds of the loop of `recreateSwapChain`: a read of the
framebuffer size and a wait for events in each round. -/
def polls (k : Nat) : List Event :=
  (List.replicate k [Event.getFramebufferSize, Event.waitEvents]).flatten

/-- Lines 1152-1157: the five build steps of `recreateSwapChain`. -/
def buildSteps (env : RebuildEnv) (st : App) : Run :=
  ((((createSwapChain env st).andThen (createImageViews env)).andThen
    (createRenderPass env)).andThen (createFramebuffers env)).andThen
    (createCommandBuffers env)

/-- The window delivers no framebuffer-size event in the event waits to
come, so that `framebufferResizeCallback` does not run in them. -/
def NoResizeEvent (window : Window) : Prop :=
  ∀ fired ∈ window.resizeEvents, fired = false

/-- From `a` to `b` the pipeline, its layout and the command pool are the
same; and when the window of `a` delivers no framebuffer-size event, the
resized flag is the same and the window of `b` delivers none either. -/
def Kept (a b : App) : Prop :=
  b.graphicsPipeline = a.graphicsPipeline ∧ b.pipelineLayout = a.pipelineLayout
    ∧ b.commandPool = a.commandPool
    ∧ (NoResizeEvent a.window →
        b.framebufferResized = a.framebufferResized ∧ NoResizeEvent b.window)

/-- The call creates or destroys a semaphore, a fence, the pipeline, the
pipeline layout or the command pool. -/
def Event.touchesPersistent : Event → Bool
  | Event.createPipelineLayout => true
  | Event.createGraphicsPipelines _ _ => true
  | Event.createCommandPool _ => true
  | Event.createSemaphore => true
  | Event.createFence _ => true
  | Event.destroyPipeline _ => true
  | Event.destroyPipelineLayout _ => true
  | Event.destroySemaphore _ => true
  | Event.destroyFence _ => true
  | Event.destroyCommandPool _ => true
  | _ => false

/-- The calls that `createSwapChain` makes before `vkCreateSwapchainKHR`:
the query of the surface support, capabilities first; the read of the
framebuffer size, made when the surface leaves the extent open; the query of
the queue families. -/
def swapchainQueries (env : RebuildEnv) : List Event :=
  querySwapChainSupport env.support
    ++ (if env.support.capabilities.currentExtent.width ≠ UINT32_MAX then []
        else [Event.getFramebufferSize])
    ++ (findQueueFamilies env.queueFamilies).2

/-- The calls that record the command buffers, each paired with its
framebuffer, in the object `st`. -/
def recordingCalls (st : App) (buffers : List (Nat × Nat)) : List Event :=
  buffers.flatMap (fun p => Event.beginCommandBuffer p.1 :: recordCommands st p.1 p.2)

/-- The call destroys or frees a Vulkan or GLFW object. -/
def Event.isDestroy : Event → Bool
  | Event.destroyFramebuffer _ => true
  | Event.freeCommandBuffers _ _ => true
  | Event.destroyRenderPass _ => true
  | Event.destroyImageView _ => true
  | Event.destroySwapchain _ => true
  | Event.destroyShaderModule _ => true
  | Event.destroyPipeline _ => true
  | Event.destroyPipelineLayout _ => true
  | Event.destroySemaphore _ => true
  | Event.destroyFence _ => true
  | Event.destroyCommandPool _ => true
  | Event.destroyDevice => true
  | Event.destroySurface => true
  | Event.destroyInstance => true
  | Event.destroyWindow => true
  | _ => false

/-- The call creates or allocates a Vulkan object. -/
def Event.isCreate : Event → Bool
  | Event.createSwapchain _ => true
  | Event.createImageView _ _ => true
  | Event.createRenderPass _ => true
  | Event.createFramebuffer _ _ _ => true
  | Event.allocateCommandBuffers _ _ => true
  | Event.createShaderModule => true
  | Event.createPipelineLayout => true
  | Event.createGraphicsPipelines _ _ => true
  | Event.createCommandPool _ => true
  | Event.createSemaphore => true
  | Event.createFence _ => true
  | _ => false

/-- The call is one that the five build steps make: a query of the surface,
of the framebuffer size or of the queue families, a creation or allocation of
an object of the swapchain, or a call that records a command buffer. -/
def Event.isBuildStep : Event → Bool
  | Event.getFramebufferSize => true
  | Event.getSurfaceCapabilities => true
  | Event.getSurfaceFormats => true
  | Event.getSurfacePresentModes => true
  | Event.getQueueFamilyProperties => true
  | Event.getSurfaceSupport _ => true
  | Event.createSwapchain _ => true
  | Event.getSwapchainImages _ => true
  | Event.createImageView _ _ => true
  | Event.createRenderPass _ => true
  | Event.createFramebuffer _ _ _ => true
  | Event.allocateCommandBuffers _ _ => true
  | Event.beginCommandBuffer _ => true
  | Event.cmdBeginRenderPass _ _ _ _ _ => true
  | Event.cmdBindPipeline _ _ => true
  | Event.cmdSetViewport _ _ => true
  | Event.cmdSetScissor _ _ => true
  | Event.cmdDraw _ _ _ _ _ => true
  | Event.cmdEndRenderPass _ => true
  | Event.endCommandBuffer _ => true
  | _ => false

/-- The call is `vkDeviceWaitIdle`. -/
def Event.isDrain : Event → Bool
  | Event.deviceWaitIdle => true
  | _ => false

/-- The call is `vkDestroySwapchainKHR`. -/
def Event.isSwapchainDestroy : Event → Bool
  | Event.destroySwapchain _ => true
  | _ => false

/-- The queue family has the graphics bit: the test of line 325. -/
def QueueFamily.hasGraphics (queueFamily : QueueFamily) : Bool :=
  decide (queueFamily.queueFlags &&& VK_QUEUE_GRAPHICS_BIT ≠ 0)

/-- Among the families at the positions 0 to `j` one has the graphics bit and
one supports presentation. -/
def bothFoundBy (queueFamilies : List QueueFamily) (j : Nat) : Bool :=
  (queueFamilies.take (j + 1)).any QueueFamily.hasGraphics
    && (queueFamilies.take (j + 1)).any (fun q => q.presentSupport)

/-- The call is one of the five Vulkan calls of `drawFrame` itself. -/
def Event.isFrameCall : Event → Bool
  | Event.waitForFences _ => true
  | Event.acquireNextImage _ _ => true
  | Event.resetFences _ => true
  | Event.queueSubmit _ _ _ => true
  | Event.queuePresent _ => true
  | _ => false

/-- The call is one that `initWindow` or `initVulkan` makes. -/
def Event.isSetupStep : Event → Bool
  | Event.glfwInit => true
  | Event.createWindow _ _ => true
  | Event.enumerateInstanceLayerProperties => true
  | Event.getRequiredInstanceExtensions => true
  | Event.createInstance => true
  | Event.enumerateInstanceExtensionProperties => true
  | Event.createSurface => true
  | Event.enumeratePhysicalDevices => true
  | Event.enumerateDeviceExtensionProperties => true
  | Event.createDevice _ => true
  | Event.getDeviceQueue _ => true
  | Event.createShaderModule => true
  | Event.destroyShaderModule _ => true
  | Event.createPipelineLayout => true
  | Event.createGraphicsPipelines _ _ => true
  | Event.createCommandPool _ => true
  | Event.createSemaphore => true
  | Event.createFence _ => true
  | e => e.isBuildStep

/-- Whether a submission is pending after the call `e`, given whether one was
pending before it: a submission makes one pending, a device drain leaves none
pending. -/
def Event.pending (e : Event) (before : Bool) : Bool :=
  if e.isSubmit then true else if e.isDrain then false else before

/-- Whether a submission is pending at the end of a trace. -/
def pendingAfter : Bool → List Event → Bool
  | before, [] => before
  | before, e :: rest => pendingAfter (e.pending before) rest

/-- No call of the trace destroys an object while a submission is pending:
every destroy call that follows a submission has a device drain between the
submission and itself. -/
def destroysDrained : Bool → List Event → Bool
  | _, [] => true
  | before, e :: rest => !(e.isDestroy && before) && destroysDrained (e.pending before) rest

/-- The part of a trace after its last submission (the whole trace when it
has none). -/
def afterLastSubmit (trace : List Event) : List Event :=
  (trace.reverse.takeWhile (fun e => !e.isSubmit)).reverse

/-- The part of a trace before its last device drain. -/
def beforeLastDrain (trace : List Event) : List Event :=
  ((trace.reverse.dropWhile (fun e => !e.isDrain)).drop 1).reverse

/-- The call is `vkCreateSwapchainKHR`. -/
def Event.isSwapchainCreate : Event → Bool
  | Event.createSwapchain _ => true
  | _ => false

/-- The part of a trace before its first creation of a swapchain. -/
def beforeSwapchainCreate (trace : List Event) : List Event :=
  trace.takeWhile (fun e => !e.isSwapchainCreate)

/-- The part of a trace before its first device drain. -/
def beforeDrain (trace : List Event) : List Event :=
  trace.takeWhile (fun e => !e.isDrain)

/-- The part of a trace before its first destruction of a swapchain. -/
def beforeSwapchainDestroy (trace : List Event) : List Event :=
  trace.takeWhile (fun e => !e.isSwapchainDestroy)

/-- The pair that `chooseSwapSurfaceFormat` looks for (lines 500-501). -/
def preferredSurfaceFormat : VkSurfaceFormatKHR :=
  { format := VK_FORMAT_B8G8R8A8_UNORM, colorSpace := VK_COLOR_SPACE_SRGB_NONLINEAR_KHR }

/-- The `VkSubmitInfo` of a frame (lines 1067-1081). -/
def frameSubmitInfo (imageAvailable renderFinished commandBuffer : Nat) : SubmitInfo :=
  { waitSemaphores := [imageAvailable]
    waitDstStageMask := [VK_PIPELINE_STAGE_COLOR_ATTACHMENT_OUTPUT_BIT]
    commandBuffers := [commandBuffer]
    signalSemaphores := [renderFinished] }

/-- The `VkPresentInfoKHR` of a frame (lines 1089-1097). -/
def framePresentInfo (st : App) (env : FrameEnv) (renderFinished : Nat) : PresentInfo :=
  { waitSemaphores := [renderFinished]
    swapchains := [st.swapChain]
    imageIndices := [env.imageIndex] }

/-- The calls of a frame from the wait on the slot's fence to the
submission; the wait on the image's fence is there when the map held one. -/
def submitCalls (st : App) (env : FrameEnv)
    (fence imageAvailable renderFinished imageFence commandBuffer : Nat) : List Event :=
  Event.waitForFences fence :: Event.acquireNextImage st.swapChain imageAvailable ::
    ((if imageFence ≠ VK_NULL_HANDLE then [Event.waitForFences imageFence] else [])
      ++ [Event.resetFences fence,
          Event.queueSubmit env.imageIndex
            (frameSubmitInfo imageAvailable renderFinished commandBuffer) fence])

/-- The object of a frame at its present call: the acquired image carries
the fence of the current slot. -/
def atPresent (st : App) (env : FrameEnv) (fence : Nat) : App :=
  { st with imagesInFlight := st.imagesInFlight.set env.imageIndex fence }

/-- Any two submissions of a trace for the same image index have, between
them, a wait on the fence that the earlier one was given. -/
def Guarded (trace : List Event) : Prop :=
  ∀ (xs ys zs : List Event) (i : Nat) (infoA infoB : SubmitInfo) (fenceA fenceB : Nat),
    trace = xs ++ Event.queueSubmit i infoA fenceA
      :: (ys ++ Event.queueSubmit i infoB fenceB :: zs) →
    Event.waitForFences fenceA ∈ ys

/-- Every submission of the trace for an image index whose entry in the map
`inFlight` is a fence comes after a wait on that fence. -/
def GuardedFrom (inFlight : List Nat) (trace : List Event) : Prop :=
  ∀ (i fence : Nat), inFlight[i]? = some fence → fence ≠ VK_NULL_HANDLE →
    ∀ (ys zs : List Event) (info : SubmitInfo) (f : Nat),
      trace = ys ++ Event.queueSubmit i info f :: zs → Event.waitForFences fence ∈ ys

/-! ## Concrete objects and answers -/

/-- A window that stays at 800 x 600. -/
def exampleWindow : Window :=
  { sizes := [], lastSize := (800, 600), resizeEvents := [] }

/-- An application after `initVulkan` with a swapchain of three images and
the ring of two frame slots. -/
def exampleApp : App :=
  { window := exampleWindow
    swapChain := 100
    swapChainImages := [201, 202, 203]
    swapChainImageFormat := 44
    swapChainExtent := { width := 800, height := 600 }
    swapChainImageViews := [211, 212, 213]
    renderPass := 300
    pipelineLayout := 310
    graphicsPipeline := 320
    swapChainFramebuffers := [401, 402, 403]
    commandPool := 500
    commandBuffers := [501, 502, 503]
    imageAvailableSemaphores := [601, 602]
    renderFinishedSemaphores := [611, 612]
    inFlightFences := [701, 702]
    imagesInFlight := [0, 0, 0]
    currentFrame := 0
    framebufferResized := false }

/-- A device on which every step of a rebuild succeeds. -/
def exampleRebuild : RebuildEnv :=
  { support :=
      { capabilities :=
          { minImageCount := 2
            maxImageCount := 0
            currentExtent := { width := 1024, height := 768 }
            minImageExtent := { width := 1, height := 1 }
            maxImageExtent := { width := 4096, height := 4096 }
            currentTransform := 1 }
        formats := [{ format := 44, colorSpace := 0 }]
        presentModes := [2] }
    queueFamilies := [{ queueFlags := 1, presentSupport := true }]
    createSwapchainResult := VK_SUCCESS
    newSwapchain := 101
    newImages := [221, 222, 223]
    createImageView := fun i => (VK_SUCCESS, 231 + i)
    createRenderPass := (VK_SUCCESS, 301)
    createFramebuffer := fun i => (VK_SUCCESS, 411 + i)
    allocateResult := VK_SUCCESS
    newCommandBuffer := fun i => 511 + i
    beginResult := fun _ => VK_SUCCESS
    endResult := fun _ => VK_SUCCESS }

/-- A device on which `vkCreateSwapchainKHR` fails during a rebuild. -/
def failingRebuild : RebuildEnv :=
  { exampleRebuild with createSwapchainResult := VK_ERROR_DEVICE_LOST }

/-- The answers of a frame in which acquire returns `imageIndex` and every
call succeeds. -/
def exampleFrame (imageIndex : Nat) : FrameEnv :=
  { acquireResult := VK_SUCCESS
    imageIndex := imageIndex
    submitResult := VK_SUCCESS
    presentResult := VK_SUCCESS
    rebuild := exampleRebuild }

/-- A frame whose acquire reports the swapchain as out of date, on a device
on which the rebuild succeeds. -/
def staleFrame : FrameEnv :=
  { exampleFrame 0 with acquireResult := VK_ERROR_OUT_OF_DATE_KHR }

/-- A frame whose acquire reports the swapchain as out of date, on a device
on which `vkCreateSwapchainKHR` then fails. -/
def staleFrameFailingRebuild : FrameEnv :=
  { exampleFrame 0 with acquireResult := VK_ERROR_OUT_OF_DATE_KHR, rebuild := failingRebuild }

/-- A frame on the example application in which image 0 still carries the
fence of slot 1 while slot 0 is current. -/
def busyImageApp : App :=
  { exampleApp with imagesInFlight := [702, 0, 0] }

/-- Five frames on the example application (three images, two frame slots)
that acquire the image indices 0, 1, 2, 0, 1. -/
def fiveFrames : List FrameEnv :=
  [0, 1, 2, 0, 1].map exampleFrame

/-- The submission of the first of the five frames. -/
def firstSubmitInfo : SubmitInfo :=
  { waitSemaphores := [601], waitDstStageMask := [1024], commandBuffers := [501],
    signalSemaphores := [611] }

/-- The submission of the fourth of the five frames. -/
def fourthSubmitInfo : SubmitInfo :=
  { waitSemaphores := [602], waitDstStageMask := [1024], commandBuffers := [501],
    signalSemaphores := [612] }

/-- A frame whose present reports the swapchain as suboptimal, on a device
on which `vkCreateSwapchainKHR` then fails. -/
def suboptimalPresentFailingRebuild : FrameEnv :=
  { exampleFrame 0 with presentResult := VK_SUBOPTIMAL_KHR, rebuild := failingRebuild }

/-- A frame whose present reports the swapchain as suboptimal, on a device
on which the rebuild succeeds. -/
def suboptimalPresent : FrameEnv :=
  { exampleFrame 0 with presentResult := VK_SUBOPTIMAL_KHR }

/-- The example application with slot 1 current. -/
def slotOneApp : App :=
  { exampleApp with currentFrame := 1 }

/-- A frame whose present reports the swapchain as out of date, on a device
on which `vkCreateRenderPass` then fails during the rebuild. -/
def stalePresentFailingRenderPass : FrameEnv :=
  { exampleFrame 2 with
    presentResult := VK_ERROR_OUT_OF_DATE_KHR
    rebuild := { exampleRebuild with createRenderPass := (VK_ERROR_DEVICE_LOST, 0) } }

/-- The example application after the resize callback has run. -/
def resizedApp : App :=
  framebufferResizeCallback exampleApp

/-- A frame whose present fails with `VK_ERROR_DEVICE_LOST`. -/
def lostPresent : FrameEnv :=
  { exampleFrame 0 with presentResult := VK_ERROR_DEVICE_LOST }

/-- A frame whose acquire returns `VK_SUBOPTIMAL_KHR` and whose other calls
succeed. -/
def suboptimalAcquire : FrameEnv :=
  { exampleFrame 0 with acquireResult := VK_SUBOPTIMAL_KHR }

/-- A frame whose acquire fails with `VK_ERROR_SURFACE_LOST_KHR`. -/
def lostAcquire : FrameEnv :=
  { exampleFrame 0 with acquireResult := VK_ERROR_SURFACE_LOST_KHR }

/-- Surface formats without the preferred pair. -/
def plainFormats : List VkSurfaceFormatKHR :=
  [{ format := 37, colorSpace := 0 }, { format := 44, colorSpace := 1 }]

/-- Surface capabilities whose current extent is the undefined sentinel,
with extents between 100 x 100 and 1000 x 1000. -/
def sentinelCapabilities : VkSurfaceCapabilitiesKHR :=
  { minImageCount := 2
    maxImageCount := 0
    currentExtent := { width := UINT32_MAX, height := UINT32_MAX }
    minImageExtent := { width := 100, height := 100 }
    maxImageExtent := { width := 1000, height := 1000 }
    currentTransform := 1 }

/-- A window that reports 1600 x 50 on its next read. -/
def wideWindow : Window :=
  { sizes := [(1600, 50)], lastSize := (800, 600), resizeEvents := [] }

/-- A window that is minimized for its first two reads and reports 800 x 600
at the third. -/
def minimizedWindow : Window :=
  { sizes := [(0, 0), (0, 0), (800, 600)], lastSize := (800, 600), resizeEvents := [] }

/-- The example application with the minimized window. -/
def minimizedApp : App :=
  { exampleApp with window := minimizedWindow }

/-- A device on which every step of a rebuild succeeds and the new swapchain
has four images. -/
def fourImageRebuild : RebuildEnv :=
  { exampleRebuild with newImages := [221, 222, 223, 224] }

/-- Surface capabilities whose minimal image count is the largest `uint32_t`
and which set no maximal image count. -/
def wrappingCapabilities : VkSurfaceCapabilitiesKHR :=
  { sentinelCapabilities with minImageCount := UINT32_MAX, maxImageCount := 0 }

/-- Surface capabilities whose minimal and maximal image count are both the
largest `uint32_t`. -/
def wrappingBoundedCapabilities : VkSurfaceCapabilitiesKHR :=
  { sentinelCapabilities with minImageCount := UINT32_MAX, maxImageCount := UINT32_MAX }

/-- A device with a graphics family that cannot present and a second family
that presents; every step of a rebuild succeeds on it. -/
def twoFamilyRebuild : RebuildEnv :=
  { exampleRebuild with
    queueFamilies := [{ queueFlags := 1, presentSupport := false },
                      { queueFlags := 0, presentSupport := true }] }

/-- A device whose surface leaves the extent open (the sentinel), with extents
between 100 x 100 and 1000 x 1000; every step of a rebuild succeeds on it. -/
def sentinelRebuild : RebuildEnv :=
  { exampleRebuild with
    support := { exampleRebuild.support with capabilities := sentinelCapabilities } }

/-- Three queue families: graphics without presentation, presentation
without graphics, and one with both. -/
def threeFamilies : List QueueFamily :=
  [{ queueFlags := 1, presentSupport := false },
   { queueFlags := 0, presentSupport := true },
   { queueFlags := 1, presentSupport := true }]

/-- A device with one queue family for graphics and presentation, the
swapchain extension, one surface format and one present mode. -/
def exampleDevice : PhysicalDevice :=
  { handle := 11
    queueFamilies := exampleRebuild.queueFamilies
    availableExtensions := ["VK_KHR_maintenance1", "VK_KHR_swapchain"]
    support := exampleRebuild.support }

/-- The same device without the swapchain extension. -/
def bareDevice : PhysicalDevice :=
  { exampleDevice with handle := 10, availableExtensions := ["VK_KHR_maintenance1"] }

/-- A start-up in which every call succeeds; the first device listed lacks
the swapchain extension, the second is suitable. -/
def exampleInit : InitEnv :=
  { availableLayers := ["VK_LAYER_KHRONOS_validation"]
    createInstanceResult := VK_SUCCESS
    createSurfaceResult := VK_SUCCESS
    devices := [bareDevice, exampleDevice]
    createDeviceResult := VK_SUCCESS
    build := exampleRebuild
    pipeline :=
      { vertShaderModule := (VK_SUCCESS, 801)
        fragShaderModule := (VK_SUCCESS, 802)
        createPipelineLayout := (VK_SUCCESS, 310)
        createGraphicsPipelines := (VK_SUCCESS, 320) }
    commandPool := (VK_SUCCESS, 500)
    sync :=
      { imageAvailable := fun i => (VK_SUCCESS, 601 + i)
        renderFinished := fun i => (VK_SUCCESS, 611 + i)
        inFlight := fun i => (VK_SUCCESS, 701 + i) } }

/-- The object before `run`: no handle, empty vectors, slot 0, flag clear. -/
def freshApp : App :=
  { window := exampleWindow
    swapChain := 0
    swapChainImages := []
    swapChainImageFormat := 0
    swapChainExtent := { width := 0, height := 0 }
    swapChainImageViews := []
    renderPass := 0
    pipelineLayout := 0
    graphicsPipeline := 0
    swapChainFramebuffers := []
    commandPool := 0
    commandBuffers := []
    imageAvailableSemaphores := []
    renderFinishedSemaphores := []
    inFlightFences := []
    imagesInFlight := []
    currentFrame := 0
    framebufferResized := false }

/-! ## Runs -/

@[simp] theorem Run.ok_app (st : App) : (Run.ok st).app = st := rfl

@[simp] theorem Run.ok_trace (st : App) : (Run.ok st).trace = [] := rfl

@[simp] theorem Run.ok_outcome (st : App) : (Run.ok st).outcome = Outcome.returned := rfl

@[simp] theorem Run.after_app (t : List Event) (r : Run) : (Run.after t r).app = r.app := rfl

@[simp] theorem Run.after_trace (t : List Event) (r : Run) :
    (Run.after t r).trace = t ++ r.trace := rfl

@[simp] theorem Run.after_outcome (t : List Event) (r : Run) :
    (Run.after t r).outcome = r.outcome := rfl

theorem Run.andThen_returned (r : Run) (f : App → Run) (h : r.outcome = Outcome.returned) :
    r.andThen f = Run.after r.trace (f r.app) := by
  simp [Run.andThen, h]

theorem Run.andThen_stopped (r : Run) (f : App → Run) (h : r.outcome ≠ Outcome.returned) :
    r.andThen f = r := by
  unfold Run.andThen
  split
  · contradiction
  · rfl

theorem SameRing.refl (st : App) : SameRing st st :=
  ⟨rfl, rfl, rfl, rfl, rfl⟩

theorem SameRing.trans {a b c : App} (h : SameRing a b) (k : SameRing b c) : SameRing a c :=
  ⟨h.1.trans k.1, h.2.1.trans k.2.1, h.2.2.1.trans k.2.2.1, h.2.2.2.1.trans k.2.2.2.1,
    h.2.2.2.2.trans k.2.2.2.2⟩

theorem Quiet.ok (st : App) : Quiet st (Run.ok st) :=
  ⟨SameRing.refl st, by simp, rfl⟩

theorem Quiet.after {st : App} {r : Run} (t : List Event)
    (ht : ∀ e ∈ t, e.isRebuildStep = true) (h : Quiet st r) : Quiet st (Run.after t r) := by
  refine ⟨h.1, ?_, h.2.2⟩
  intro e he
  rw [Run.after_trace, List.mem_append] at he
  exact he.elim (ht e) (h.2.1 e)

theorem Quiet.from {a b : App} {r : Run} (h : Quiet b r) (hab : SameRing a b) : Quiet a r :=
  ⟨hab.trans h.1, h.2⟩


theorem Quiet.andThen {st : App} {r : Run} {f : App → Run} (h : Quiet st r)
    (hf : ∀ s, Quiet s (f s)) : Quiet st (r.andThen f) := by
  by_cases hr : r.outcome = Outcome.returned
  · rw [Run.andThen_returned r f hr]
    exact Quiet.after r.trace h.2.1 (Quiet.from (hf r.app) h.1)
  · rw [Run.andThen_stopped r f hr]
    exact h

/-! ## A rebuild leaves the ring alone -/

theorem glfwWaitEvents_ring (st : App) : SameRing st (glfwWaitEvents st) := by
  unfold glfwWaitEvents
  split
  · exact SameRing.refl st
  · split <;> exact ⟨rfl, rfl, rfl, rfl, rfl⟩

theorem wait_quiet (sizes : List (Int × Int)) :
    ∀ (width height : Int) (st : App), Quiet st (recreateSwapChain.wait sizes width height st) := by
  induction sizes with
  | nil =>
    intro width height st
    unfold recreateSwapChain.wait
    split
    · split
      · exact ⟨SameRing.refl st, by simp, rfl⟩
      · exact ⟨glfwWaitEvents_ring st, by simp [Event.isRebuildStep], rfl⟩
    · exact Quiet.ok st
  | cons size rest ih =>
    intro width height st
    unfold recreateSwapChain.wait
    split
    · refine Quiet.after _ (by simp [Event.isRebuildStep]) ?_
      refine Quiet.from (ih size.1 size.2 _) ?_
      exact SameRing.trans
        (show SameRing st { st with window := { st.window with sizes := rest } } from
          ⟨rfl, rfl, rfl, rfl, rfl⟩)
        (glfwWaitEvents_ring _)
    · exact Quiet.ok st

theorem cleanupOldSwapChain_quiet (st : App) : Quiet st (cleanupOldSwapChain st) := by
  refine ⟨SameRing.refl st, ?_, rfl⟩
  intro e he
  simp only [cleanupOldSwapChain, List.mem_append, List.mem_map, List.mem_cons,
    List.mem_singleton, List.not_mem_nil, or_false] at he
  rcases he with ((⟨_, _, rfl⟩ | rfl | rfl) | ⟨_, _, rfl⟩) | rfl <;> rfl

theorem findQueueFamilies_loop_quiet (queueFamilies : List QueueFamily) :
    ∀ (i : Nat) (indices : QueueFamilyIndices),
      ∀ e ∈ (findQueueFamilies.loop queueFamilies i indices).2, e.isRebuildStep = true := by
  induction queueFamilies with
  | nil => intro i indices e he; simp [findQueueFamilies.loop] at he
  | cons queueFamily rest ih =>
    intro i indices e he
    simp only [findQueueFamilies.loop] at he
    split_ifs at he <;>
      first
      | (simp only [List.mem_singleton] at he; subst he; rfl)
      | (simp only [List.mem_cons] at he
         rcases he with rfl | he
         · rfl
         · exact ih _ _ e he)

theorem findQueueFamilies_quiet (queueFamilies : List QueueFamily) :
    ∀ e ∈ (findQueueFamilies queueFamilies).2, e.isRebuildStep = true := by
  intro e he
  simp only [findQueueFamilies, List.mem_cons] at he
  rcases he with rfl | rfl | he
  · rfl
  · rfl
  · exact findQueueFamilies_loop_quiet _ _ _ e he

theorem querySwapChainSupport_quiet (details : SwapChainSupportDetails) :
    ∀ e ∈ querySwapChainSupport details, e.isRebuildStep = true := by
  intro e he
  simp only [querySwapChainSupport, List.mem_append, List.mem_cons, List.mem_singleton,
    List.not_mem_nil, or_false] at he
  rcases he with ((((rfl | rfl) | he) | rfl) | he)
  · rfl
  · rfl
  · split at he
    · simp only [List.mem_singleton] at he; subst he; rfl
    · simp at he
  · rfl
  · split at he
    · simp only [List.mem_singleton] at he; subst he; rfl
    · simp at he

theorem chooseSwapExtent_quiet (capabilities : VkSurfaceCapabilitiesKHR) (window : Window) :
    ∀ e ∈ (chooseSwapExtent capabilities window).2.2, e.isRebuildStep = true := by
  intro e he
  unfold chooseSwapExtent at he
  split at he
  · simp at he
  · simp only [List.mem_singleton] at he; subst he; rfl

theorem createSwapChain_quiet (env : RebuildEnv) (st : App) :
    Quiet st (createSwapChain env st) := by
  have h0 := querySwapChainSupport_quiet env.support
  have h1 := chooseSwapExtent_quiet env.support.capabilities st.window
  have h2 := findQueueFamilies_quiet env.queueFamilies
  unfold createSwapChain
  dsimp only
  split
  · exact ⟨SameRing.refl st, h0, rfl⟩
  · split
    · split
      · refine ⟨⟨rfl, rfl, rfl, rfl, rfl⟩, ?_, rfl⟩
        intro e he
        simp only [List.mem_append, List.mem_singleton] at he
        rcases he with ((he | he) | he) | rfl
        · exact h0 e he
        · exact h1 e he
        · exact h2 e he
        · rfl
      · refine ⟨⟨rfl, rfl, rfl, rfl, rfl⟩, ?_, rfl⟩
        intro e he
        simp only [List.mem_append, List.mem_cons, List.mem_singleton, List.not_mem_nil,
          or_false] at he
        rcases he with ((he | he) | he) | rfl | rfl | rfl
        · exact h0 e he
        · exact h1 e he
        · exact h2 e he
        · rfl
        · rfl
        · rfl
    · refine ⟨⟨rfl, rfl, rfl, rfl, rfl⟩, ?_, rfl⟩
      intro e he
      simp only [List.mem_append] at he
      rcases he with (he | he) | he
      · exact h0 e he
      · exact h1 e he
      · exact h2 e he

theorem createImageViews_loop_quiet (env : RebuildEnv) (images : List Nat) :
    ∀ (i : Nat) (st : App), Quiet st (createImageViews.loop env images i st) := by
  induction images with
  | nil => intro i st; exact Quiet.ok st
  | cons image rest ih =>
    intro i st
    unfold createImageViews.loop
    split
    · exact ⟨SameRing.refl st, by simp [Event.isRebuildStep], rfl⟩
    · exact Quiet.after _ (by simp [Event.isRebuildStep])
        (Quiet.from (ih _ _) ⟨rfl, rfl, rfl, rfl, rfl⟩)

theorem createImageViews_quiet (env : RebuildEnv) (st : App) :
    Quiet st (createImageViews env st) :=
  Quiet.from (createImageViews_loop_quiet env st.swapChainImages 0 _) ⟨rfl, rfl, rfl, rfl, rfl⟩

theorem createRenderPass_quiet (env : RebuildEnv) (st : App) :
    Quiet st (createRenderPass env st) := by
  unfold createRenderPass
  split
  · exact ⟨SameRing.refl st, by simp [Event.isRebuildStep], rfl⟩
  · exact ⟨⟨rfl, rfl, rfl, rfl, rfl⟩, by simp [Event.isRebuildStep], rfl⟩

theorem createFramebuffers_loop_quiet (env : RebuildEnv) (views : List Nat) :
    ∀ (i : Nat) (st : App), Quiet st (createFramebuffers.loop env views i st) := by
  induction views with
  | nil => intro i st; exact Quiet.ok st
  | cons view rest ih =>
    intro i st
    unfold createFramebuffers.loop
    split
    · exact ⟨SameRing.refl st, by simp [Event.isRebuildStep], rfl⟩
    · exact Quiet.after _ (by simp [Event.isRebuildStep])
        (Quiet.from (ih _ _) ⟨rfl, rfl, rfl, rfl, rfl⟩)

theorem createFramebuffers_quiet (env : RebuildEnv) (st : App) :
    Quiet st (createFramebuffers env st) :=
  Quiet.from (createFramebuffers_loop_quiet env st.swapChainImageViews 0 _)
    ⟨rfl, rfl, rfl, rfl, rfl⟩

theorem createCommandBuffers_loop_quiet (env : RebuildEnv) (st : App)
    (buffers : List (Nat × Nat)) :
    ∀ (i : Nat), Quiet st (createCommandBuffers.loop env st buffers i) := by
  induction buffers with
  | nil => intro i; exact Quiet.ok st
  | cons buffer rest ih =>
    intro i
    obtain ⟨commandBuffer, framebuffer⟩ := buffer
    unfold createCommandBuffers.loop
    split
    · exact ⟨SameRing.refl st, by simp [Event.isRebuildStep], rfl⟩
    · split
      · exact ⟨SameRing.refl st, by simp [recordCommands, Event.isRebuildStep], rfl⟩
      · exact Quiet.after _ (by simp [recordCommands, Event.isRebuildStep]) (ih _)

theorem createCommandBuffers_quiet (env : RebuildEnv) (st : App) :
    Quiet st (createCommandBuffers env st) := by
  unfold createCommandBuffers
  split
  · exact ⟨⟨rfl, rfl, rfl, rfl, rfl⟩, by simp [Event.isRebuildStep], rfl⟩
  · exact Quiet.after _ (by simp [Event.isRebuildStep])
      (Quiet.from (createCommandBuffers_loop_quiet env _ _ _) ⟨rfl, rfl, rfl, rfl, rfl⟩)

/-- The run of `recreateSwapChain` after its entry: everything it does. -/
theorem recreateSwapChain_shape (env : RebuildEnv) (st : App) :
    ∃ r : Run, recreateSwapChain env st = Run.after [Event.recreateSwapChain] r ∧ Quiet st r := by
  refine ⟨Run.after [Event.getFramebufferSize]
    (((((((recreateSwapChain.wait st.window.getFramebufferSize.2.sizes
        st.window.getFramebufferSize.1.1 st.window.getFramebufferSize.1.2
        { st with window := st.window.getFramebufferSize.2 }).andThen
      (fun st1 => Run.after [Event.deviceWaitIdle] (cleanupOldSwapChain st1))).andThen
      (createSwapChain env)).andThen
      (createImageViews env)).andThen
      (createRenderPass env)).andThen
      (createFramebuffers env)).andThen
      (createCommandBuffers env)), rfl, ?_⟩
  refine Quiet.after _ (by simp [Event.isRebuildStep]) ?_
  refine Quiet.andThen ?_ (createCommandBuffers_quiet env)
  refine Quiet.andThen ?_ (createFramebuffers_quiet env)
  refine Quiet.andThen ?_ (createRenderPass_quiet env)
  refine Quiet.andThen ?_ (createImageViews_quiet env)
  refine Quiet.andThen ?_ (createSwapChain_quiet env)
  refine Quiet.andThen ?_
    (fun s => Quiet.after _ (by simp [Event.isRebuildStep]) (cleanupOldSwapChain_quiet s))
  exact Quiet.from (wait_quiet _ _ _ _) ⟨rfl, rfl, rfl, rfl, rfl⟩

theorem isRebuildStep_kind {e : Event} (h : e.isRebuildStep = true) :
    e.isSubmit = false ∧ e.isReset = false ∧ e.isPresent = false ∧ e.isAcquire = false
      ∧ e ≠ Event.recreateSwapChain := by
  cases e <;> simp_all [Event.isRebuildStep, Event.isSubmit, Event.isReset, Event.isPresent,
    Event.isAcquire]

theorem rebuildCount_quiet (t : List Event) (h : ∀ e ∈ t, e.isRebuildStep = true) :
    rebuildCount t = 0 := by
  unfold rebuildCount
  rw [List.count_eq_zero]
  intro hmem
  exact (isRebuildStep_kind (h _ hmem)).2.2.2.2 rfl

theorem rebuildCount_append (t u : List Event) :
    rebuildCount (t ++ u) = rebuildCount t + rebuildCount u := by
  simp [rebuildCount]

theorem rebuildCount_recreateSwapChain (env : RebuildEnv) (st : App) :
    rebuildCount (recreateSwapChain env st).trace = 1 := by
  obtain ⟨r, hr, hq⟩ := recreateSwapChain_shape env st
  rw [hr, Run.after_trace, rebuildCount_append, rebuildCount_quiet r.trace hq.2.1]
  rfl

theorem recreateSwapChain_ring (env : RebuildEnv) (st : App) :
    SameRing st (recreateSwapChain env st).app := by
  obtain ⟨r, hr, hq⟩ := recreateSwapChain_shape env st
  rw [hr]
  exact hq.1

theorem recreateSwapChain_noFrameError (env : RebuildEnv) (st : App) :
    (recreateSwapChain env st).outcome.noFrameError = true := by
  obtain ⟨r, hr, hq⟩ := recreateSwapChain_shape env st
  rw [hr]
  exact hq.2.2

theorem recreateSwapChain_calls (env : RebuildEnv) (st : App) :
    ∀ e ∈ (recreateSwapChain env st).trace,
      e.isSubmit = false ∧ e.isReset = false ∧ e.isPresent = false ∧ e.isAcquire = false := by
  obtain ⟨r, hr, hq⟩ := recreateSwapChain_shape env st
  intro e he
  rw [hr, Run.after_trace, List.mem_append, List.mem_singleton] at he
  rcases he with rfl | he
  · exact ⟨rfl, rfl, rfl, rfl⟩
  · have h := isRebuildStep_kind (hq.2.1 e he)
    exact ⟨h.1, h.2.1, h.2.2.1, h.2.2.2.1⟩

theorem RingOk.slot {st : App} (h : RingOk st) :
    ∃ fence imageAvailable renderFinished,
      st.inFlightFences[st.currentFrame]? = some fence
      ∧ st.imageAvailableSemaphores[st.currentFrame]? = some imageAvailable
      ∧ st.renderFinishedSemaphores[st.currentFrame]? = some renderFinished
      ∧ fence ≠ VK_NULL_HANDLE ∧ st.slotFence = fence := by
  obtain ⟨h1, h2, h3, h4, h5⟩ := h
  have k1 : st.currentFrame < st.imageAvailableSemaphores.length := by rw [h1]; exact h5
  have k2 : st.currentFrame < st.renderFinishedSemaphores.length := by rw [h2]; exact h5
  have k3 : st.currentFrame < st.inFlightFences.length := by rw [h3]; exact h5
  refine ⟨st.inFlightFences[st.currentFrame], st.imageAvailableSemaphores[st.currentFrame],
    st.renderFinishedSemaphores[st.currentFrame], List.getElem?_eq_getElem k3,
    List.getElem?_eq_getElem k1, List.getElem?_eq_getElem k2, ?_, ?_⟩
  · exact h4 _ (List.getElem_mem _)
  · simp [App.slotFence, List.getD, List.getElem?_eq_getElem k3]

theorem IndexOk.entries {env : FrameEnv} {st : App} (h : IndexOk env st) :
    ∃ imageFence commandBuffer,
      st.imagesInFlight[env.imageIndex]? = some imageFence
      ∧ st.commandBuffers[env.imageIndex]? = some commandBuffer := by
  have h1 : env.imageIndex < st.imagesInFlight.length := h.1
  have h2 : env.imageIndex < st.commandBuffers.length := h.2
  exact ⟨st.imagesInFlight[env.imageIndex], st.commandBuffers[env.imageIndex],
    List.getElem?_eq_getElem h1, List.getElem?_eq_getElem h2⟩

/-! ## C1 -/

/-- C1, as stated, fails: with the acquire out of date and a device on which
`vkCreateSwapchainKHR` fails during the rebuild, `drawFrame` does not return
but ends with the error "failed to create swap chain!". -/
theorem C1_counterexample :
    staleFrameFailingRebuild.acquireResult = VK_ERROR_OUT_OF_DATE_KHR
      ∧ (drawFrame staleFrameFailingRebuild exampleApp).outcome
          = Outcome.threw Error.createSwapChain := by
  decide

/-- C1, amended: when the acquire inside `drawFrame` returns out-of-date, the
call starts exactly one `recreateSwapChain`, submits no command buffer,
resets no fence, presents nothing, leaves `imagesInFlight` and `currentFrame`
unchanged, raises none of its own errors, and ends as that rebuild ends: it
returns when the rebuild returns, and a failure of the rebuild propagates. -/
theorem C1_stale_acquire (env : FrameEnv) (st : App) (hring : RingOk st)
    (hstale : env.acquireResult = VK_ERROR_OUT_OF_DATE_KHR) :
    rebuildCount (drawFrame env st).trace = 1
      ∧ (∀ e ∈ (drawFrame env st).trace,
          e.isSubmit = false ∧ e.isReset = false ∧ e.isPresent = false)
      ∧ (drawFrame env st).app.imagesInFlight = st.imagesInFlight
      ∧ (drawFrame env st).app.currentFrame = st.currentFrame
      ∧ (drawFrame env st).outcome = (recreateSwapChain env.rebuild st).outcome
      ∧ (drawFrame env st).outcome.noFrameError = true := by
  obtain ⟨fence, imageAvailable, renderFinished, hf, ha, -, -, -⟩ := hring.slot
  have hrun : drawFrame env st
      = Run.after [Event.waitForFences fence, Event.acquireNextImage st.swapChain imageAvailable]
          (recreateSwapChain env.rebuild st) := by
    simp only [drawFrame, hf, ha, hstale, if_true]
  rw [hrun]
  refine ⟨?_, ?_, ?_, ?_, rfl, recreateSwapChain_noFrameError _ _⟩
  · rw [Run.after_trace, rebuildCount_append, rebuildCount_recreateSwapChain]
    rfl
  · intro e he
    rw [Run.after_trace, List.mem_append] at he
    rcases he with he | he
    · simp only [List.mem_cons, List.mem_singleton, List.not_mem_nil, or_false] at he
      rcases he with rfl | rfl <;> exact ⟨rfl, rfl, rfl⟩
    · have h := recreateSwapChain_calls _ _ e he
      exact ⟨h.1, h.2.1, h.2.2.1⟩
  · exact (recreateSwapChain_ring _ _).2.1.symm
  · exact (recreateSwapChain_ring _ _).1.symm

theorem exampleApp_ringOk : RingOk exampleApp := by
  simp [RingOk, exampleApp, MAX_FRAMES_IN_FLIGHT, VK_NULL_HANDLE]

/-- C1, witness: on the example application with an out-of-date acquire and a
device on which the rebuild succeeds, the call rebuilds once and returns. -/
theorem C1_stale_acquire_witness :
    RingOk exampleApp ∧ staleFrame.acquireResult = VK_ERROR_OUT_OF_DATE_KHR
      ∧ rebuildCount (drawFrame staleFrame exampleApp).trace = 1
      ∧ (drawFrame staleFrame exampleApp).outcome = Outcome.returned :=
  ⟨exampleApp_ringOk, rfl,
    (C1_stale_acquire staleFrame exampleApp exampleApp_ringOk rfl).1, by decide⟩

/-! ## C2 -/

theorem acquired_not_stale {result : Int}
    (h : result = VK_SUCCESS ∨ result = VK_SUBOPTIMAL_KHR) :
    result ≠ VK_ERROR_OUT_OF_DATE_KHR
      ∧ ¬ (result ≠ VK_SUCCESS ∧ result ≠ VK_SUBOPTIMAL_KHR) := by
  rcases h with h | h <;> subst h <;> decide

theorem drawFrame_success (env : FrameEnv) (st : App) (hring : RingOk st)
    (hidx : IndexOk env st)
    (hacq : env.acquireResult = VK_SUCCESS ∨ env.acquireResult = VK_SUBOPTIMAL_KHR)
    (hsub : env.submitResult = VK_SUCCESS) (hpres : env.presentResult = VK_SUCCESS)
    (hflag : st.framebufferResized = false) :
    (drawFrame env st).outcome = Outcome.returned
      ∧ (drawFrame env st).app = { st with
          imagesInFlight := st.imagesInFlight.set env.imageIndex st.slotFence
          currentFrame := (st.currentFrame + 1) % MAX_FRAMES_IN_FLIGHT } := by
  obtain ⟨fence, imageAvailable, renderFinished, hf, ha, hr, -, hslot⟩ := hring.slot
  obtain ⟨imageFence, commandBuffer, hg, hc⟩ := hidx.entries
  obtain ⟨n1, n2⟩ := acquired_not_stale hacq
  have p1 : VK_SUCCESS ≠ VK_ERROR_OUT_OF_DATE_KHR := by decide
  have p2 : VK_SUCCESS ≠ VK_SUBOPTIMAL_KHR := by decide
  simp only [drawFrame, hf, ha, hr, hg, hc, n1, n2, hsub, hpres, hflag, hslot, p1, p2,
    if_false, ne_eq, not_true_eq_false, or_self, Bool.false_eq_true]
  exact ⟨trivial, rfl⟩

theorem drawFrames_success (envs : List FrameEnv) :
    ∀ st : App, RingOk st → st.framebufferResized = false →
      (∀ env ∈ envs, env.acquireResult = VK_SUCCESS ∧ env.submitResult = VK_SUCCESS
        ∧ env.presentResult = VK_SUCCESS ∧ IndexOk env st) →
      (drawFrames envs st).outcome = Outcome.returned
        ∧ (drawFrames envs st).app.currentFrame
            = (st.currentFrame + envs.length) % MAX_FRAMES_IN_FLIGHT := by
  induction envs with
  | nil =>
    intro st hring _ _
    refine ⟨rfl, ?_⟩
    have h := hring.2.2.2.2
    simp only [drawFrames, Run.ok_app, List.length_nil, Nat.add_zero]
    exact (Nat.mod_eq_of_lt h).symm
  | cons env envs ih =>
    intro st hring hflag hok
    obtain ⟨hacq, hsub, hpres, hidx⟩ := hok env (List.mem_cons_self _ _)
    obtain ⟨hout, happ⟩ := drawFrame_success env st hring hidx (Or.inl hacq) hsub hpres hflag
    have hring1 : RingOk (drawFrame env st).app := by
      rw [happ]
      exact ⟨hring.1, hring.2.1, hring.2.2.1, hring.2.2.2.1,
        Nat.mod_lt _ (by decide)⟩
    have hflag1 : (drawFrame env st).app.framebufferResized = false := by
      rw [happ]; exact hflag
    have hok1 : ∀ e ∈ envs, e.acquireResult = VK_SUCCESS ∧ e.submitResult = VK_SUCCESS
        ∧ e.presentResult = VK_SUCCESS ∧ IndexOk e (drawFrame env st).app := by
      intro e he
      obtain ⟨a, b, c, d⟩ := hok e (List.mem_cons_of_mem _ he)
      refine ⟨a, b, c, ?_⟩
      rw [happ]
      exact ⟨by simpa using d.1, d.2⟩
    obtain ⟨iout, icur⟩ := ih _ hring1 hflag1 hok1
    have hrun : drawFrames (env :: envs) st
        = Run.after (drawFrame env st).trace (drawFrames envs (drawFrame env st).app) :=
      Run.andThen_returned _ _ hout
    rw [hrun]
    refine ⟨iout, ?_⟩
    rw [Run.after_app, icur, happ]
    simp only [MAX_FRAMES_IN_FLIGHT, List.length_cons]
    omega

/-- C2: from `currentFrame = 0`, in a run of consecutive `drawFrame` calls in
which acquire, submit and present return success and the resized flag is
clear, every call returns, and after `k` calls (that is, at the start of the
`k`-th call counted from 0, and after the last call for `k = N`) the value of
`currentFrame` is `k mod MAX_FRAMES_IN_FLIGHT`. -/
theorem C2_slot_cycles (envs : List FrameEnv) (st : App) (hring : RingOk st)
    (hstart : st.currentFrame = 0) (hflag : st.framebufferResized = false)
    (hok : ∀ env ∈ envs, env.acquireResult = VK_SUCCESS ∧ env.submitResult = VK_SUCCESS
      ∧ env.presentResult = VK_SUCCESS ∧ IndexOk env st) :
    ∀ k, k ≤ envs.length →
      (drawFrames (envs.take k) st).outcome = Outcome.returned
        ∧ (drawFrames (envs.take k) st).app.currentFrame = k % MAX_FRAMES_IN_FLIGHT := by
  intro k hk
  have h := drawFrames_success (envs.take k) st hring hflag
    (fun env he => hok env (List.mem_of_mem_take he))
  rw [hstart, List.length_take, Nat.min_eq_left hk, Nat.zero_add] at h
  exact h

/-- C2, witness: five successful frames on the example application, with the
image indices 0, 1, 2, 0, 1; after the five calls the slot is `5 mod 2`. -/
theorem C2_slot_cycles_witness :
    RingOk exampleApp ∧ exampleApp.currentFrame = 0 ∧ exampleApp.framebufferResized = false
      ∧ (drawFrames ([0, 1, 2, 0, 1].map exampleFrame) exampleApp).app.currentFrame = 1 := by
  refine ⟨exampleApp_ringOk, rfl, rfl, ?_⟩
  have h := C2_slot_cycles ([0, 1, 2, 0, 1].map exampleFrame) exampleApp exampleApp_ringOk
    rfl rfl (by
      intro env he
      simp only [List.map, List.mem_cons, List.mem_singleton, List.not_mem_nil, or_false] at he
      rcases he with rfl | rfl | rfl | rfl | rfl <;>
        exact ⟨rfl, rfl, rfl, by decide, by decide⟩) 5 (by decide)
  exact h.2

/-! ## The shape of a frame that acquired an image -/

theorem Run.andThen_ok_trace (r : Run) (g : App → App) :
    (r.andThen (fun s => Run.ok (g s))).trace = r.trace := by
  by_cases h : r.outcome = Outcome.returned
  · rw [Run.andThen_returned r _ h]; simp
  · rw [Run.andThen_stopped r _ h]

theorem Run.andThen_ok_outcome (r : Run) (g : App → App) :
    (r.andThen (fun s => Run.ok (g s))).outcome = r.outcome := by
  by_cases h : r.outcome = Outcome.returned
  · rw [Run.andThen_returned r _ h]; simp [h]
  · rw [Run.andThen_stopped r _ h]

theorem Run.andThen_ok_app (r : Run) (g : App → App) :
    (r.andThen (fun s => Run.ok (g s))).app
      = if r.outcome = Outcome.returned then g r.app else r.app := by
  by_cases h : r.outcome = Outcome.returned
  · rw [Run.andThen_returned r _ h]; simp [h]
  · rw [Run.andThen_stopped r _ h]; simp [h]

/-- A frame whose acquire returned success or suboptimal, with the ring and
the image index in order: the calls up to the submission, and what the call
leaves in the image-in-flight map. -/
theorem drawFrame_acquired (env : FrameEnv) (st : App) (hring : RingOk st)
    (hidx : IndexOk env st)
    (hacq : env.acquireResult = VK_SUCCESS ∨ env.acquireResult = VK_SUBOPTIMAL_KHR) :
    ∃ (fence imageAvailable imageFence : Nat) (submitInfo : SubmitInfo) (rest : List Event),
      st.inFlightFences[st.currentFrame]? = some fence ∧ fence ≠ VK_NULL_HANDLE
      ∧ st.slotFence = fence
      ∧ st.imagesInFlight[env.imageIndex]? = some imageFence
      ∧ (drawFrame env st).trace
          = Event.waitForFences fence :: Event.acquireNextImage st.swapChain imageAvailable ::
              ((if imageFence ≠ VK_NULL_HANDLE then [Event.waitForFences imageFence] else [])
                ++ Event.resetFences fence
                  :: Event.queueSubmit env.imageIndex submitInfo fence :: rest)
      ∧ (∀ e ∈ rest, e.isSubmit = false ∧ e.isReset = false)
      ∧ (drawFrame env st).app.imagesInFlight = st.imagesInFlight.set env.imageIndex fence
      ∧ (drawFrame env st).app.inFlightFences = st.inFlightFences := by
  obtain ⟨fence, imageAvailable, renderFinished, hf, ha, hr, hnull, hslot⟩ := hring.slot
  obtain ⟨imageFence, commandBuffer, hg, hc⟩ := hidx.entries
  obtain ⟨n1, n2⟩ := acquired_not_stale hacq
  refine ⟨fence, imageAvailable, imageFence,
    { waitSemaphores := [imageAvailable]
      waitDstStageMask := [VK_PIPELINE_STAGE_COLOR_ATTACHMENT_OUTPUT_BIT]
      commandBuffers := [commandBuffer]
      signalSemaphores := [renderFinished] }, ?_⟩
  have hquiet := recreateSwapChain_ring env.rebuild
    { st with imagesInFlight := st.imagesInFlight.set env.imageIndex fence,
              framebufferResized := false }
  by_cases hsub : env.submitResult = VK_SUCCESS
  · by_cases hre : env.presentResult = VK_ERROR_OUT_OF_DATE_KHR
        ∨ env.presentResult = VK_SUBOPTIMAL_KHR ∨ st.framebufferResized = true
    · refine ⟨Event.queuePresent
          { waitSemaphores := [renderFinished], swapchains := [st.swapChain],
            imageIndices := [env.imageIndex] } ::
        (recreateSwapChain env.rebuild
          { st with imagesInFlight := st.imagesInFlight.set env.imageIndex fence,
                    framebufferResized := false }).trace, hf, hnull, hslot, hg, ?_, ?_, ?_, ?_⟩
      · simp only [drawFrame, hf, ha, hr, hg, hc, n1, n2, hsub, hre, ne_eq, not_true_eq_false,
          if_false, if_true]
        rw [Run.andThen_ok_trace, Run.after_trace]
        simp only [List.cons_append, List.nil_append, List.append_assoc,
          List.singleton_append]
      · intro e he
        simp only [List.mem_cons] at he
        rcases he with rfl | he
        · exact ⟨rfl, rfl⟩
        · have h := recreateSwapChain_calls _ _ e he
          exact ⟨h.1, h.2.1⟩
      · simp only [drawFrame, hf, ha, hr, hg, hc, n1, n2, hsub, hre, ne_eq, not_true_eq_false,
          if_false, if_true]
        rw [Run.andThen_ok_app, Run.after_app, Run.after_outcome]
        split
        · exact hquiet.2.1.symm
        · exact hquiet.2.1.symm
      · simp only [drawFrame, hf, ha, hr, hg, hc, n1, n2, hsub, hre, ne_eq, not_true_eq_false,
          if_false, if_true]
        rw [Run.andThen_ok_app, Run.after_app, Run.after_outcome]
        split
        · exact hquiet.2.2.1.symm
        · exact hquiet.2.2.1.symm
    · refine ⟨[Event.queuePresent
          { waitSemaphores := [renderFinished], swapchains := [st.swapChain],
            imageIndices := [env.imageIndex] }], hf, hnull, hslot, hg, ?_, ?_, ?_, ?_⟩
      · simp only [drawFrame, hf, ha, hr, hg, hc, n1, n2, hsub, hre, ne_eq, not_true_eq_false,
          if_false]
        split <;> simp only [List.cons_append, List.nil_append, List.append_assoc,
          List.singleton_append]
      · simp [Event.isSubmit, Event.isReset]
      · simp only [drawFrame, hf, ha, hr, hg, hc, n1, n2, hsub, hre, ne_eq, not_true_eq_false,
          if_false]
        split <;> rfl
      · simp only [drawFrame, hf, ha, hr, hg, hc, n1, n2, hsub, hre, ne_eq, not_true_eq_false,
          if_false]
        split <;> rfl
  · refine ⟨[], hf, hnull, hslot, hg, ?_, ?_, ?_, ?_⟩
    · simp only [drawFrame, hf, ha, hr, hg, hc, n1, n2, hsub, ne_eq, not_false_eq_true,
        if_false, if_true]
      simp only [List.cons_append, List.nil_append, List.append_assoc,
        List.singleton_append]
    · simp
    · simp only [drawFrame, hf, ha, hr, hg, hc, n1, n2, hsub, ne_eq, not_false_eq_true,
        if_false, if_true]
    · simp only [drawFrame, hf, ha, hr, hg, hc, n1, n2, hsub, ne_eq, not_false_eq_true,
        if_false, if_true]

/-! ## C4 -/

/-- C4: in a `drawFrame` call whose acquire returns success or suboptimal with
image index `i` while the current slot is `s`: when `imagesInFlight[i]` is
not the null handle, the call waits on that fence before its first fence
reset or submission; after the call `imagesInFlight[i]` is
`inFlightFences[s]`, and every other entry of `imagesInFlight` is as before. -/
theorem C4_image_hazard_check (env : FrameEnv) (st : App) (hring : RingOk st)
    (hidx : IndexOk env st)
    (hacq : env.acquireResult = VK_SUCCESS ∨ env.acquireResult = VK_SUBOPTIMAL_KHR) :
    (∀ imageFence, st.imagesInFlight[env.imageIndex]? = some imageFence →
        imageFence ≠ VK_NULL_HANDLE →
        Event.waitForFences imageFence ∈ beforeSubmission (drawFrame env st).trace)
      ∧ (drawFrame env st).app.imagesInFlight[env.imageIndex]? = some st.slotFence
      ∧ (∀ j, j ≠ env.imageIndex →
          (drawFrame env st).app.imagesInFlight[j]? = st.imagesInFlight[j]?)
      ∧ (drawFrame env st).app.imagesInFlight.length = st.imagesInFlight.length := by
  obtain ⟨fence, imageAvailable, g, info, rest, -, -, hslot, hg, htrace, -, himg, -⟩ :=
    drawFrame_acquired env st hring hidx hacq
  have hlt : env.imageIndex < st.imagesInFlight.length := hidx.1
  refine ⟨?_, ?_, ?_, ?_⟩
  · intro imageFence hi hne
    rw [hg] at hi
    cases hi
    rw [htrace]
    simp [beforeSubmission, List.takeWhile, Event.isReset, Event.isSubmit, hne]
  · rw [himg, hslot]
    simp [List.getElem?_set, hlt]
  · intro j hj
    rw [himg]
    exact List.getElem?_set_ne (Ne.symm hj)
  · rw [himg, List.length_set]

/-- C4, witness: slot 0 acquires image 0, which still carries the fence 702 of
slot 1; the call waits on 702 and then records its own fence 701 for the
image. -/
theorem C4_image_hazard_check_witness :
    RingOk busyImageApp ∧ IndexOk (exampleFrame 0) busyImageApp
      ∧ Event.waitForFences 702 ∈ beforeSubmission (drawFrame (exampleFrame 0) busyImageApp).trace
      ∧ (drawFrame (exampleFrame 0) busyImageApp).app.imagesInFlight[0]? = some 701 := by
  have hring : RingOk busyImageApp := by
    simp [RingOk, busyImageApp, exampleApp, MAX_FRAMES_IN_FLIGHT, VK_NULL_HANDLE]
  have hidx : IndexOk (exampleFrame 0) busyImageApp := ⟨by decide, by decide⟩
  have h := C4_image_hazard_check (exampleFrame 0) busyImageApp hring hidx (Or.inl rfl)
  exact ⟨hring, hidx, h.1 702 rfl (by decide), h.2.1⟩

/-! ## C3 -/

theorem split_after {l r xs ys : List Event} {e : Event} (h : l ++ r = xs ++ e :: ys)
    (hl : e ∉ l) : ∃ rest, xs = l ++ rest ∧ r = rest ++ e :: ys := by
  rcases List.append_eq_append_iff.mp h with ⟨a, ha, hr⟩ | ⟨c, hc, hd⟩
  · exact ⟨a, ha, hr⟩
  · cases c with
    | nil =>
      refine ⟨[], ?_, ?_⟩
      · simpa using hc.symm
      · simpa using hd.symm
    | cons x c =>
      simp only [List.cons_append, List.cons.injEq] at hd
      exfalso
      apply hl
      rw [hc, hd.1]
      simp

theorem submit_not_mem {l : List Event} (hl : ∀ e ∈ l, e.isSubmit = false) (i : Nat)
    (info : SubmitInfo) (f : Nat) : Event.queueSubmit i info f ∉ l := by
  intro hmem
  have h := hl _ hmem
  simp [Event.isSubmit] at h

theorem guarded_nil : Guarded [] := by
  intro xs ys zs i infoA infoB fenceA fenceB h
  simp at h

theorem guardedFrom_nil (inFlight : List Nat) : GuardedFrom inFlight [] := by
  intro i fence _ _ ys zs info f h
  simp at h

/-- A stretch of calls without a submission, put in front of a guarded
trace. -/
theorem guarded_without_submit {seg rest : List Event} {inFlight : List Nat}
    (hseg : ∀ e ∈ seg, e.isSubmit = false)
    (hrest : Guarded rest ∧ GuardedFrom inFlight rest) :
    Guarded (seg ++ rest) ∧ GuardedFrom inFlight (seg ++ rest) := by
  constructor
  · intro xs ys zs i infoA infoB fenceA fenceB h
    obtain ⟨xs1, -, h1⟩ := split_after h (submit_not_mem hseg i infoA fenceA)
    exact hrest.1 xs1 ys zs i infoA infoB fenceA fenceB h1
  · intro i fence hi hne ys zs info f h
    obtain ⟨ys1, hys, h1⟩ := split_after h (submit_not_mem hseg i info f)
    rw [hys, List.mem_append]
    exact Or.inr (hrest.2 i fence hi hne ys1 zs info f h1)

/-- The calls of a frame with one submission, put in front of a guarded
trace. -/
theorem guarded_with_submit {pre post rest : List Event} {inFlight : List Nat}
    {i0 : Nat} {info0 : SubmitInfo} {fence0 : Nat}
    (hpre : ∀ e ∈ pre, e.isSubmit = false) (hpost : ∀ e ∈ post, e.isSubmit = false)
    (hnull : fence0 ≠ VK_NULL_HANDLE) (hlt : i0 < inFlight.length)
    (hwait : ∀ g, inFlight[i0]? = some g → g ≠ VK_NULL_HANDLE →
      Event.waitForFences g ∈ pre)
    (hrest : Guarded rest ∧ GuardedFrom (inFlight.set i0 fence0) rest) :
    Guarded (pre ++ Event.queueSubmit i0 info0 fence0 :: (post ++ rest))
      ∧ GuardedFrom inFlight (pre ++ Event.queueSubmit i0 info0 fence0 :: (post ++ rest)) := by
  constructor
  · intro xs ys zs i infoA infoB fenceA fenceB h
    obtain ⟨xs1, -, h1⟩ := split_after h (submit_not_mem hpre i infoA fenceA)
    rcases List.cons_eq_append_iff.mp h1 with ⟨-, h2⟩ | ⟨xs2, -, h2⟩
    · simp only [List.cons.injEq, Event.queueSubmit.injEq] at h2
      obtain ⟨⟨hi, -, hfence⟩, h3⟩ := h2
      obtain ⟨ys1, hys, h4⟩ := split_after h3.symm (submit_not_mem hpost i infoB fenceB)
      rw [hys, List.mem_append]
      refine Or.inr (hrest.2 i fenceA ?_ ?_ ys1 zs infoB fenceB h4)
      · rw [hi, hfence]
        simp [List.getElem?_set, hlt]
      · rw [hfence]; exact hnull
    · obtain ⟨xs3, -, h3⟩ := split_after h2 (submit_not_mem hpost i infoA fenceA)
      exact hrest.1 xs3 ys zs i infoA infoB fenceA fenceB h3
  · intro i fence hi hne ys zs info f h
    obtain ⟨ys1, hys, h1⟩ := split_after h (submit_not_mem hpre i info f)
    rcases List.cons_eq_append_iff.mp h1 with ⟨hnil, h2⟩ | ⟨ys2, hys2, h2⟩
    · simp only [List.cons.injEq, Event.queueSubmit.injEq] at h2
      obtain ⟨⟨hi0, -, -⟩, -⟩ := h2
      rw [hys, hnil, List.append_nil]
      rw [hi0] at hi
      exact hwait fence hi hne
    · obtain ⟨ys3, hys3, h3⟩ := split_after h2 (submit_not_mem hpost i info f)
      rw [hys, List.mem_append]
      by_cases hii : i = i0
      · rw [hii] at hi
        exact Or.inl (hwait fence hi hne)
      · right
        rw [hys2, hys3]
        simp only [List.mem_cons, List.mem_append]
        refine Or.inr (Or.inr (hrest.2 i fence ?_ hne ys3 zs info f h3))
        rw [List.getElem?_set_ne (Ne.symm hii)]
        exact hi

/-- The rebuild after a present, followed by the advance of the slot. -/
theorem advance_after_rebuild (t : List Event) (env : RebuildEnv) (st1 : App) (rb : Run)
    (hrb : recreateSwapChain env st1 = rb) :
    ((Run.after t rb).andThen (fun st2 => Run.ok (advanceFrame st2))).app.inFlightFences
        = st1.inFlightFences
      ∧ ((Run.after t rb).andThen
          (fun st2 => Run.ok (advanceFrame st2))).app.imageAvailableSemaphores
        = st1.imageAvailableSemaphores
      ∧ ((Run.after t rb).andThen
          (fun st2 => Run.ok (advanceFrame st2))).app.renderFinishedSemaphores
        = st1.renderFinishedSemaphores
      ∧ ((Run.after t rb).andThen (fun st2 => Run.ok (advanceFrame st2))).app.imagesInFlight
        = st1.imagesInFlight
      ∧ (((Run.after t rb).andThen (fun st2 => Run.ok (advanceFrame st2))).outcome
            = Outcome.returned →
          ((Run.after t rb).andThen (fun st2 => Run.ok (advanceFrame st2))).app.currentFrame
            = (st1.currentFrame + 1) % MAX_FRAMES_IN_FLIGHT)
      ∧ (((Run.after t rb).andThen (fun st2 => Run.ok (advanceFrame st2))).outcome
            ≠ Outcome.returned →
          ((Run.after t rb).andThen (fun st2 => Run.ok (advanceFrame st2))).app.currentFrame
            = st1.currentFrame) := by
  have h := recreateSwapChain_ring env st1
  rw [hrb] at h
  rw [Run.andThen_ok_app, Run.andThen_ok_outcome, Run.after_app, Run.after_outcome]
  by_cases hr : rb.outcome = Outcome.returned
  · simp only [hr, if_true, ne_eq, not_true_eq_false, false_implies, true_implies, and_true]
    refine ⟨h.2.2.1.symm, h.2.2.2.1.symm, h.2.2.2.2.symm, h.2.1.symm, ?_⟩
    show (rb.app.currentFrame + 1) % MAX_FRAMES_IN_FLIGHT = _
    rw [← h.1]
  · simp only [hr, if_false, ne_eq, not_false_eq_true, false_implies, true_implies, true_and]
    exact ⟨h.2.2.1.symm, h.2.2.2.1.symm, h.2.2.2.2.symm, h.2.1.symm, h.1.symm⟩

/-- What any call of `drawFrame` does to the ring: the three vectors stay, the
slot advances when the call returns after a present, and stays otherwise. -/
theorem drawFrame_ring (env : FrameEnv) (st : App) :
    (drawFrame env st).app.inFlightFences = st.inFlightFences
      ∧ (drawFrame env st).app.imageAvailableSemaphores = st.imageAvailableSemaphores
      ∧ (drawFrame env st).app.renderFinishedSemaphores = st.renderFinishedSemaphores
      ∧ ((drawFrame env st).outcome = Outcome.returned →
          (∃ e ∈ (drawFrame env st).trace, e.isPresent = true) →
          (drawFrame env st).app.currentFrame
            = (st.currentFrame + 1) % MAX_FRAMES_IN_FLIGHT)
      ∧ ((drawFrame env st).outcome ≠ Outcome.returned
            ∨ (∀ e ∈ (drawFrame env st).trace, e.isPresent = false) →
          (drawFrame env st).app.currentFrame = st.currentFrame) := by
  unfold drawFrame
  split
  · exact ⟨rfl, rfl, rfl, (fun h => by cases h), fun _ => rfl⟩
  · split
    · exact ⟨rfl, rfl, rfl, (fun h => by cases h), fun _ => rfl⟩
    · dsimp only
      split
      · have h := recreateSwapChain_ring env.rebuild st
        refine ⟨h.2.2.1.symm, h.2.2.2.1.symm, h.2.2.2.2.symm, ?_, fun _ => h.1.symm⟩
        rintro - ⟨e, he, hp⟩
        exfalso
        rw [Run.after_trace, List.mem_append] at he
        rcases he with he | he
        · simp only [List.mem_cons, List.mem_singleton, List.not_mem_nil, or_false] at he
          rcases he with rfl | rfl <;> cases hp
        · rw [(recreateSwapChain_calls _ _ e he).2.2.1] at hp
          cases hp
      · split
        · exact ⟨rfl, rfl, rfl, (fun h => by cases h), fun _ => rfl⟩
        · split
          · exact ⟨rfl, rfl, rfl, (fun h => by cases h), fun _ => rfl⟩
          · split
            · split
              · exact ⟨rfl, rfl, rfl, (fun h => by cases h), fun _ => rfl⟩
              · split
                · generalize hrb : recreateSwapChain env.rebuild _ = rb
                  generalize ht : (_ : List Event) ++ [Event.queuePresent _] = t
                  have h := advance_after_rebuild t env.rebuild _ rb hrb
                  refine ⟨h.1, h.2.1, h.2.2.1, fun hret _ => h.2.2.2.2.1 hret, ?_⟩
                  rintro (hne | hno)
                  · exact h.2.2.2.2.2 hne
                  · exfalso
                    rw [Run.andThen_ok_trace, Run.after_trace, ← ht] at hno
                    have hp := hno (Event.queuePresent _)
                      (List.mem_append_left _
                        (List.mem_append_right _ (List.mem_singleton_self _)))
                    cases hp
                · split
                  · exact ⟨rfl, rfl, rfl, (fun h => by cases h), fun _ => rfl⟩
                  · refine ⟨rfl, rfl, rfl, fun _ _ => rfl, ?_⟩
                    rintro (hne | hno)
                    · exact absurd rfl hne
                    · exfalso
                      have hp := hno (Event.queuePresent _) (List.mem_append_right _ (List.mem_singleton_self _))
                      cases hp
            · exact ⟨rfl, rfl, rfl, (fun h => by cases h), fun _ => rfl⟩

theorem drawFrame_ringOk (env : FrameEnv) (st : App) (hring : RingOk st) :
    RingOk (drawFrame env st).app := by
  obtain ⟨h1, h2, h3, h4, h5⟩ := drawFrame_ring env st
  refine ⟨by rw [h2]; exact hring.1, by rw [h3]; exact hring.2.1, by rw [h1]; exact hring.2.2.1,
    by rw [h1]; exact hring.2.2.2.1, ?_⟩
  by_cases hadv : (drawFrame env st).outcome = Outcome.returned
      ∧ ∃ e ∈ (drawFrame env st).trace, e.isPresent = true
  · rw [h4 hadv.1 hadv.2]
    exact Nat.mod_lt _ (by decide)
  · have hsame : (drawFrame env st).app.currentFrame = st.currentFrame := by
      apply h5
      by_cases hret : (drawFrame env st).outcome = Outcome.returned
      · right
        intro e he
        by_contra hp
        exact hadv ⟨hret, e, he, by simpa using hp⟩
      · exact Or.inl hret
    rw [hsame]
    exact hring.2.2.2.2

theorem lt_of_getElem?_eq_some {l : List Nat} {i x : Nat} (h : l[i]? = some x) :
    i < l.length := by
  by_contra hlt
  rw [List.getElem?_eq_none (Nat.le_of_not_lt hlt)] at h
  cases h

/-- A frame that did not acquire an image, or whose image index is out of
range, submits nothing and resets no fence, and leaves the image-in-flight
map as it was when it returns. -/
theorem drawFrame_no_submit (env : FrameEnv) (st : App)
    (h : ¬ ((env.acquireResult = VK_SUCCESS ∨ env.acquireResult = VK_SUBOPTIMAL_KHR)
      ∧ IndexOk env st)) :
    (∀ e ∈ (drawFrame env st).trace, e.isSubmit = false ∧ e.isReset = false)
      ∧ ((drawFrame env st).outcome = Outcome.returned →
          (drawFrame env st).app.imagesInFlight = st.imagesInFlight) := by
  unfold drawFrame
  split
  · exact ⟨by simp, fun h => by cases h⟩
  · split
    · exact ⟨by simp [Event.isSubmit, Event.isReset], fun h => by cases h⟩
    · dsimp only
      split
      · refine ⟨?_, fun _ => (recreateSwapChain_ring env.rebuild st).2.1.symm⟩
        intro e he
        rw [Run.after_trace, List.mem_append] at he
        rcases he with he | he
        · simp only [List.mem_cons, List.mem_singleton, List.not_mem_nil, or_false] at he
          rcases he with rfl | rfl <;> exact ⟨rfl, rfl⟩
        · exact ⟨(recreateSwapChain_calls _ _ e he).1, (recreateSwapChain_calls _ _ e he).2.1⟩
      · split
        · exact ⟨by simp [Event.isSubmit, Event.isReset], fun h => by cases h⟩
        · split
          · exact ⟨by simp [Event.isSubmit, Event.isReset], fun h => by cases h⟩
          · split
            · rename_i hacq _ _ himg _ _ _ _ hcb _
              exfalso
              apply h
              refine ⟨?_, lt_of_getElem?_eq_some himg, lt_of_getElem?_eq_some hcb⟩
              by_contra hne
              exact hacq ⟨fun hs => hne (Or.inl hs), fun hs => hne (Or.inr hs)⟩
            · refine ⟨?_, fun h => by cases h⟩
              intro e he
              simp only [List.mem_append, List.mem_cons, List.mem_singleton, List.not_mem_nil,
                or_false] at he
              rcases he with (rfl | rfl) | he
              · exact ⟨rfl, rfl⟩
              · exact ⟨rfl, rfl⟩
              · split at he
                · simp only [List.mem_singleton] at he
                  subst he
                  exact ⟨rfl, rfl⟩
                · simp at he

/-- Every frame either submits nothing and, when it returns, leaves the
image-in-flight map alone, or submits once for the acquired image, after a
wait on the fence the map held for that image, and enters its own fence in
the map. -/
theorem drawFrame_summary (env : FrameEnv) (st : App) (hring : RingOk st) :
    ((∀ e ∈ (drawFrame env st).trace, e.isSubmit = false)
        ∧ ((drawFrame env st).outcome = Outcome.returned →
            (drawFrame env st).app.imagesInFlight = st.imagesInFlight))
      ∨ ∃ (pre post : List Event) (info : SubmitInfo) (fence : Nat),
          (drawFrame env st).trace
              = pre ++ Event.queueSubmit env.imageIndex info fence :: post
            ∧ (∀ e ∈ pre, e.isSubmit = false) ∧ (∀ e ∈ post, e.isSubmit = false)
            ∧ fence ≠ VK_NULL_HANDLE ∧ env.imageIndex < st.imagesInFlight.length
            ∧ (∀ g, st.imagesInFlight[env.imageIndex]? = some g → g ≠ VK_NULL_HANDLE →
                Event.waitForFences g ∈ pre)
            ∧ (drawFrame env st).app.imagesInFlight
                = st.imagesInFlight.set env.imageIndex fence := by
  by_cases h : (env.acquireResult = VK_SUCCESS ∨ env.acquireResult = VK_SUBOPTIMAL_KHR)
      ∧ IndexOk env st
  · right
    obtain ⟨fence, imageAvailable, g, info, rest, -, hnull, -, hg, htrace, hrest, himg, -⟩ :=
      drawFrame_acquired env st hring h.2 h.1
    refine ⟨Event.waitForFences fence :: Event.acquireNextImage st.swapChain imageAvailable ::
        ((if g ≠ VK_NULL_HANDLE then [Event.waitForFences g] else [])
          ++ [Event.resetFences fence]), rest, info, fence, ?_, ?_,
        fun e he => (hrest e he).1, hnull, h.2.1, ?_, himg⟩
    · rw [htrace]
      simp
    · intro e he
      simp only [List.mem_cons, List.mem_append, List.mem_singleton, List.not_mem_nil,
        or_false] at he
      rcases he with rfl | rfl | he | rfl
      · rfl
      · rfl
      · split at he
        · simp only [List.mem_singleton] at he
          subst he
          rfl
        · simp at he
      · rfl
    · intro g1 hg1 hne
      rw [hg] at hg1
      cases hg1
      simp [hne]
  · exact Or.inl ⟨fun e he => ((drawFrame_no_submit env st h).1 e he).1,
      (drawFrame_no_submit env st h).2⟩

theorem drawFrames_guarded (envs : List FrameEnv) :
    ∀ st : App, RingOk st →
      Guarded (drawFrames envs st).trace
        ∧ GuardedFrom st.imagesInFlight (drawFrames envs st).trace := by
  induction envs with
  | nil => intro st _; exact ⟨guarded_nil, guardedFrom_nil _⟩
  | cons env envs ih =>
    intro st hring
    have hsum := drawFrame_summary env st hring
    have key : ∀ rest : List Event,
        (Guarded rest ∧ GuardedFrom (drawFrame env st).app.imagesInFlight rest) →
        ((drawFrame env st).outcome ≠ Outcome.returned → rest = []) →
        Guarded ((drawFrame env st).trace ++ rest)
          ∧ GuardedFrom st.imagesInFlight ((drawFrame env st).trace ++ rest) := by
      intro rest hrest hstop
      rcases hsum with ⟨hno, himg⟩ | ⟨pre, post, info, fence, htrace, hpre, hpost, hnull, hlt,
        hwait, himg⟩
      · by_cases hret : (drawFrame env st).outcome = Outcome.returned
        · rw [himg hret] at hrest
          exact guarded_without_submit hno hrest
        · rw [hstop hret]
          exact guarded_without_submit hno ⟨guarded_nil, guardedFrom_nil _⟩
      · rw [himg] at hrest
        rw [htrace, List.append_assoc, List.cons_append]
        exact guarded_with_submit hpre hpost hnull hlt hwait hrest
    by_cases hret : (drawFrame env st).outcome = Outcome.returned
    · have hrun : drawFrames (env :: envs) st
          = Run.after (drawFrame env st).trace (drawFrames envs (drawFrame env st).app) :=
        Run.andThen_returned _ _ hret
      rw [hrun, Run.after_trace]
      exact key _ (ih _ (drawFrame_ringOk env st hring)) (fun h => absurd hret h)
    · have hrun : drawFrames (env :: envs) st = drawFrame env st :=
        Run.andThen_stopped _ _ hret
      rw [hrun]
      have h := key [] ⟨guarded_nil, guardedFrom_nil _⟩ (fun _ => rfl)
      rw [List.append_nil] at h
      exact h

/-- C3: in the trace of any sequence of `drawFrame` calls, whatever image
indices the acquires return, any two submissions that target the same image
index have between them a CPU wait on the fence that the earlier of the two
was given to signal. -/
theorem C3_submissions_separated_by_wait (envs : List FrameEnv) (st : App)
    (hring : RingOk st) (xs ys zs : List Event) (i : Nat) (infoA infoB : SubmitInfo)
    (fenceA fenceB : Nat)
    (htrace : (drawFrames envs st).trace
      = xs ++ Event.queueSubmit i infoA fenceA
          :: (ys ++ Event.queueSubmit i infoB fenceB :: zs)) :
    Event.waitForFences fenceA ∈ ys :=
  (drawFrames_guarded envs st hring).1 xs ys zs i infoA infoB fenceA fenceB htrace

/-- C3, witness: three images, two frame slots, five calls acquiring the
indices 0, 1, 2, 0, 1. The first and the fourth call both submit for image 0,
the first with fence 701, and the calls between the two submissions contain a
wait on 701. -/
theorem C3_submissions_separated_by_wait_witness :
    RingOk exampleApp
      ∧ ∃ (xs ys zs : List Event) (infoA infoB : SubmitInfo),
          (drawFrames fiveFrames exampleApp).trace
              = xs ++ Event.queueSubmit 0 infoA 701
                  :: (ys ++ Event.queueSubmit 0 infoB 702 :: zs)
            ∧ Event.waitForFences 701 ∈ ys := by
  have htrace : (drawFrames fiveFrames exampleApp).trace
      = (drawFrames fiveFrames exampleApp).trace.take 3
          ++ Event.queueSubmit 0 firstSubmitInfo 701
            :: (((drawFrames fiveFrames exampleApp).trace.drop 4).take 15
              ++ Event.queueSubmit 0 fourthSubmitInfo 702
                :: (drawFrames fiveFrames exampleApp).trace.drop 20) := by
    decide
  exact ⟨exampleApp_ringOk, _, _, _, _, _, htrace,
    C3_submissions_separated_by_wait fiveFrames exampleApp exampleApp_ringOk
      _ _ _ 0 _ _ 701 702 htrace⟩

/-! ## A frame that reaches its present -/

theorem submitCalls_no_present (st : App) (env : FrameEnv)
    (fence imageAvailable renderFinished imageFence commandBuffer : Nat) :
    ∀ e ∈ submitCalls st env fence imageAvailable renderFinished imageFence commandBuffer,
      e.isPresent = false ∧ e ≠ Event.recreateSwapChain := by
  intro e he
  simp only [submitCalls, List.mem_cons, List.mem_append, List.mem_singleton, List.not_mem_nil,
    or_false] at he
  rcases he with rfl | rfl | he | rfl | rfl
  · exact ⟨rfl, by simp⟩
  · exact ⟨rfl, by simp⟩
  · split at he
    · simp only [List.mem_singleton] at he
      subst he
      exact ⟨rfl, by simp⟩
    · simp at he
  · exact ⟨rfl, by simp⟩
  · exact ⟨rfl, by simp⟩

/-- A frame that acquired an image and whose submission succeeded: the
calls up to the present, and the three ways on from there. -/
theorem drawFrame_presented (env : FrameEnv) (st : App) (hring : RingOk st)
    (hidx : IndexOk env st)
    (hacq : env.acquireResult = VK_SUCCESS ∨ env.acquireResult = VK_SUBOPTIMAL_KHR)
    (hsub : env.submitResult = VK_SUCCESS) :
    ∃ (fence imageAvailable renderFinished imageFence commandBuffer : Nat),
      st.slotFence = fence
      ∧ st.imagesInFlight[env.imageIndex]? = some imageFence
      ∧ st.commandBuffers[env.imageIndex]? = some commandBuffer
      ∧ drawFrame env st =
        if env.presentResult = VK_ERROR_OUT_OF_DATE_KHR
            ∨ env.presentResult = VK_SUBOPTIMAL_KHR ∨ st.framebufferResized = true then
          (Run.after
            (submitCalls st env fence imageAvailable renderFinished imageFence commandBuffer
              ++ [Event.queuePresent (framePresentInfo st env renderFinished)])
            (recreateSwapChain env.rebuild
              { atPresent st env fence with framebufferResized := false })).andThen
            (fun st2 => Run.ok (advanceFrame st2))
        else if env.presentResult ≠ VK_SUCCESS then
          { app := atPresent st env fence,
            trace := submitCalls st env fence imageAvailable renderFinished imageFence
              commandBuffer ++ [Event.queuePresent (framePresentInfo st env renderFinished)],
            outcome := Outcome.threw Error.presentImage }
        else
          { app := advanceFrame (atPresent st env fence),
            trace := submitCalls st env fence imageAvailable renderFinished imageFence
              commandBuffer ++ [Event.queuePresent (framePresentInfo st env renderFinished)],
            outcome := Outcome.returned } := by
  obtain ⟨fence, imageAvailable, renderFinished, hf, ha, hr, -, hslot⟩ := hring.slot
  obtain ⟨imageFence, commandBuffer, hg, hc⟩ := hidx.entries
  obtain ⟨n1, n2⟩ := acquired_not_stale hacq
  refine ⟨fence, imageAvailable, renderFinished, imageFence, commandBuffer, hslot, hg, hc, ?_⟩
  simp only [drawFrame, hf, ha, hr, hg, hc, n1, n2, hsub, ne_eq, not_true_eq_false, if_false,
    submitCalls, frameSubmitInfo, framePresentInfo, atPresent, List.cons_append,
    List.nil_append, List.append_assoc, List.singleton_append]

theorem takeWhile_stop {p : Event → Bool} (l : List Event) (x : Event) (r : List Event)
    (hl : ∀ e ∈ l, p e = true) (hx : p x = false) : (l ++ x :: r).takeWhile p = l := by
  induction l with
  | nil => simp [List.takeWhile, hx]
  | cons a l ih =>
    have ha : p a = true := hl a (List.mem_cons_self _ _)
    have hrest : ∀ e ∈ l, p e = true := fun e he => hl e (List.mem_cons_of_mem _ he)
    simp [List.takeWhile, ha, ih hrest]

theorem dropWhile_stop {p : Event → Bool} (l : List Event) (x : Event) (r : List Event)
    (hl : ∀ e ∈ l, p e = true) (hx : p x = false) : (l ++ x :: r).dropWhile p = x :: r := by
  induction l with
  | nil => simp [List.dropWhile, hx]
  | cons a l ih =>
    have ha : p a = true := hl a (List.mem_cons_self _ _)
    have hrest : ∀ e ∈ l, p e = true := fun e he => hl e (List.mem_cons_of_mem _ he)
    simp [List.dropWhile, ha, ih hrest]

theorem beforePresent_calls (calls : List Event) (presentInfo : PresentInfo)
    (rest : List Event) (hcalls : ∀ e ∈ calls, e.isPresent = false) :
    beforePresent (calls ++ Event.queuePresent presentInfo :: rest) = calls :=
  takeWhile_stop calls _ rest (fun e he => by simp [hcalls e he]) (by simp [Event.isPresent])

theorem afterPresent_calls (calls : List Event) (presentInfo : PresentInfo)
    (rest : List Event) (hcalls : ∀ e ∈ calls, e.isPresent = false) :
    afterPresent (calls ++ Event.queuePresent presentInfo :: rest) = rest := by
  unfold afterPresent
  rw [dropWhile_stop calls _ rest (fun e he => by simp [hcalls e he])
    (by simp [Event.isPresent])]
  rfl

theorem rebuildCount_calls (calls : List Event) (presentInfo : PresentInfo)
    (hcalls : ∀ e ∈ calls, e ≠ Event.recreateSwapChain) :
    rebuildCount (calls ++ [Event.queuePresent presentInfo]) = 0 := by
  unfold rebuildCount
  rw [List.count_eq_zero]
  intro hmem
  rw [List.mem_append, List.mem_singleton] at hmem
  rcases hmem with hmem | hmem
  · exact hcalls _ hmem rfl
  · cases hmem

theorem submit_mem_submitCalls (st : App) (env : FrameEnv)
    (fence imageAvailable renderFinished imageFence commandBuffer : Nat) :
    Event.queueSubmit env.imageIndex
        (frameSubmitInfo imageAvailable renderFinished commandBuffer) fence
      ∈ submitCalls st env fence imageAvailable renderFinished imageFence commandBuffer := by
  simp [submitCalls]

/-- A frame that reaches its present with a stale result or with the resized
flag set: the submission is before the present, one rebuild is started after
it, and the slot advances exactly when that rebuild returns. -/
theorem drawFrame_rebuild_after_present (env : FrameEnv) (st : App) (hring : RingOk st)
    (hidx : IndexOk env st)
    (hacq : env.acquireResult = VK_SUCCESS ∨ env.acquireResult = VK_SUBOPTIMAL_KHR)
    (hsub : env.submitResult = VK_SUCCESS)
    (hre : env.presentResult = VK_ERROR_OUT_OF_DATE_KHR
      ∨ env.presentResult = VK_SUBOPTIMAL_KHR ∨ st.framebufferResized = true) :
    (∃ (commandBuffer : Nat) (info : SubmitInfo) (fence : Nat),
        st.commandBuffers[env.imageIndex]? = some commandBuffer
        ∧ info.commandBuffers = [commandBuffer]
        ∧ Event.queueSubmit env.imageIndex info fence
            ∈ beforePresent (drawFrame env st).trace)
      ∧ (∃ e ∈ (drawFrame env st).trace, e.isPresent = true)
      ∧ rebuildCount (drawFrame env st).trace = 1
      ∧ Event.recreateSwapChain ∈ afterPresent (drawFrame env st).trace
      ∧ (drawFrame env st).outcome.noFrameError = true
      ∧ (drawFrame env st).outcome
          = (recreateSwapChain env.rebuild
              { atPresent st env st.slotFence with framebufferResized := false }).outcome
      ∧ ((drawFrame env st).outcome = Outcome.returned →
          (drawFrame env st).app.currentFrame
            = (st.currentFrame + 1) % MAX_FRAMES_IN_FLIGHT)
      ∧ ((drawFrame env st).outcome ≠ Outcome.returned →
          (drawFrame env st).app.currentFrame = st.currentFrame) := by
  obtain ⟨fence, imageAvailable, renderFinished, imageFence, commandBuffer, hslot, -, hc,
    hrun⟩ := drawFrame_presented env st hring hidx hacq hsub
  rw [if_pos hre] at hrun
  have hcalls := submitCalls_no_present st env fence imageAvailable renderFinished imageFence
    commandBuffer
  have hadv := advance_after_rebuild
    (submitCalls st env fence imageAvailable renderFinished imageFence commandBuffer
      ++ [Event.queuePresent (framePresentInfo st env renderFinished)]) env.rebuild
    { atPresent st env fence with framebufferResized := false } _ rfl
  have htrace : (drawFrame env st).trace
      = submitCalls st env fence imageAvailable renderFinished imageFence commandBuffer
        ++ Event.queuePresent (framePresentInfo st env renderFinished)
          :: (recreateSwapChain env.rebuild
              { atPresent st env fence with framebufferResized := false }).trace := by
    rw [hrun, Run.andThen_ok_trace, Run.after_trace]
    simp
  rw [hslot]
  refine ⟨⟨commandBuffer, frameSubmitInfo imageAvailable renderFinished commandBuffer, fence,
      hc, rfl, ?_⟩,
    ⟨Event.queuePresent (framePresentInfo st env renderFinished), ?_, rfl⟩,
    ?_, ?_, ?_, ?_, ?_, ?_⟩
  · rw [htrace, beforePresent_calls _ _ _ (fun e he => (hcalls e he).1)]
    exact submit_mem_submitCalls st env fence imageAvailable renderFinished imageFence
      commandBuffer
  · rw [htrace]
    exact List.mem_append_right _ (List.mem_cons_self _ _)
  · rw [hrun, Run.andThen_ok_trace, Run.after_trace, rebuildCount_append,
      rebuildCount_calls _ _ (fun e he => (hcalls e he).2), rebuildCount_recreateSwapChain]
  · rw [htrace, afterPresent_calls _ _ _ (fun e he => (hcalls e he).1)]
    obtain ⟨r, hr, -⟩ := recreateSwapChain_shape env.rebuild
      { atPresent st env fence with framebufferResized := false }
    rw [hr, Run.after_trace]
    exact List.mem_append_left _ (List.mem_singleton_self _)
  · rw [hrun, Run.andThen_ok_outcome, Run.after_outcome]
    exact recreateSwapChain_noFrameError _ _
  · rw [hrun, Run.andThen_ok_outcome, Run.after_outcome]
  · rw [hrun]
    exact hadv.2.2.2.2.1
  · rw [hrun]
    exact hadv.2.2.2.2.2

/-! ## C5 -/

/-- C5, as stated, fails: acquire and submit succeed, the present returns
suboptimal and `vkCreateSwapchainKHR` fails in the rebuild; `drawFrame` ends
with the error "failed to create swap chain!" and `currentFrame` is still 0. -/
theorem C5_counterexample :
    suboptimalPresentFailingRebuild.acquireResult = VK_SUCCESS
      ∧ suboptimalPresentFailingRebuild.presentResult = VK_SUBOPTIMAL_KHR
      ∧ (∃ e ∈ (drawFrame suboptimalPresentFailingRebuild exampleApp).trace,
          e.isPresent = true)
      ∧ (drawFrame suboptimalPresentFailingRebuild exampleApp).outcome
          = Outcome.threw Error.createSwapChain
      ∧ exampleApp.currentFrame = 0
      ∧ (drawFrame suboptimalPresentFailingRebuild exampleApp).app.currentFrame = 0 := by
  decide

/-- C5, amended: when the acquire succeeds and the present call returns
suboptimal or out-of-date, the command buffer of the acquired image was
submitted before the present, exactly one `recreateSwapChain` is started and
it comes after the present, the call raises none of its own errors and ends
as that rebuild ends; `currentFrame` advances to `(currentFrame + 1) mod
MAX_FRAMES_IN_FLIGHT` when the rebuild returns and keeps its value when the
rebuild fails. -/
theorem C5_stale_present (env : FrameEnv) (st : App) (hring : RingOk st)
    (hidx : IndexOk env st)
    (hacq : env.acquireResult = VK_SUCCESS ∨ env.acquireResult = VK_SUBOPTIMAL_KHR)
    (hsub : env.submitResult = VK_SUCCESS)
    (hpres : env.presentResult = VK_SUBOPTIMAL_KHR
      ∨ env.presentResult = VK_ERROR_OUT_OF_DATE_KHR) :
    (∃ (commandBuffer : Nat) (info : SubmitInfo) (fence : Nat),
        st.commandBuffers[env.imageIndex]? = some commandBuffer
        ∧ info.commandBuffers = [commandBuffer]
        ∧ Event.queueSubmit env.imageIndex info fence
            ∈ beforePresent (drawFrame env st).trace)
      ∧ (∃ e ∈ (drawFrame env st).trace, e.isPresent = true)
      ∧ rebuildCount (drawFrame env st).trace = 1
      ∧ Event.recreateSwapChain ∈ afterPresent (drawFrame env st).trace
      ∧ (drawFrame env st).outcome.noFrameError = true
      ∧ (drawFrame env st).outcome
          = (recreateSwapChain env.rebuild
              { atPresent st env st.slotFence with framebufferResized := false }).outcome
      ∧ ((drawFrame env st).outcome = Outcome.returned →
          (drawFrame env st).app.currentFrame
            = (st.currentFrame + 1) % MAX_FRAMES_IN_FLIGHT)
      ∧ ((drawFrame env st).outcome ≠ Outcome.returned →
          (drawFrame env st).app.currentFrame = st.currentFrame) :=
  drawFrame_rebuild_after_present env st hring hidx hacq hsub
    (hpres.elim (fun h => Or.inr (Or.inl h)) Or.inl)

/-- C5, witness: the present returns suboptimal on a device on which the
rebuild succeeds; the call rebuilds once, returns, and the slot goes from 0
to 1. -/
theorem C5_stale_present_witness :
    RingOk exampleApp ∧ IndexOk suboptimalPresent exampleApp
      ∧ suboptimalPresent.presentResult = VK_SUBOPTIMAL_KHR
      ∧ rebuildCount (drawFrame suboptimalPresent exampleApp).trace = 1
      ∧ (drawFrame suboptimalPresent exampleApp).app.currentFrame = 1 := by
  have hidx : IndexOk suboptimalPresent exampleApp := ⟨by decide, by decide⟩
  have h := C5_stale_present suboptimalPresent exampleApp exampleApp_ringOk hidx
    (Or.inl rfl) rfl (Or.inl rfl)
  exact ⟨exampleApp_ringOk, hidx, rfl, h.2.2.1, h.2.2.2.2.2.2.1 (by decide)⟩

/-! ## C6 -/

/-- C6, as stated, fails: with slot 1 current, the present returns out-of-date
(recoverable staleness after the present) and `vkCreateRenderPass` fails in
the rebuild; the call ends with the error "failed to create render pass!" and
`currentFrame` is still 1, not `(1 + 1) mod 2 = 0`. -/
theorem C6_counterexample :
    stalePresentFailingRenderPass.presentResult = VK_ERROR_OUT_OF_DATE_KHR
      ∧ (∃ e ∈ (drawFrame stalePresentFailingRenderPass slotOneApp).trace, e.isPresent = true)
      ∧ (drawFrame stalePresentFailingRenderPass slotOneApp).outcome
          = Outcome.threw Error.createRenderPass
      ∧ slotOneApp.currentFrame = 1
      ∧ (drawFrame stalePresentFailingRenderPass slotOneApp).app.currentFrame = 1
      ∧ (slotOneApp.currentFrame + 1) % MAX_FRAMES_IN_FLIGHT = 0 := by
  decide

/-- C6, amended: `currentFrame` advances exactly once, to `(currentFrame + 1)
mod MAX_FRAMES_IN_FLIGHT`, in every `drawFrame` call that returns after its
present; these are the calls whose present succeeded with the resized flag
clear, and the calls with staleness after the present whose rebuild returned.
Whenever `drawFrame` raises an error (acquire, submit or present failure, or
a failure inside the rebuild), and whenever it returns without a present,
`currentFrame` after the call equals its value before the call. -/
theorem C6_slot_advance (env : FrameEnv) (st : App) :
    ((drawFrame env st).outcome = Outcome.returned →
        (∃ e ∈ (drawFrame env st).trace, e.isPresent = true) →
        (drawFrame env st).app.currentFrame = (st.currentFrame + 1) % MAX_FRAMES_IN_FLIGHT)
      ∧ (∀ error : Error, (drawFrame env st).outcome = Outcome.threw error →
          (drawFrame env st).app.currentFrame = st.currentFrame)
      ∧ ((drawFrame env st).outcome = Outcome.returned →
          (∀ e ∈ (drawFrame env st).trace, e.isPresent = false) →
          (drawFrame env st).app.currentFrame = st.currentFrame)
      ∧ (RingOk st → IndexOk env st →
          (env.acquireResult = VK_SUCCESS ∨ env.acquireResult = VK_SUBOPTIMAL_KHR) →
          env.submitResult = VK_SUCCESS →
          (env.presentResult = VK_SUCCESS → st.framebufferResized = false →
            (drawFrame env st).outcome = Outcome.returned
              ∧ (drawFrame env st).app.currentFrame
                  = (st.currentFrame + 1) % MAX_FRAMES_IN_FLIGHT)
          ∧ (env.presentResult = VK_ERROR_OUT_OF_DATE_KHR
              ∨ env.presentResult = VK_SUBOPTIMAL_KHR ∨ st.framebufferResized = true →
            (drawFrame env st).outcome
                = (recreateSwapChain env.rebuild
                    { atPresent st env st.slotFence with framebufferResized := false }).outcome
              ∧ ((drawFrame env st).outcome = Outcome.returned →
                  (drawFrame env st).app.currentFrame
                    = (st.currentFrame + 1) % MAX_FRAMES_IN_FLIGHT))) := by
  obtain ⟨-, -, -, hadv, hsame⟩ := drawFrame_ring env st
  refine ⟨hadv, ?_, fun _ hno => hsame (Or.inr hno), ?_⟩
  · intro error herr
    apply hsame
    left
    rw [herr]
    simp
  · intro hring hidx hacq hsub
    constructor
    · intro hpres hflag
      obtain ⟨hout, happ⟩ := drawFrame_success env st hring hidx hacq hsub hpres hflag
      exact ⟨hout, by rw [happ]⟩
    · intro hre
      have h := drawFrame_rebuild_after_present env st hring hidx hacq hsub hre
      exact ⟨h.2.2.2.2.2.1, h.2.2.2.2.2.2.1⟩

/-- C6, witness: a successful frame on the example application returns after
its present and moves the slot from 0 to 1. -/
theorem C6_slot_advance_witness :
    (drawFrame (exampleFrame 0) exampleApp).outcome = Outcome.returned
      ∧ (∃ e ∈ (drawFrame (exampleFrame 0) exampleApp).trace, e.isPresent = true)
      ∧ (drawFrame (exampleFrame 0) exampleApp).app.currentFrame = 1 :=
  ⟨by decide, by decide,
    (C6_slot_advance (exampleFrame 0) exampleApp).1 (by decide) (by decide)⟩

/-! ## C7 -/

/-- C7, as stated, fails: the resized flag is set and the present fails with
`VK_ERROR_DEVICE_LOST`; the call raises no error, rebuilds once and
returns. -/
theorem C7_counterexample :
    resizedApp.framebufferResized = true
      ∧ lostPresent.presentResult = VK_ERROR_DEVICE_LOST
      ∧ (drawFrame lostPresent resizedApp).outcome = Outcome.returned
      ∧ rebuildCount (drawFrame lostPresent resizedApp).trace = 1 := by
  decide

/-- With the resized flag set, a failed present is answered by a rebuild: the
test `|| framebufferResized` of line 1100 comes before the test of line
1103. -/
theorem present_failure_with_resize (env : FrameEnv) (st : App) (hring : RingOk st)
    (hidx : IndexOk env st)
    (hacq : env.acquireResult = VK_SUCCESS ∨ env.acquireResult = VK_SUBOPTIMAL_KHR)
    (hsub : env.submitResult = VK_SUCCESS) (hflag : st.framebufferResized = true) :
    rebuildCount (drawFrame env st).trace = 1
      ∧ (drawFrame env st).outcome.noFrameError = true := by
  have h := drawFrame_rebuild_after_present env st hring hidx hacq hsub
    (Or.inr (Or.inr hflag))
  exact ⟨h.2.2.1, h.2.2.2.2.1⟩

/-- C7, amended: for every present result other than success, suboptimal and
out-of-date, when the resized flag is clear `drawFrame` raises the fatal
present error, which leaves the call, performs no rebuild and leaves
`currentFrame` as it was. -/
theorem C7_present_failure (env : FrameEnv) (st : App) (hring : RingOk st)
    (hidx : IndexOk env st)
    (hacq : env.acquireResult = VK_SUCCESS ∨ env.acquireResult = VK_SUBOPTIMAL_KHR)
    (hsub : env.submitResult = VK_SUCCESS)
    (hbad : env.presentResult ≠ VK_SUCCESS ∧ env.presentResult ≠ VK_SUBOPTIMAL_KHR
      ∧ env.presentResult ≠ VK_ERROR_OUT_OF_DATE_KHR)
    (hflag : st.framebufferResized = false) :
    (drawFrame env st).outcome = Outcome.threw Error.presentImage
      ∧ rebuildCount (drawFrame env st).trace = 0
      ∧ (drawFrame env st).app.currentFrame = st.currentFrame := by
  obtain ⟨fence, imageAvailable, renderFinished, imageFence, commandBuffer, -, -, -, hrun⟩ :=
    drawFrame_presented env st hring hidx hacq hsub
  have hno : ¬ (env.presentResult = VK_ERROR_OUT_OF_DATE_KHR
      ∨ env.presentResult = VK_SUBOPTIMAL_KHR ∨ st.framebufferResized = true) := by
    rintro (h | h | h)
    · exact hbad.2.2 h
    · exact hbad.2.1 h
    · rw [hflag] at h; cases h
  rw [if_neg hno, if_pos hbad.1] at hrun
  rw [hrun]
  refine ⟨rfl, ?_, rfl⟩
  exact rebuildCount_calls _ _ (fun e he => (submitCalls_no_present _ _ _ _ _ _ _ e he).2)

/-- C7, witness: the flag is clear and the present fails with
`VK_ERROR_DEVICE_LOST`; the call throws the present error and does not
rebuild. -/
theorem C7_present_failure_witness :
    RingOk exampleApp ∧ IndexOk lostPresent exampleApp
      ∧ exampleApp.framebufferResized = false
      ∧ (drawFrame lostPresent exampleApp).outcome = Outcome.threw Error.presentImage
      ∧ rebuildCount (drawFrame lostPresent exampleApp).trace = 0 := by
  have hidx : IndexOk lostPresent exampleApp := ⟨by decide, by decide⟩
  have h := C7_present_failure lostPresent exampleApp exampleApp_ringOk hidx (Or.inl rfl) rfl
    (by decide) rfl
  exact ⟨exampleApp_ringOk, hidx, rfl, h.1, h.2.1⟩

/-! ## C8 -/

/-- C8, as stated, fails: the acquire returns suboptimal, the present
succeeds and the resized flag is clear; the frame is submitted and presented,
the call returns, and no rebuild is performed. -/
theorem C8_counterexample :
    suboptimalAcquire.acquireResult = VK_SUBOPTIMAL_KHR
      ∧ suboptimalAcquire.presentResult = VK_SUCCESS
      ∧ exampleApp.framebufferResized = false
      ∧ (∃ e ∈ (drawFrame suboptimalAcquire exampleApp).trace, e.isPresent = true)
      ∧ (drawFrame suboptimalAcquire exampleApp).outcome = Outcome.returned
      ∧ rebuildCount (drawFrame suboptimalAcquire exampleApp).trace = 0 := by
  decide

/-- C8, amended: when the acquire returns suboptimal, `drawFrame` runs exactly
as on acquire success (same calls, same object afterwards, same end); a
rebuild is started after that frame's present exactly when the present
returns out-of-date or suboptimal or the resized flag is set, and with any
other present result and the flag clear no rebuild is performed. -/
theorem C8_suboptimal_acquire (env : FrameEnv) (st : App) (hring : RingOk st)
    (hidx : IndexOk env st) (hacq : env.acquireResult = VK_SUBOPTIMAL_KHR)
    (hsub : env.submitResult = VK_SUCCESS) :
    drawFrame env st = drawFrame { env with acquireResult := VK_SUCCESS } st
      ∧ (env.presentResult = VK_ERROR_OUT_OF_DATE_KHR
            ∨ env.presentResult = VK_SUBOPTIMAL_KHR ∨ st.framebufferResized = true →
          rebuildCount (drawFrame env st).trace = 1
            ∧ Event.recreateSwapChain ∈ afterPresent (drawFrame env st).trace)
      ∧ (¬ (env.presentResult = VK_ERROR_OUT_OF_DATE_KHR
            ∨ env.presentResult = VK_SUBOPTIMAL_KHR ∨ st.framebufferResized = true) →
          rebuildCount (drawFrame env st).trace = 0) := by
  refine ⟨?_, ?_, ?_⟩
  · have p1 : VK_SUBOPTIMAL_KHR ≠ VK_ERROR_OUT_OF_DATE_KHR := by decide
    have p2 : VK_SUCCESS ≠ VK_ERROR_OUT_OF_DATE_KHR := by decide
    have p3 : ¬ (VK_SUBOPTIMAL_KHR ≠ VK_SUCCESS ∧ VK_SUBOPTIMAL_KHR ≠ VK_SUBOPTIMAL_KHR) := by
      decide
    have p4 : ¬ (VK_SUCCESS ≠ VK_SUCCESS ∧ VK_SUCCESS ≠ VK_SUBOPTIMAL_KHR) := by decide
    simp only [drawFrame, hacq, p1, p2, p3, p4, if_false]
  · intro hre
    have h := drawFrame_rebuild_after_present env st hring hidx (Or.inr hacq) hsub hre
    exact ⟨h.2.2.1, h.2.2.2.1⟩
  · intro hno
    obtain ⟨fence, imageAvailable, renderFinished, imageFence, commandBuffer, -, -, -, hrun⟩ :=
      drawFrame_presented env st hring hidx (Or.inr hacq) hsub
    rw [if_neg hno] at hrun
    rw [hrun]
    split <;>
      exact rebuildCount_calls _ _
        (fun e he => (submitCalls_no_present _ _ _ _ _ _ _ e he).2)

/-- C8, witness: the acquire and the present both return suboptimal on a
device on which the rebuild succeeds; one rebuild follows the present. -/
theorem C8_suboptimal_acquire_witness :
    RingOk exampleApp
      ∧ IndexOk { suboptimalAcquire with presentResult := VK_SUBOPTIMAL_KHR } exampleApp
      ∧ rebuildCount (drawFrame { suboptimalAcquire with presentResult := VK_SUBOPTIMAL_KHR }
          exampleApp).trace = 1 := by
  have hidx : IndexOk { suboptimalAcquire with presentResult := VK_SUBOPTIMAL_KHR }
      exampleApp := ⟨by decide, by decide⟩
  have h := (C8_suboptimal_acquire { suboptimalAcquire with presentResult := VK_SUBOPTIMAL_KHR }
    exampleApp exampleApp_ringOk hidx rfl rfl).2.1 (Or.inr (Or.inl rfl))
  exact ⟨exampleApp_ringOk, hidx, h.1⟩

/-! ## C9 -/

theorem noFrameError_acquire {o : Outcome} (h : o.noFrameError = true) :
    o ≠ Outcome.threw Error.acquireImage := by
  intro ho
  rw [ho] at h
  simp [Outcome.noFrameError, Error.isFrameError] at h

/-- A call that ends with the acquire error did nothing after the acquire. -/
theorem drawFrame_acquire_error (env : FrameEnv) (st : App)
    (h : (drawFrame env st).outcome = Outcome.threw Error.acquireImage) :
    (env.acquireResult ≠ VK_SUCCESS ∧ env.acquireResult ≠ VK_SUBOPTIMAL_KHR
        ∧ env.acquireResult ≠ VK_ERROR_OUT_OF_DATE_KHR)
      ∧ (drawFrame env st).app = st
      ∧ rebuildCount (drawFrame env st).trace = 0
      ∧ ∀ e ∈ (drawFrame env st).trace,
          e.isSubmit = false ∧ e.isPresent = false ∧ e.isReset = false := by
  generalize hr : drawFrame env st = r at h ⊢
  unfold drawFrame at hr
  split at hr
  · subst hr; cases h
  · split at hr
    · subst hr; cases h
    · dsimp only at hr
      split at hr
      · subst hr
        exact absurd h (noFrameError_acquire (recreateSwapChain_noFrameError _ _))
      · split at hr
        · rename_i hstale hfail
          subst hr
          refine ⟨⟨hfail.1, hfail.2, hstale⟩, rfl, ?_, ?_⟩
          · simp [rebuildCount]
          intro e he
          simp only [List.mem_cons, List.mem_singleton, List.not_mem_nil, or_false] at he
          rcases he with rfl | rfl <;> exact ⟨rfl, rfl, rfl⟩
        · split at hr
          · subst hr; cases h
          · split at hr
            · split at hr
              · subst hr; cases h
              · split at hr
                · subst hr
                  rw [Run.andThen_ok_outcome, Run.after_outcome] at h
                  exact absurd h (noFrameError_acquire (recreateSwapChain_noFrameError _ _))
                · split at hr
                  · subst hr; cases h
                  · subst hr; cases h
            · subst hr; cases h

/-- C9: `drawFrame` raises the fatal acquire error if and only if the acquire
result is none of success, suboptimal and out-of-date; when it does, no
rebuild is performed, nothing is submitted or presented, no fence is reset,
and `imagesInFlight` (indeed the whole object) is unchanged. -/
theorem C9_acquire_failure (env : FrameEnv) (st : App) (hring : RingOk st) :
    ((drawFrame env st).outcome = Outcome.threw Error.acquireImage ↔
        (env.acquireResult ≠ VK_SUCCESS ∧ env.acquireResult ≠ VK_SUBOPTIMAL_KHR
          ∧ env.acquireResult ≠ VK_ERROR_OUT_OF_DATE_KHR))
      ∧ ((drawFrame env st).outcome = Outcome.threw Error.acquireImage →
          rebuildCount (drawFrame env st).trace = 0
            ∧ (∀ e ∈ (drawFrame env st).trace,
                e.isSubmit = false ∧ e.isPresent = false ∧ e.isReset = false)
            ∧ (drawFrame env st).app.imagesInFlight = st.imagesInFlight
            ∧ (drawFrame env st).app = st) := by
  refine ⟨⟨fun h => (drawFrame_acquire_error env st h).1, ?_⟩, ?_⟩
  · intro hbad
    obtain ⟨fence, imageAvailable, renderFinished, hf, ha, -, -, -⟩ := hring.slot
    have hfail : env.acquireResult ≠ VK_SUCCESS ∧ env.acquireResult ≠ VK_SUBOPTIMAL_KHR :=
      ⟨hbad.1, hbad.2.1⟩
    simp only [drawFrame, hf, ha, hbad.2.2, hfail, if_false, if_true, ne_eq, not_false_eq_true,
      and_self]
  · intro h
    obtain ⟨-, happ, hcount, hcalls⟩ := drawFrame_acquire_error env st h
    exact ⟨hcount, hcalls, by rw [happ], happ⟩

/-- C9, witness: the acquire fails with `VK_ERROR_SURFACE_LOST_KHR`; the call
throws the acquire error and the object is as before. -/
theorem C9_acquire_failure_witness :
    RingOk exampleApp
      ∧ (drawFrame lostAcquire exampleApp).outcome = Outcome.threw Error.acquireImage
      ∧ (drawFrame lostAcquire exampleApp).app = exampleApp := by
  have h := C9_acquire_failure lostAcquire exampleApp exampleApp_ringOk
  have hthrow := h.1.2 (by decide)
  exact ⟨exampleApp_ringOk, hthrow, (h.2 hthrow).2.2.2⟩

/-! ## C10 -/

/-- With the ring in order, the first call of every frame is the wait on the
fence of the current slot. -/
theorem drawFrame_head (env : FrameEnv) (st : App) (hring : RingOk st) :
    ∃ rest, (drawFrame env st).trace = Event.waitForFences st.slotFence :: rest := by
  obtain ⟨fence, imageAvailable, renderFinished, hf, ha, -, -, hslot⟩ := hring.slot
  rw [hslot]
  simp only [drawFrame, hf, ha]
  split
  · exact ⟨_, rfl⟩
  · split
    · exact ⟨_, rfl⟩
    · split
      · exact ⟨_, rfl⟩
      · split
        · split
          · exact ⟨_, rfl⟩
          · split
            · rw [Run.andThen_ok_trace, Run.after_trace]
              exact ⟨_, rfl⟩
            · split
              · exact ⟨_, rfl⟩
              · exact ⟨_, rfl⟩
        · exact ⟨_, rfl⟩

/-- With the ring in order, a fence that a frame resets or hands to a
submission was waited on before the first reset or submission of that
frame. -/
theorem drawFrame_wait_before_reuse (env : FrameEnv) (st : App) (hring : RingOk st)
    (f : Nat)
    (h : Event.resetFences f ∈ (drawFrame env st).trace
      ∨ ∃ (i : Nat) (info : SubmitInfo), Event.queueSubmit i info f ∈ (drawFrame env st).trace) :
    Event.waitForFences f ∈ beforeSubmission (drawFrame env st).trace := by
  by_cases hacq : (env.acquireResult = VK_SUCCESS ∨ env.acquireResult = VK_SUBOPTIMAL_KHR)
      ∧ IndexOk env st
  · obtain ⟨fence, imageAvailable, g, info, rest, -, -, -, -, htrace, hrest, -, -⟩ :=
      drawFrame_acquired env st hring hacq.2 hacq.1
    have hhead : ∀ e ∈ Event.waitForFences fence :: Event.acquireNextImage st.swapChain
        imageAvailable :: (if g ≠ VK_NULL_HANDLE then [Event.waitForFences g] else []),
        (!(e.isReset || e.isSubmit)) = true := by
      intro e he
      simp only [List.mem_cons] at he
      rcases he with rfl | rfl | he
      · rfl
      · rfl
      · split at he
        · simp only [List.mem_singleton] at he
          subst he
          rfl
        · simp at he
    have hbefore : beforeSubmission (drawFrame env st).trace
        = Event.waitForFences fence :: Event.acquireNextImage st.swapChain imageAvailable ::
            (if g ≠ VK_NULL_HANDLE then [Event.waitForFences g] else []) := by
      rw [htrace]
      exact takeWhile_stop _ (Event.resetFences fence) _ hhead rfl
    have hf : f = fence := by
      rw [htrace] at h
      rcases h with h | ⟨i, info1, h⟩
      · simp only [List.mem_cons, List.mem_append] at h
        rcases h with h | h | h | h | h | h
        · cases h
        · cases h
        · split at h
          · simp only [List.mem_singleton] at h
            cases h
          · simp at h
        · cases h; rfl
        · cases h
        · have hr := (hrest _ h).2
          cases hr
      · simp only [List.mem_cons, List.mem_append] at h
        rcases h with h | h | h | h | h | h
        · cases h
        · cases h
        · split at h
          · simp only [List.mem_singleton] at h
            cases h
          · simp at h
        · cases h
        · cases h; rfl
        · have hr := (hrest _ h).1
          cases hr
    rw [hbefore, hf]
    exact List.mem_cons_self _ _
  · exfalso
    have hno := (drawFrame_no_submit env st hacq).1
    rcases h with h | ⟨i, info, h⟩
    · have hr := (hno _ h).2
      cases hr
    · have hr := (hno _ h).1
      cases hr

theorem drawFrames_trace (envs : List FrameEnv) :
    ∀ st : App, (drawFrames envs st).trace = (frameTraces envs st).flatten := by
  induction envs with
  | nil => intro st; rfl
  | cons env envs ih =>
    intro st
    by_cases hret : (drawFrame env st).outcome = Outcome.returned
    · have hrun : drawFrames (env :: envs) st
          = Run.after (drawFrame env st).trace (drawFrames envs (drawFrame env st).app) :=
        Run.andThen_returned _ _ hret
      rw [hrun, Run.after_trace, ih]
      simp only [frameTraces, hret, List.flatten_cons]
    · have hrun : drawFrames (env :: envs) st = drawFrame env st :=
        Run.andThen_stopped _ _ hret
      rw [hrun]
      simp [frameTraces]

theorem frameTraces_mem (envs : List FrameEnv) :
    ∀ st : App, RingOk st → ∀ seg ∈ frameTraces envs st,
      ∃ (env : FrameEnv) (st1 : App), RingOk st1 ∧ st1.inFlightFences = st.inFlightFences
        ∧ seg = (drawFrame env st1).trace := by
  induction envs with
  | nil => intro st _ seg hseg; simp [frameTraces] at hseg
  | cons env envs ih =>
    intro st hring seg hseg
    simp only [frameTraces, List.mem_cons] at hseg
    rcases hseg with rfl | hseg
    · exact ⟨env, st, hring, rfl, rfl⟩
    · split at hseg
      · obtain ⟨env1, st1, h1, h2, h3⟩ :=
          ih (drawFrame env st).app (drawFrame_ringOk env st hring) seg hseg
        exact ⟨env1, st1, h1, h2.trans (drawFrame_ring env st).1, h3⟩
      · simp at hseg

/-- C10: with the ring in order, the first call of every `drawFrame` is the
CPU wait on `inFlightFences[currentFrame]`, so it precedes the acquire; and in
every sequence of `drawFrame` calls, each call starts with a wait on a fence
of the ring, and a fence that the call resets or hands to a submission was
waited on in that same call before its first reset or submission. -/
theorem C10_throttle_wait_first (envs : List FrameEnv) (st : App) (hring : RingOk st) :
    (∀ env : FrameEnv,
        (drawFrame env st).trace.head? = some (Event.waitForFences st.slotFence)
          ∧ Event.waitForFences st.slotFence ∈ beforeAcquire (drawFrame env st).trace)
      ∧ (drawFrames envs st).trace = (frameTraces envs st).flatten
      ∧ ∀ seg ∈ frameTraces envs st,
          (∃ fence ∈ st.inFlightFences, seg.head? = some (Event.waitForFences fence))
            ∧ ∀ f : Nat,
                (Event.resetFences f ∈ seg
                  ∨ ∃ (i : Nat) (info : SubmitInfo), Event.queueSubmit i info f ∈ seg) →
                Event.waitForFences f ∈ beforeSubmission seg := by
  refine ⟨?_, drawFrames_trace envs st, ?_⟩
  · intro env
    obtain ⟨rest, hrest⟩ := drawFrame_head env st hring
    rw [hrest]
    exact ⟨rfl, by simp [beforeAcquire, List.takeWhile, Event.isAcquire]⟩
  · intro seg hseg
    obtain ⟨env, st1, hring1, hfences, rfl⟩ := frameTraces_mem envs st hring seg hseg
    constructor
    · obtain ⟨rest, hrest⟩ := drawFrame_head env st1 hring1
      obtain ⟨fence, -, -, hf, -, -, -, hslot⟩ := hring1.slot
      refine ⟨fence, ?_, ?_⟩
      · rw [← hfences]
        exact List.getElem?_mem hf
      · rw [hrest, hslot]
        rfl
    · intro f hf
      exact drawFrame_wait_before_reuse env st1 hring1 f hf

/-- C10, witness: in the five frames on the example application, the fourth
call (slot 1) resets fence 702, and its calls before that reset contain the
wait on 702. -/
theorem C10_throttle_wait_first_witness :
    RingOk exampleApp
      ∧ (drawFrame (exampleFrame 0) exampleApp).trace.head? = some (Event.waitForFences 701)
      ∧ ∃ seg ∈ frameTraces fiveFrames exampleApp,
          Event.resetFences 702 ∈ seg ∧ Event.waitForFences 702 ∈ beforeSubmission seg := by
  have h := C10_throttle_wait_first fiveFrames exampleApp exampleApp_ringOk
  have hseg : (drawFrame (exampleFrame 0)
      (drawFrames (fiveFrames.take 3) exampleApp).app).trace
        ∈ frameTraces fiveFrames exampleApp := by
    decide
  have hreset : Event.resetFences 702 ∈ (drawFrame (exampleFrame 0)
      (drawFrames (fiveFrames.take 3) exampleApp).app).trace := by
    decide
  exact ⟨exampleApp_ringOk, (h.1 (exampleFrame 0)).1, _, hseg, hreset,
    (h.2.2 _ hseg).2 702 (Or.inl hreset)⟩

/-! ## C11 -/

/-- C11: in every `drawFrame` call that reaches its submission with current
slot `s` and acquired image index `i`, the calls are, in this order: the wait
on `inFlightFences[s]`; the acquire with `imageAvailableSemaphores[s]`; the
wait on the fence of the image when the map holds one; the reset of
`inFlightFences[s]`; the submit, which carries the one command buffer
`commandBuffers[i]`, waits on `imageAvailableSemaphores[s]` at the
color-attachment-output stage and signals `renderFinishedSemaphores[s]` and
`inFlightFences[s]`; and, when the submit succeeds, next the present of image
`i` on the swapchain, waiting on `renderFinishedSemaphores[s]`. -/
theorem C11_submit_and_present (env : FrameEnv) (st : App) (hring : RingOk st)
    (hidx : IndexOk env st)
    (hacq : env.acquireResult = VK_SUCCESS ∨ env.acquireResult = VK_SUBOPTIMAL_KHR) :
    ∃ (fence imageAvailable renderFinished imageFence commandBuffer : Nat)
        (rest : List Event),
      st.inFlightFences[st.currentFrame]? = some fence
      ∧ st.imageAvailableSemaphores[st.currentFrame]? = some imageAvailable
      ∧ st.renderFinishedSemaphores[st.currentFrame]? = some renderFinished
      ∧ st.commandBuffers[env.imageIndex]? = some commandBuffer
      ∧ st.imagesInFlight[env.imageIndex]? = some imageFence
      ∧ (drawFrame env st).trace
          = Event.waitForFences fence :: Event.acquireNextImage st.swapChain imageAvailable ::
              ((if imageFence ≠ VK_NULL_HANDLE then [Event.waitForFences imageFence] else [])
                ++ Event.resetFences fence
                  :: Event.queueSubmit env.imageIndex
                      { waitSemaphores := [imageAvailable]
                        waitDstStageMask := [VK_PIPELINE_STAGE_COLOR_ATTACHMENT_OUTPUT_BIT]
                        commandBuffers := [commandBuffer]
                        signalSemaphores := [renderFinished] } fence
                  :: rest)
      ∧ (env.submitResult ≠ VK_SUCCESS → rest = [])
      ∧ (env.submitResult = VK_SUCCESS →
          ∃ later : List Event,
            rest = Event.queuePresent
              { waitSemaphores := [renderFinished]
                swapchains := [st.swapChain]
                imageIndices := [env.imageIndex] } :: later) := by
  obtain ⟨fence, imageAvailable, renderFinished, hf, ha, hr, -, -⟩ := hring.slot
  obtain ⟨imageFence, commandBuffer, hg, hc⟩ := hidx.entries
  obtain ⟨n1, n2⟩ := acquired_not_stale hacq
  by_cases hsub : env.submitResult = VK_SUCCESS
  · by_cases hre : env.presentResult = VK_ERROR_OUT_OF_DATE_KHR
        ∨ env.presentResult = VK_SUBOPTIMAL_KHR ∨ st.framebufferResized = true
    · refine ⟨fence, imageAvailable, renderFinished, imageFence, commandBuffer,
        Event.queuePresent
          { waitSemaphores := [renderFinished], swapchains := [st.swapChain],
            imageIndices := [env.imageIndex] } ::
        (recreateSwapChain env.rebuild
          { st with imagesInFlight := st.imagesInFlight.set env.imageIndex fence,
                    framebufferResized := false }).trace,
        hf, ha, hr, hc, hg, ?_, fun h => absurd hsub h, fun _ => ⟨_, rfl⟩⟩
      simp only [drawFrame, hf, ha, hr, hg, hc, n1, n2, hsub, hre, ne_eq, not_true_eq_false,
        if_false, if_true]
      rw [Run.andThen_ok_trace, Run.after_trace]
      simp only [List.cons_append, List.nil_append, List.append_assoc, List.singleton_append]
    · refine ⟨fence, imageAvailable, renderFinished, imageFence, commandBuffer,
        [Event.queuePresent
          { waitSemaphores := [renderFinished], swapchains := [st.swapChain],
            imageIndices := [env.imageIndex] }],
        hf, ha, hr, hc, hg, ?_, fun h => absurd hsub h, fun _ => ⟨_, rfl⟩⟩
      simp only [drawFrame, hf, ha, hr, hg, hc, n1, n2, hsub, hre, ne_eq, not_true_eq_false,
        if_false]
      split <;> simp only [List.cons_append, List.nil_append, List.append_assoc,
        List.singleton_append]
  · refine ⟨fence, imageAvailable, renderFinished, imageFence, commandBuffer, [],
      hf, ha, hr, hc, hg, ?_, fun _ => rfl, fun h => absurd h hsub⟩
    simp only [drawFrame, hf, ha, hr, hg, hc, n1, n2, hsub, ne_eq, not_false_eq_true,
      if_false, if_true]
    simp only [List.cons_append, List.nil_append, List.append_assoc, List.singleton_append]

/-- C11, witness: slot 0 of the example application acquires image 1; the
submit carries command buffer 502, waits on semaphore 601, signals semaphore
611 and fence 701, and the present of image 1 waits on 611. -/
theorem C11_submit_and_present_witness :
    RingOk exampleApp ∧ IndexOk (exampleFrame 1) exampleApp
      ∧ ∃ later : List Event,
          (drawFrame (exampleFrame 1) exampleApp).trace
            = [Event.waitForFences 701, Event.acquireNextImage 100 601,
               Event.resetFences 701,
               Event.queueSubmit 1
                 { waitSemaphores := [601], waitDstStageMask := [1024],
                   commandBuffers := [502], signalSemaphores := [611] } 701,
               Event.queuePresent
                 { waitSemaphores := [611], swapchains := [100], imageIndices := [1] }]
              ++ later := by
  have hidx : IndexOk (exampleFrame 1) exampleApp := ⟨by decide, by decide⟩
  obtain ⟨fence, imageAvailable, renderFinished, imageFence, commandBuffer, rest, hf, ha, hr,
    hc, hg, htrace, -, hpresent⟩ :=
    C11_submit_and_present (exampleFrame 1) exampleApp exampleApp_ringOk hidx (Or.inl rfl)
  obtain ⟨later, hlater⟩ := hpresent rfl
  simp only [exampleApp, exampleFrame, List.getElem?_cons_zero, List.getElem?_cons_succ,
    Option.some.injEq] at hf ha hr hc hg
  subst hf ha hr hc hg hlater
  refine ⟨exampleApp_ringOk, hidx, later, ?_⟩
  rw [htrace]
  rfl

/-! ## The parts of a rebuild -/

theorem Run.after_andThen (t : List Event) (r : Run) (g : App → Run) :
    (Run.after t r).andThen g = Run.after t (r.andThen g) := by
  by_cases h : r.outcome = Outcome.returned
  · rw [Run.andThen_returned r g h, Run.andThen_returned (Run.after t r) g h]
    simp [Run.after]
  · rw [Run.andThen_stopped r g h, Run.andThen_stopped (Run.after t r) g h]

theorem Run.andThen_assoc (r : Run) (f g : App → Run) :
    (r.andThen f).andThen g = r.andThen (fun s => (f s).andThen g) := by
  by_cases h : r.outcome = Outcome.returned
  · rw [Run.andThen_returned r f h, Run.andThen_returned r _ h, Run.after_andThen]
  · rw [Run.andThen_stopped r f h, Run.andThen_stopped r g h, Run.andThen_stopped r _ h]

/-- A rebuild is: the entry and the first read of the framebuffer size, the
loop that waits for a nonzero size, the drain, the teardown, the five build
steps. -/
theorem recreateSwapChain_eq (env : RebuildEnv) (st : App) :
    recreateSwapChain env st
      = Run.after [Event.recreateSwapChain, Event.getFramebufferSize]
          ((recreateSwapChain.wait st.window.getFramebufferSize.2.sizes
              st.window.getFramebufferSize.1.1 st.window.getFramebufferSize.1.2
              { st with window := st.window.getFramebufferSize.2 }).andThen
            (fun st1 => Run.after (Event.deviceWaitIdle :: (cleanupOldSwapChain st1).trace)
              (buildSteps env st1))) := by
  have hstep : ∀ (st1 : App) (g : App → Run),
      (Run.after [Event.deviceWaitIdle] (cleanupOldSwapChain st1)).andThen g
        = Run.after (Event.deviceWaitIdle :: (cleanupOldSwapChain st1).trace) (g st1) := by
    intro st1 g
    rw [Run.andThen_returned _ _ rfl]
    rfl
  unfold recreateSwapChain buildSteps
  simp only [Run.andThen_assoc, hstep, Run.after_andThen]

/-! ## C14 -/

theorem glfwWaitEvents_app (st : App) :
    glfwWaitEvents st
      = { st with
          window := { st.window with resizeEvents := (glfwWaitEvents st).window.resizeEvents }
          framebufferResized := (glfwWaitEvents st).framebufferResized } := by
  unfold glfwWaitEvents
  split
  · rfl
  · split <;> rfl

theorem polls_succ (k : Nat) :
    polls (k + 1) = Event.getFramebufferSize :: Event.waitEvents :: polls k := by
  simp [polls, List.replicate_succ]

theorem leadingZeros_cons (size : Int × Int) (sizes : List (Int × Int)) :
    leadingZeros (size :: sizes) = if zeroExtent size = true then leadingZeros sizes + 1 else 0 := by
  unfold leadingZeros
  rw [List.takeWhile_cons]
  split <;> simp

theorem leadingZeros_le (sizes : List (Int × Int)) : leadingZeros sizes ≤ sizes.length := by
  unfold leadingZeros
  exact (List.takeWhile_sublist _).length_le

/-- The loop of `recreateSwapChain`, entered after a read of `size` with
`sizes` still to report: it makes one round for every zero extent at the head
of `size :: sizes` and returns, unless the window stays at a zero extent. -/
theorem wait_run (sizes : List (Int × Int)) :
    ∀ (size : Int × Int) (st : App),
      ((leadingZeros (size :: sizes) ≤ sizes.length ∨ zeroExtent st.window.lastSize = false) →
        (recreateSwapChain.wait sizes size.1 size.2 st).outcome = Outcome.returned
        ∧ (recreateSwapChain.wait sizes size.1 size.2 st).trace
            = polls (leadingZeros (size :: sizes)))
      ∧ ((leadingZeros (size :: sizes) = sizes.length + 1
            ∧ zeroExtent st.window.lastSize = true) →
        (recreateSwapChain.wait sizes size.1 size.2 st).outcome = Outcome.blocked
        ∧ (recreateSwapChain.wait sizes size.1 size.2 st).trace = polls sizes.length) := by
  induction sizes with
  | nil =>
    intro size st
    unfold recreateSwapChain.wait
    by_cases hz : size.1 = 0 ∨ size.2 = 0
    · have hz1 : zeroExtent size = true := by simp [zeroExtent, hz]
      by_cases hl : st.window.lastSize.1 = 0 ∨ st.window.lastSize.2 = 0
      · have hl1 : zeroExtent st.window.lastSize = true := by simp [zeroExtent, hl]
        simp [hz, hl, hl1, hz1, leadingZeros_cons, leadingZeros, polls]
      · have hl1 : zeroExtent st.window.lastSize = false := by simp [zeroExtent, hl]
        simp [hz, hl, hl1, hz1, leadingZeros_cons, leadingZeros, polls]
    · have hz1 : zeroExtent size = false := by simp [zeroExtent, hz]
      simp [hz, hz1, leadingZeros_cons, polls]
  | cons next rest ih =>
    intro size st
    unfold recreateSwapChain.wait
    by_cases hz : size.1 = 0 ∨ size.2 = 0
    · have hz1 : zeroExtent size = true := by simp [zeroExtent, hz]
      have hlast : (glfwWaitEvents
          { st with window := { st.window with sizes := rest } }).window.lastSize
            = st.window.lastSize := by
        rw [glfwWaitEvents_app]
      have h := ih next (glfwWaitEvents { st with window := { st.window with sizes := rest } })
      rw [hlast] at h
      rw [if_pos hz, leadingZeros_cons size, if_pos hz1]
      simp only [Run.after_outcome, Run.after_trace, List.length_cons]
      constructor
      · intro hk
        have hk1 : leadingZeros (next :: rest) ≤ rest.length
            ∨ zeroExtent st.window.lastSize = false := by
          rcases hk with hk | hk
          · exact Or.inl (by omega)
          · exact Or.inr hk
        obtain ⟨h1, h2⟩ := h.1 hk1
        rw [h1, h2, polls_succ]
        exact ⟨rfl, rfl⟩
      · intro hk
        obtain ⟨h1, h2⟩ := h.2 ⟨by omega, hk.2⟩
        rw [h1, h2, polls_succ]
        exact ⟨rfl, rfl⟩
    · have hz1 : zeroExtent size = false := by simp [zeroExtent, hz]
      have hle := leadingZeros_le (next :: rest)
      simp [hz, hz1, leadingZeros_cons size, polls]

theorem report_zero (sizes : List (Int × Int)) (last : Int × Int) :
    ∀ j, j < leadingZeros sizes → zeroExtent (sizes.getD j last) = true := by
  induction sizes with
  | nil => intro j hj; simp [leadingZeros] at hj
  | cons size rest ih =>
    intro j hj
    rw [leadingZeros_cons] at hj
    by_cases hz : zeroExtent size = true
    · rw [if_pos hz] at hj
      cases j with
      | zero => simpa using hz
      | succ j => simpa using ih j (by omega)
    · rw [if_neg hz] at hj
      omega

theorem report_nonzero (sizes : List (Int × Int)) (last : Int × Int)
    (h : leadingZeros sizes < sizes.length ∨ zeroExtent last = false) :
    zeroExtent (sizes.getD (leadingZeros sizes) last) = false := by
  induction sizes with
  | nil =>
    rcases h with h | h
    · simp at h
    · simpa [leadingZeros] using h
  | cons size rest ih =>
    rw [leadingZeros_cons] at h ⊢
    by_cases hz : zeroExtent size = true
    · rw [if_pos hz] at h ⊢
      have h1 : leadingZeros rest < rest.length ∨ zeroExtent last = false := by
        rcases h with h | h
        · exact Or.inl (by simpa using h)
        · exact Or.inr h
      simpa using ih h1
    · rw [if_neg hz]
      simpa using hz

theorem report_all_zero (sizes : List (Int × Int)) (last : Int × Int)
    (h : leadingZeros sizes = sizes.length) (hlast : zeroExtent last = true) :
    ∀ j, zeroExtent (sizes.getD j last) = true := by
  intro j
  by_cases hj : j < sizes.length
  · exact report_zero sizes last j (by omega)
  · simpa [List.getD, List.getElem?_eq_none (by omega : sizes.length ≤ j)] using hlast

/-- The loop of a rebuild, as `recreateSwapChain` enters it. -/
theorem recreateSwapChain_wait (st : App) :
    ((leadingZeros st.window.sizes < st.window.sizes.length
        ∨ zeroExtent st.window.lastSize = false) →
      (recreateSwapChain.wait st.window.getFramebufferSize.2.sizes
          st.window.getFramebufferSize.1.1 st.window.getFramebufferSize.1.2
          { st with window := st.window.getFramebufferSize.2 }).outcome = Outcome.returned
      ∧ (recreateSwapChain.wait st.window.getFramebufferSize.2.sizes
          st.window.getFramebufferSize.1.1 st.window.getFramebufferSize.1.2
          { st with window := st.window.getFramebufferSize.2 }).trace
            = polls (leadingZeros st.window.sizes))
    ∧ ((leadingZeros st.window.sizes = st.window.sizes.length
        ∧ zeroExtent st.window.lastSize = true) →
      (recreateSwapChain.wait st.window.getFramebufferSize.2.sizes
          st.window.getFramebufferSize.1.1 st.window.getFramebufferSize.1.2
          { st with window := st.window.getFramebufferSize.2 }).outcome = Outcome.blocked
      ∧ (recreateSwapChain.wait st.window.getFramebufferSize.2.sizes
          st.window.getFramebufferSize.1.1 st.window.getFramebufferSize.1.2
          { st with window := st.window.getFramebufferSize.2 }).trace
            = polls (st.window.sizes.length - 1)) := by
  cases hs : st.window.sizes with
  | nil =>
    have hread : st.window.getFramebufferSize = (st.window.lastSize, st.window) := by
      simp [Window.getFramebufferSize, hs]
    rw [hread]
    simp only [hs]
    have h := wait_run [] st.window.lastSize { st with window := st.window }
    constructor
    · intro hk
      have hl : zeroExtent st.window.lastSize = false := by
        rcases hk with hk | hk
        · simp at hk
        · exact hk
      have h1 := h.1 (Or.inr hl)
      rw [leadingZeros_cons, hl] at h1
      simpa [leadingZeros] using h1
    · intro hk
      have h1 := h.2 ⟨by simp [leadingZeros_cons, hk.2, leadingZeros], hk.2⟩
      simpa using h1
  | cons size rest =>
    have hread : st.window.getFramebufferSize
        = (size, { st.window with sizes := rest }) := by
      simp [Window.getFramebufferSize, hs]
    rw [hread]
    have h := wait_run rest size { st with window := { st.window with sizes := rest } }
    constructor
    · intro hk
      refine h.1 ?_
      rcases hk with hk | hk
      · exact Or.inl (by simp only [List.length_cons] at hk; omega)
      · exact Or.inr hk
    · intro hk
      have h1 := h.2 ⟨by simpa using hk.1, hk.2⟩
      simpa using h1

/-- C14: a rebuild waits for a nonzero framebuffer size. With `k` the number
of zero extents that the window reports first: the reads 0 to `k - 1` report a
zero width or height; when the window comes to a nonzero extent, read `k`
reports it, and the calls of the rebuild are its entry, read 0, `k` rounds of
a read and an event wait, and only then the drain, followed by the teardown
and the build; when the window never comes to a nonzero extent, the rebuild
never gets past the loop and makes no call but reads and event waits. -/
theorem C14_zero_extent_guard (env : RebuildEnv) (st : App) :
    (∀ j, j < leadingZeros st.window.sizes → zeroExtent (st.window.report j) = true)
    ∧ ((leadingZeros st.window.sizes < st.window.sizes.length
          ∨ zeroExtent st.window.lastSize = false) →
        zeroExtent (st.window.report (leadingZeros st.window.sizes)) = false
        ∧ ∃ rest, (recreateSwapChain env st).trace
            = Event.recreateSwapChain :: Event.getFramebufferSize
                :: (polls (leadingZeros st.window.sizes) ++ Event.deviceWaitIdle :: rest))
    ∧ ((leadingZeros st.window.sizes = st.window.sizes.length
          ∧ zeroExtent st.window.lastSize = true) →
        (∀ j, zeroExtent (st.window.report j) = true)
        ∧ (recreateSwapChain env st).outcome = Outcome.blocked
        ∧ (recreateSwapChain env st).trace
            = Event.recreateSwapChain :: Event.getFramebufferSize
                :: polls (st.window.sizes.length - 1)) := by
  refine ⟨report_zero _ _, ?_, ?_⟩
  · intro hk
    refine ⟨report_nonzero _ _ hk, ?_⟩
    obtain ⟨h1, h2⟩ := (recreateSwapChain_wait st).1 hk
    rw [recreateSwapChain_eq, Run.andThen_returned _ _ h1, h2]
    simp only [Run.after_trace, List.cons_append, List.nil_append, List.append_assoc]
    exact ⟨_, rfl⟩
  · intro hk
    refine ⟨report_all_zero _ _ hk.1 hk.2, ?_⟩
    obtain ⟨h1, h2⟩ := (recreateSwapChain_wait st).2 hk
    have hstop : (recreateSwapChain.wait st.window.getFramebufferSize.2.sizes
        st.window.getFramebufferSize.1.1 st.window.getFramebufferSize.1.2
        { st with window := st.window.getFramebufferSize.2 }).outcome ≠ Outcome.returned := by
      rw [h1]; exact fun h => by cases h
    rw [recreateSwapChain_eq, Run.andThen_stopped _ _ hstop]
    exact ⟨h1, by rw [Run.after_trace, h2]; rfl⟩

/-- C14 on the window that reports (0,0), (0,0), (800,600): two rounds of
read and event wait come before the drain. -/
theorem C14_zero_extent_guard_witness :
    ∃ rest, (recreateSwapChain exampleRebuild minimizedApp).trace
      = [Event.recreateSwapChain, Event.getFramebufferSize,
          Event.getFramebufferSize, Event.waitEvents,
          Event.getFramebufferSize, Event.waitEvents, Event.deviceWaitIdle] ++ rest := by
  obtain ⟨rest, h⟩ :=
    ((C14_zero_extent_guard exampleRebuild minimizedApp).2.1 (Or.inl (by decide))).2
  exact ⟨rest, by rw [h]; rfl⟩

/-! ## What a rebuild keeps -/

theorem Kept.same (st : App) : Kept st st :=
  ⟨rfl, rfl, rfl, fun h => ⟨rfl, h⟩⟩

theorem Kept.chain {a b c : App} (h : Kept a b) (k : Kept b c) : Kept a c :=
  ⟨k.1.trans h.1, k.2.1.trans h.2.1, k.2.2.1.trans h.2.2.1,
    fun ha => ⟨(k.2.2.2 (h.2.2.2 ha).2).1.trans (h.2.2.2 ha).1, (k.2.2.2 (h.2.2.2 ha).2).2⟩⟩

theorem Kept.of_eq {a b : App} (h1 : b.graphicsPipeline = a.graphicsPipeline)
    (h2 : b.pipelineLayout = a.pipelineLayout) (h3 : b.commandPool = a.commandPool)
    (h4 : b.framebufferResized = a.framebufferResized)
    (h5 : b.window.resizeEvents = a.window.resizeEvents) : Kept a b :=
  ⟨h1, h2, h3, fun ha => ⟨h4, by unfold NoResizeEvent; rw [h5]; exact ha⟩⟩

theorem Kept.sequence {st : App} {r : Run} {f : App → Run} (h : Kept st r.app)
    (hf : ∀ s, Kept s (f s).app) : Kept st (r.andThen f).app := by
  by_cases hr : r.outcome = Outcome.returned
  · rw [Run.andThen_returned r f hr]
    exact h.chain (hf r.app)
  · rw [Run.andThen_stopped r f hr]
    exact h

theorem glfwWaitEvents_kept (st : App) : Kept st (glfwWaitEvents st) := by
  refine ⟨?_, ?_, ?_, ?_⟩
  · rw [glfwWaitEvents_app]
  · rw [glfwWaitEvents_app]
  · rw [glfwWaitEvents_app]
  · intro h
    unfold NoResizeEvent at h
    unfold glfwWaitEvents
    split
    · exact ⟨rfl, h⟩
    · next fired rest hev =>
      rw [hev] at h
      have hfired : fired = false := h fired (List.mem_cons_self _ _)
      subst hfired
      exact ⟨rfl, fun b hb => h b (List.mem_cons_of_mem _ hb)⟩

theorem wait_kept (sizes : List (Int × Int)) :
    ∀ (width height : Int) (st : App),
      Kept st (recreateSwapChain.wait sizes width height st).app := by
  induction sizes with
  | nil =>
    intro width height st
    unfold recreateSwapChain.wait
    split
    · split
      · exact Kept.same st
      · exact glfwWaitEvents_kept st
    · exact Kept.same st
  | cons size rest ih =>
    intro width height st
    unfold recreateSwapChain.wait
    split
    · rw [Run.after_app]
      exact ((Kept.of_eq rfl rfl rfl rfl rfl :
          Kept st { st with window := { st.window with sizes := rest } }).chain
        (glfwWaitEvents_kept _)).chain (ih size.1 size.2 _)
    · exact Kept.same st

theorem getFramebufferSize_resizeEvents (window : Window) :
    window.getFramebufferSize.2.resizeEvents = window.resizeEvents := by
  unfold Window.getFramebufferSize
  split <;> rfl

theorem chooseSwapExtent_resizeEvents (capabilities : VkSurfaceCapabilitiesKHR)
    (window : Window) :
    (chooseSwapExtent capabilities window).2.1.resizeEvents = window.resizeEvents := by
  unfold chooseSwapExtent
  split
  · rfl
  · exact getFramebufferSize_resizeEvents window

theorem createSwapChain_kept (env : RebuildEnv) (st : App) :
    Kept st (createSwapChain env st).app := by
  have h := chooseSwapExtent_resizeEvents env.support.capabilities st.window
  unfold createSwapChain
  dsimp only
  split
  · exact Kept.same st
  · split
    · split
      · exact Kept.of_eq rfl rfl rfl rfl h
      · exact Kept.of_eq rfl rfl rfl rfl h
    · exact Kept.of_eq rfl rfl rfl rfl h

theorem createImageViews_loop_kept (env : RebuildEnv) (images : List Nat) :
    ∀ (i : Nat) (st : App), Kept st (createImageViews.loop env images i st).app := by
  induction images with
  | nil => intro i st; exact Kept.same st
  | cons image rest ih =>
    intro i st
    unfold createImageViews.loop
    split
    · exact Kept.same st
    · exact (Kept.of_eq rfl rfl rfl rfl rfl : Kept st _).chain (ih _ _)

theorem createImageViews_kept (env : RebuildEnv) (st : App) :
    Kept st (createImageViews env st).app :=
  (Kept.of_eq rfl rfl rfl rfl rfl : Kept st _).chain
    (createImageViews_loop_kept env st.swapChainImages 0 _)

theorem createRenderPass_kept (env : RebuildEnv) (st : App) :
    Kept st (createRenderPass env st).app := by
  unfold createRenderPass
  split
  · exact Kept.same st
  · exact Kept.of_eq rfl rfl rfl rfl rfl

theorem createFramebuffers_loop_kept (env : RebuildEnv) (views : List Nat) :
    ∀ (i : Nat) (st : App), Kept st (createFramebuffers.loop env views i st).app := by
  induction views with
  | nil => intro i st; exact Kept.same st
  | cons view rest ih =>
    intro i st
    unfold createFramebuffers.loop
    split
    · exact Kept.same st
    · exact (Kept.of_eq rfl rfl rfl rfl rfl : Kept st _).chain (ih _ _)

theorem createFramebuffers_kept (env : RebuildEnv) (st : App) :
    Kept st (createFramebuffers env st).app :=
  (Kept.of_eq rfl rfl rfl rfl rfl : Kept st _).chain
    (createFramebuffers_loop_kept env st.swapChainImageViews 0 _)

theorem createCommandBuffers_loop_app (env : RebuildEnv) (st : App)
    (buffers : List (Nat × Nat)) :
    ∀ (i : Nat), (createCommandBuffers.loop env st buffers i).app = st := by
  induction buffers with
  | nil => intro i; rfl
  | cons buffer rest ih =>
    intro i
    obtain ⟨commandBuffer, framebuffer⟩ := buffer
    unfold createCommandBuffers.loop
    split
    · rfl
    · split
      · rfl
      · exact ih _

theorem createCommandBuffers_kept (env : RebuildEnv) (st : App) :
    Kept st (createCommandBuffers env st).app := by
  unfold createCommandBuffers
  split
  · exact Kept.of_eq rfl rfl rfl rfl rfl
  · rw [Run.after_app, createCommandBuffers_loop_app]
    exact Kept.of_eq rfl rfl rfl rfl rfl

theorem buildSteps_kept (env : RebuildEnv) (st : App) : Kept st (buildSteps env st).app := by
  unfold buildSteps
  refine Kept.sequence ?_ (createCommandBuffers_kept env)
  refine Kept.sequence ?_ (createFramebuffers_kept env)
  refine Kept.sequence ?_ (createRenderPass_kept env)
  exact Kept.sequence (createSwapChain_kept env st) (createImageViews_kept env)

theorem recreateSwapChain_kept (env : RebuildEnv) (st : App) :
    Kept st (recreateSwapChain env st).app := by
  rw [recreateSwapChain_eq, Run.after_app]
  refine Kept.sequence ?_ (fun s => buildSteps_kept env s)
  exact (Kept.of_eq rfl rfl rfl rfl (getFramebufferSize_resizeEvents st.window) :
    Kept st { st with window := st.window.getFramebufferSize.2 }).chain (wait_kept _ _ _ _)

theorem touchesPersistent_of_rebuildStep {e : Event} (h : e.isRebuildStep = true) :
    e.touchesPersistent = false := by
  cases e <;> simp_all [Event.isRebuildStep, Event.touchesPersistent]

/-! ## C16 -/

/-- C16: a rebuild, however it ends, leaves the semaphores and fences of the
frame slots, the current slot, the pipeline, the pipeline layout and the
command pool with the values they had, and none of its calls creates or
destroys a semaphore, a fence, a pipeline, a pipeline layout or a command
pool; the same holds of `cleanupOldSwapChain`, which changes no member. -/
theorem C16_rebuild_keeps_persistent (env : RebuildEnv) (st : App) :
    (recreateSwapChain env st).app.imageAvailableSemaphores = st.imageAvailableSemaphores
      ∧ (recreateSwapChain env st).app.renderFinishedSemaphores = st.renderFinishedSemaphores
      ∧ (recreateSwapChain env st).app.inFlightFences = st.inFlightFences
      ∧ (recreateSwapChain env st).app.currentFrame = st.currentFrame
      ∧ (recreateSwapChain env st).app.graphicsPipeline = st.graphicsPipeline
      ∧ (recreateSwapChain env st).app.pipelineLayout = st.pipelineLayout
      ∧ (recreateSwapChain env st).app.commandPool = st.commandPool
      ∧ (∀ e ∈ (recreateSwapChain env st).trace, e.touchesPersistent = false)
      ∧ (cleanupOldSwapChain st).app = st
      ∧ (∀ e ∈ (cleanupOldSwapChain st).trace, e.touchesPersistent = false) := by
  have hring := recreateSwapChain_ring env st
  have hkept := recreateSwapChain_kept env st
  refine ⟨hring.2.2.2.1.symm, hring.2.2.2.2.symm, hring.2.2.1.symm, hring.1.symm,
    hkept.1, hkept.2.1, hkept.2.2.1, ?_, rfl, ?_⟩
  · obtain ⟨r, hr, hq⟩ := recreateSwapChain_shape env st
    intro e he
    rw [hr, Run.after_trace, List.mem_append, List.mem_singleton] at he
    rcases he with rfl | he
    · rfl
    · exact touchesPersistent_of_rebuildStep (hq.2.1 e he)
  · intro e he
    exact touchesPersistent_of_rebuildStep ((cleanupOldSwapChain_quiet st).2.1 e he)

/-- C16 on the example application: the rebuild keeps the two fences of the
ring and the command pool. -/
theorem C16_rebuild_keeps_persistent_witness :
    (recreateSwapChain exampleRebuild exampleApp).app.inFlightFences = [701, 702]
      ∧ (recreateSwapChain exampleRebuild exampleApp).app.commandPool = 500 :=
  ⟨(C16_rebuild_keeps_persistent exampleRebuild exampleApp).2.2.1,
    (C16_rebuild_keeps_persistent exampleRebuild exampleApp).2.2.2.2.2.2.1⟩

/-! ## C17 -/

theorem Run.andThen_outcome_returned {r : Run} {f : App → Run}
    (h : (r.andThen f).outcome = Outcome.returned) : r.outcome = Outcome.returned := by
  by_contra hr
  rw [Run.andThen_stopped r f hr] at h
  exact hr h

theorem resize_length (v : List Nat) (n : Nat) : (resize v n).length = n := by
  simp only [resize, List.length_append, List.length_take, List.length_replicate]
  omega

theorem chooseSwapExtent_calls (capabilities : VkSurfaceCapabilitiesKHR) (window : Window) :
    (chooseSwapExtent capabilities window).2.2
      = if capabilities.currentExtent.width ≠ UINT32_MAX then []
        else [Event.getFramebufferSize] := by
  unfold chooseSwapExtent
  split <;> rfl

theorem createSwapChain_returned (env : RebuildEnv) (st : App)
    (h : (createSwapChain env st).outcome = Outcome.returned) :
    ∃ (window : Window) (format : Nat) (extent : VkExtent2D) (createInfo : SwapchainCreateInfo),
      (createSwapChain env st).app
          = { st with
              window := window
              swapChainImageFormat := format
              swapChainExtent := extent
              swapChain := env.newSwapchain
              swapChainImages := env.newImages }
        ∧ (createSwapChain env st).trace
          = swapchainQueries env ++ [Event.createSwapchain createInfo,
              Event.getSwapchainImages env.newSwapchain,
              Event.getSwapchainImages env.newSwapchain]
        ∧ createInfo.oldSwapchain = VK_NULL_HANDLE
        ∧ createInfo.imageFormat = format ∧ createInfo.imageExtent = extent := by
  have hcalls := chooseSwapExtent_calls env.support.capabilities st.window
  generalize hr : createSwapChain env st = r at h ⊢
  unfold createSwapChain at hr
  dsimp only at hr
  split at hr
  · subst hr
    cases h
  · split at hr
    · split at hr
      · subst hr
        cases h
      · subst hr
        refine ⟨?w, ?f, ?x, ?c, ?happ, ?htr, ?rest⟩
        case happ => exact rfl
        case htr => rw [swapchainQueries, ← hcalls]; exact rfl
        case rest => exact ⟨rfl, rfl, rfl⟩
    · subst hr
      cases h

theorem createImageViews_loop_returned (env : RebuildEnv) (images : List Nat) :
    ∀ (i : Nat) (st : App),
      (createImageViews.loop env images i st).outcome = Outcome.returned →
      ∃ views : List Nat,
        (createImageViews.loop env images i st).app = { st with swapChainImageViews := views }
          ∧ views.length = st.swapChainImageViews.length
          ∧ (createImageViews.loop env images i st).trace
            = images.map (fun image => Event.createImageView image st.swapChainImageFormat) := by
  induction images with
  | nil => intro i st _; exact ⟨st.swapChainImageViews, rfl, rfl, rfl⟩
  | cons image rest ih =>
    intro i st h
    by_cases hc : (env.createImageView i).1 ≠ VK_SUCCESS
    · simp only [createImageViews.loop, if_pos hc] at h
      cases h
    · simp only [createImageViews.loop, if_neg hc, Run.after_outcome, Run.after_app,
        Run.after_trace] at h ⊢
      obtain ⟨views, happ, hlen, htr⟩ := ih _ _ h
      refine ⟨views, happ, ?_, ?_⟩
      · simpa using hlen
      · rw [htr]
        rfl

theorem createImageViews_returned (env : RebuildEnv) (st : App)
    (h : (createImageViews env st).outcome = Outcome.returned) :
    ∃ views : List Nat,
      (createImageViews env st).app = { st with swapChainImageViews := views }
        ∧ views.length = st.swapChainImages.length
        ∧ (createImageViews env st).trace
          = st.swapChainImages.map
              (fun image => Event.createImageView image st.swapChainImageFormat) := by
  obtain ⟨views, happ, hlen, htr⟩ := createImageViews_loop_returned env _ _ _ h
  exact ⟨views, happ, hlen.trans (resize_length _ _), htr⟩

theorem createRenderPass_returned (env : RebuildEnv) (st : App)
    (h : (createRenderPass env st).outcome = Outcome.returned) :
    (createRenderPass env st).app = { st with renderPass := env.createRenderPass.2 }
      ∧ (createRenderPass env st).trace = [Event.createRenderPass st.swapChainImageFormat] := by
  by_cases hc : env.createRenderPass.1 ≠ VK_SUCCESS
  · simp only [createRenderPass, if_pos hc] at h
    cases h
  · rw [createRenderPass, if_neg hc]
    exact ⟨rfl, rfl⟩

theorem createFramebuffers_loop_returned (env : RebuildEnv) (views : List Nat) :
    ∀ (i : Nat) (st : App),
      (createFramebuffers.loop env views i st).outcome = Outcome.returned →
      ∃ framebuffers : List Nat,
        (createFramebuffers.loop env views i st).app
            = { st with swapChainFramebuffers := framebuffers }
          ∧ framebuffers.length = st.swapChainFramebuffers.length
          ∧ (createFramebuffers.loop env views i st).trace
            = views.map
                (fun view => Event.createFramebuffer st.renderPass view st.swapChainExtent) := by
  induction views with
  | nil => intro i st _; exact ⟨st.swapChainFramebuffers, rfl, rfl, rfl⟩
  | cons view rest ih =>
    intro i st h
    by_cases hc : (env.createFramebuffer i).1 ≠ VK_SUCCESS
    · simp only [createFramebuffers.loop, if_pos hc] at h
      cases h
    · simp only [createFramebuffers.loop, if_neg hc, Run.after_outcome, Run.after_app,
        Run.after_trace] at h ⊢
      obtain ⟨framebuffers, happ, hlen, htr⟩ := ih _ _ h
      refine ⟨framebuffers, happ, ?_, ?_⟩
      · simpa using hlen
      · rw [htr]
        rfl

theorem createFramebuffers_returned (env : RebuildEnv) (st : App)
    (h : (createFramebuffers env st).outcome = Outcome.returned) :
    ∃ framebuffers : List Nat,
      (createFramebuffers env st).app = { st with swapChainFramebuffers := framebuffers }
        ∧ framebuffers.length = st.swapChainImageViews.length
        ∧ (createFramebuffers env st).trace
          = st.swapChainImageViews.map
              (fun view => Event.createFramebuffer st.renderPass view st.swapChainExtent) := by
  obtain ⟨framebuffers, happ, hlen, htr⟩ := createFramebuffers_loop_returned env _ _ _ h
  exact ⟨framebuffers, happ, hlen.trans (resize_length _ _), htr⟩

theorem createCommandBuffers_loop_returned (env : RebuildEnv) (st : App)
    (buffers : List (Nat × Nat)) :
    ∀ (i : Nat), (createCommandBuffers.loop env st buffers i).outcome = Outcome.returned →
      (createCommandBuffers.loop env st buffers i).trace = recordingCalls st buffers := by
  induction buffers with
  | nil => intro i _; rfl
  | cons buffer rest ih =>
    intro i h
    obtain ⟨commandBuffer, framebuffer⟩ := buffer
    by_cases hb : env.beginResult i ≠ VK_SUCCESS
    · simp only [createCommandBuffers.loop, if_pos hb] at h
      cases h
    · by_cases he : env.endResult i ≠ VK_SUCCESS
      · simp only [createCommandBuffers.loop, if_neg hb, if_pos he] at h
        cases h
      · simp only [createCommandBuffers.loop, if_neg hb, if_neg he, Run.after_outcome,
          Run.after_trace] at h ⊢
        rw [ih _ h]
        simp [recordingCalls]

theorem createCommandBuffers_returned (env : RebuildEnv) (st : App)
    (h : (createCommandBuffers env st).outcome = Outcome.returned) :
    ∃ commandBuffers : List Nat,
      (createCommandBuffers env st).app = { st with commandBuffers := commandBuffers }
        ∧ commandBuffers.length = st.swapChainFramebuffers.length
        ∧ (createCommandBuffers env st).trace
          = Event.allocateCommandBuffers st.commandPool st.swapChainFramebuffers.length
            :: recordingCalls { st with commandBuffers := commandBuffers }
                (commandBuffers.zip st.swapChainFramebuffers) := by
  by_cases hc : env.allocateResult ≠ VK_SUCCESS
  · simp only [createCommandBuffers, if_pos hc] at h
    cases h
  · simp only [createCommandBuffers, if_neg hc, Run.after_outcome, Run.after_app,
      Run.after_trace] at h ⊢
    refine ⟨_, createCommandBuffers_loop_app env _ _ _, by simp, ?_⟩
    rw [createCommandBuffers_loop_returned env _ _ _ h]
    rfl

/-- The five build steps, when they all return: the calls in order, in
terms of the object they leave, and the sizes of what they built. -/
theorem buildSteps_returned (env : RebuildEnv) (st : App)
    (h : (buildSteps env st).outcome = Outcome.returned) :
    ∃ (built : App) (createInfo : SwapchainCreateInfo),
      (buildSteps env st).app = built
        ∧ (buildSteps env st).trace
          = swapchainQueries env
            ++ [Event.createSwapchain createInfo, Event.getSwapchainImages built.swapChain,
                Event.getSwapchainImages built.swapChain]
            ++ built.swapChainImages.map
                (fun image => Event.createImageView image built.swapChainImageFormat)
            ++ [Event.createRenderPass built.swapChainImageFormat]
            ++ built.swapChainImageViews.map
                (fun view => Event.createFramebuffer built.renderPass view built.swapChainExtent)
            ++ [Event.allocateCommandBuffers built.commandPool built.swapChainFramebuffers.length]
            ++ recordingCalls built (built.commandBuffers.zip built.swapChainFramebuffers)
        ∧ createInfo.oldSwapchain = VK_NULL_HANDLE
        ∧ createInfo.imageFormat = built.swapChainImageFormat
        ∧ createInfo.imageExtent = built.swapChainExtent
        ∧ built.swapChain = env.newSwapchain
        ∧ built.swapChainImages = env.newImages
        ∧ built.swapChainImageViews.length = env.newImages.length
        ∧ built.swapChainFramebuffers.length = env.newImages.length
        ∧ built.commandBuffers.length = env.newImages.length := by
  unfold buildSteps at h ⊢
  have h1 := Run.andThen_outcome_returned (Run.andThen_outcome_returned
    (Run.andThen_outcome_returned (Run.andThen_outcome_returned h)))
  obtain ⟨window, format, extent, createInfo, happ1, htr1, hold, hfmt, hext⟩ :=
    createSwapChain_returned env st h1
  rw [Run.andThen_returned _ _ h1] at h ⊢
  simp only [Run.after_andThen, Run.after_outcome, Run.after_trace, Run.after_app] at h ⊢
  rw [happ1] at h ⊢
  rw [htr1]
  have h2 := Run.andThen_outcome_returned (Run.andThen_outcome_returned
    (Run.andThen_outcome_returned h))
  obtain ⟨views, happ2, hlen2, htr2⟩ := createImageViews_returned env _ h2
  rw [Run.andThen_returned _ _ h2] at h ⊢
  simp only [Run.after_andThen, Run.after_outcome, Run.after_trace, Run.after_app] at h ⊢
  rw [happ2] at h ⊢
  rw [htr2]
  have h3 := Run.andThen_outcome_returned (Run.andThen_outcome_returned h)
  obtain ⟨happ3, htr3⟩ := createRenderPass_returned env _ h3
  rw [Run.andThen_returned _ _ h3] at h ⊢
  simp only [Run.after_andThen, Run.after_outcome, Run.after_trace, Run.after_app] at h ⊢
  rw [happ3] at h ⊢
  rw [htr3]
  have h4 := Run.andThen_outcome_returned h
  obtain ⟨framebuffers, happ4, hlen4, htr4⟩ := createFramebuffers_returned env _ h4
  rw [Run.andThen_returned _ _ h4] at h ⊢
  simp only [Run.after_andThen, Run.after_outcome, Run.after_trace, Run.after_app] at h ⊢
  rw [happ4] at h ⊢
  rw [htr4]
  obtain ⟨commandBuffers, happ5, hlen5, htr5⟩ := createCommandBuffers_returned env _ h
  rw [happ5, htr5]
  refine ⟨_, createInfo, rfl, ?_, hold, hfmt, hext, rfl, rfl, hlen2, ?_, ?_⟩
  · simp only [List.append_assoc, List.cons_append, List.nil_append]
  · exact hlen4.trans hlen2
  · exact hlen5.trans (hlen4.trans hlen2)

theorem wait_only_window (sizes : List (Int × Int)) :
    ∀ (width height : Int) (st : App), ∃ (window : Window) (flag : Bool),
      (recreateSwapChain.wait sizes width height st).app
        = { st with window := window, framebufferResized := flag } := by
  induction sizes with
  | nil =>
    intro width height st
    unfold recreateSwapChain.wait
    split
    · split
      · exact ⟨st.window, st.framebufferResized, rfl⟩
      · exact ⟨_, _, glfwWaitEvents_app st⟩
    · exact ⟨st.window, st.framebufferResized, rfl⟩
  | cons size rest ih =>
    intro width height st
    unfold recreateSwapChain.wait
    split
    · obtain ⟨window, flag, happ⟩ := ih size.1 size.2
        (glfwWaitEvents { st with window := { st.window with sizes := rest } })
      refine ⟨window, flag, ?_⟩
      rw [Run.after_app, happ, glfwWaitEvents_app]
    · exact ⟨st.window, st.framebufferResized, rfl⟩

/-! ## The calls of the build steps, however they end -/

theorem findQueueFamilies_loop_build (queueFamilies : List QueueFamily) :
    ∀ (i : Nat) (indices : QueueFamilyIndices),
      ∀ e ∈ (findQueueFamilies.loop queueFamilies i indices).2, e.isBuildStep = true := by
  induction queueFamilies with
  | nil => intro i indices e he; simp [findQueueFamilies.loop] at he
  | cons queueFamily rest ih =>
    intro i indices e he
    simp only [findQueueFamilies.loop] at he
    split_ifs at he <;>
      first
      | (simp only [List.mem_singleton] at he; subst he; rfl)
      | (simp only [List.mem_cons] at he
         rcases he with rfl | he
         · rfl
         · exact ih _ _ e he)

theorem swapchainQueries_build (env : RebuildEnv) :
    ∀ e ∈ swapchainQueries env, e.isBuildStep = true := by
  intro e he
  simp only [swapchainQueries, querySwapChainSupport, findQueueFamilies, List.mem_append,
    List.mem_cons, List.mem_singleton, List.not_mem_nil, or_false] at he
  rcases he with ((((((rfl | rfl) | he) | rfl) | he)) | he) | rfl | rfl | he
  · rfl
  · rfl
  · split at he
    · simp only [List.mem_singleton] at he; subst he; rfl
    · simp at he
  · rfl
  · split at he
    · simp only [List.mem_singleton] at he; subst he; rfl
    · simp at he
  · split at he
    · simp at he
    · simp only [List.mem_singleton] at he; subst he; rfl
  · rfl
  · rfl
  · exact findQueueFamilies_loop_build _ _ _ e he

theorem createSwapChain_build (env : RebuildEnv) (st : App) :
    ∀ e ∈ (createSwapChain env st).trace, e.isBuildStep = true := by
  have hq := swapchainQueries_build env
  have hcalls := chooseSwapExtent_calls env.support.capabilities st.window
  rw [swapchainQueries, ← hcalls] at hq
  unfold createSwapChain
  dsimp only
  split
  · intro e he
    exact hq e (List.mem_append_left _ (List.mem_append_left _ he))
  · split
    · split
      · intro e he
        simp only [List.mem_append, List.mem_singleton] at he
        rcases he with he | rfl
        · exact hq e (by simpa only [List.mem_append] using he)
        · rfl
      · intro e he
        simp only [List.mem_append, List.mem_cons, List.mem_singleton, List.not_mem_nil,
          or_false] at he
        rcases he with he | rfl | rfl | rfl
        · exact hq e (by simpa only [List.mem_append] using he)
        · rfl
        · rfl
        · rfl
    · intro e he
      exact hq e he

theorem createImageViews_loop_build (env : RebuildEnv) (images : List Nat) :
    ∀ (i : Nat) (st : App),
      ∀ e ∈ (createImageViews.loop env images i st).trace, e.isBuildStep = true := by
  induction images with
  | nil => intro i st e he; simp [createImageViews.loop] at he
  | cons image rest ih =>
    intro i st e he
    unfold createImageViews.loop at he
    split at he
    · simp only [List.mem_singleton] at he; subst he; rfl
    · simp only [Run.after_trace, List.mem_append, List.mem_singleton] at he
      rcases he with rfl | he
      · rfl
      · exact ih _ _ e he

theorem createRenderPass_build (env : RebuildEnv) (st : App) :
    ∀ e ∈ (createRenderPass env st).trace, e.isBuildStep = true := by
  intro e he
  unfold createRenderPass at he
  split at he <;> (simp only [List.mem_singleton] at he; subst he; rfl)

theorem createFramebuffers_loop_build (env : RebuildEnv) (views : List Nat) :
    ∀ (i : Nat) (st : App),
      ∀ e ∈ (createFramebuffers.loop env views i st).trace, e.isBuildStep = true := by
  induction views with
  | nil => intro i st e he; simp [createFramebuffers.loop] at he
  | cons view rest ih =>
    intro i st e he
    unfold createFramebuffers.loop at he
    split at he
    · simp only [List.mem_singleton] at he; subst he; rfl
    · simp only [Run.after_trace, List.mem_append, List.mem_singleton] at he
      rcases he with rfl | he
      · rfl
      · exact ih _ _ e he

theorem recordCommands_build (st : App) (commandBuffer framebuffer : Nat) :
    ∀ e ∈ Event.beginCommandBuffer commandBuffer :: recordCommands st commandBuffer framebuffer,
      e.isBuildStep = true := by
  intro e he
  simp only [recordCommands, List.mem_cons, List.mem_singleton, List.not_mem_nil,
    or_false] at he
  rcases he with rfl | rfl | rfl | rfl | rfl | rfl | rfl | rfl <;> rfl

theorem createCommandBuffers_loop_build (env : RebuildEnv) (st : App)
    (buffers : List (Nat × Nat)) :
    ∀ (i : Nat), ∀ e ∈ (createCommandBuffers.loop env st buffers i).trace,
      e.isBuildStep = true := by
  induction buffers with
  | nil => intro i e he; simp [createCommandBuffers.loop] at he
  | cons buffer rest ih =>
    intro i e he
    obtain ⟨commandBuffer, framebuffer⟩ := buffer
    unfold createCommandBuffers.loop at he
    split at he
    · simp only [List.mem_singleton] at he; subst he; rfl
    · split at he
      · exact recordCommands_build st commandBuffer framebuffer e he
      · rw [Run.after_trace, List.mem_append] at he
        rcases he with he | he
        · exact recordCommands_build st commandBuffer framebuffer e he
        · exact ih _ e he

theorem createCommandBuffers_build (env : RebuildEnv) (st : App) :
    ∀ e ∈ (createCommandBuffers env st).trace, e.isBuildStep = true := by
  intro e he
  unfold createCommandBuffers at he
  split at he
  · simp only [List.mem_singleton] at he; subst he; rfl
  · simp only [Run.after_trace, List.mem_append, List.mem_singleton] at he
    rcases he with rfl | he
    · rfl
    · exact createCommandBuffers_loop_build env _ _ _ e he

theorem Run.andThen_calls {p : Event → Bool} {r : Run} {f : App → Run}
    (h : ∀ e ∈ r.trace, p e = true) (hf : ∀ s, ∀ e ∈ (f s).trace, p e = true) :
    ∀ e ∈ (r.andThen f).trace, p e = true := by
  by_cases hr : r.outcome = Outcome.returned
  · rw [Run.andThen_returned r f hr]
    intro e he
    rw [Run.after_trace, List.mem_append] at he
    exact he.elim (h e) (hf _ e)
  · rw [Run.andThen_stopped r f hr]
    exact h

theorem buildSteps_build (env : RebuildEnv) (st : App) :
    ∀ e ∈ (buildSteps env st).trace, e.isBuildStep = true := by
  unfold buildSteps
  refine Run.andThen_calls ?_ (createCommandBuffers_build env)
  refine Run.andThen_calls ?_ (fun s => createFramebuffers_loop_build env _ _ _)
  refine Run.andThen_calls ?_ (createRenderPass_build env)
  exact Run.andThen_calls (createSwapChain_build env st)
    (fun s => createImageViews_loop_build env _ _ _)

theorem isBuildStep_kind {e : Event} (h : e.isBuildStep = true) :
    e.isDestroy = false ∧ e.isDrain = false := by
  cases e <;> simp_all [Event.isBuildStep, Event.isDestroy, Event.isDrain]

/-- A rebuild on a window that comes to a nonzero size: the entry, the reads
and event waits, the drain and the teardown, and then the build steps. -/
theorem recreateSwapChain_run (env : RebuildEnv) (st : App)
    (hsize : leadingZeros st.window.sizes < st.window.sizes.length
      ∨ zeroExtent st.window.lastSize = false) :
    ∃ (window : Window) (flag : Bool),
      recreateSwapChain env st
        = Run.after
            ((Event.recreateSwapChain :: Event.getFramebufferSize
                :: polls (leadingZeros st.window.sizes))
              ++ Event.deviceWaitIdle
                :: (st.swapChainFramebuffers.map Event.destroyFramebuffer
                  ++ [Event.freeCommandBuffers st.commandPool st.commandBuffers,
                      Event.destroyRenderPass st.renderPass]
                  ++ st.swapChainImageViews.map Event.destroyImageView)
              ++ [Event.destroySwapchain st.swapChain])
            (buildSteps env { st with window := window, framebufferResized := flag }) := by
  obtain ⟨h1, h2⟩ := (recreateSwapChain_wait st).1 hsize
  obtain ⟨window, flag, happ⟩ := wait_only_window st.window.getFramebufferSize.2.sizes
    st.window.getFramebufferSize.1.1 st.window.getFramebufferSize.1.2
    { st with window := st.window.getFramebufferSize.2 }
  refine ⟨window, flag, ?_⟩
  rw [recreateSwapChain_eq, Run.andThen_returned _ _ h1, h2, happ]
  simp only [Run.after, cleanupOldSwapChain, List.append_assoc, List.cons_append,
    List.nil_append]

/-! ## C15 -/

theorem polls_mem {k : Nat} {e : Event} (h : e ∈ polls k) :
    e = Event.getFramebufferSize ∨ e = Event.waitEvents := by
  induction k with
  | zero => simp [polls] at h
  | succ k ih =>
    rw [polls_succ] at h
    simp only [List.mem_cons] at h
    rcases h with rfl | rfl | h
    · exact Or.inl rfl
    · exact Or.inr rfl
    · exact ih h

/-- C15: a rebuild on a window that comes to a nonzero size makes, after its
entry and its reads and event waits, exactly these calls: the device drain;
the destruction of the framebuffers, the command buffers, the render pass, the
image views and the swapchain the object held, in this order; then the calls
of the build steps, which destroy nothing. When the rebuild returns, the calls
of the build steps are exactly: the queries of the swapchain step, the
capabilities first, and the creation of the swapchain with the two reads of
its images; the image views; the render pass; the framebuffers; the
allocation and the recording of the command buffers. No call before the drain
destroys anything and no call before the destruction of the swapchain creates
anything. -/
theorem C15_rebuild_order (env : RebuildEnv) (st : App)
    (hsize : leadingZeros st.window.sizes < st.window.sizes.length
      ∨ zeroExtent st.window.lastSize = false) :
    ∃ build : List Event,
      (recreateSwapChain env st).trace
          = (Event.recreateSwapChain :: Event.getFramebufferSize
              :: polls (leadingZeros st.window.sizes))
            ++ Event.deviceWaitIdle
              :: (st.swapChainFramebuffers.map Event.destroyFramebuffer
                ++ [Event.freeCommandBuffers st.commandPool st.commandBuffers,
                    Event.destroyRenderPass st.renderPass]
                ++ st.swapChainImageViews.map Event.destroyImageView)
            ++ [Event.destroySwapchain st.swapChain]
            ++ build
        ∧ (∀ e ∈ build, e.isBuildStep = true ∧ e.isDestroy = false)
        ∧ ((recreateSwapChain env st).outcome = Outcome.returned →
            ∃ (rebuilt : App) (createInfo : SwapchainCreateInfo),
              (recreateSwapChain env st).app = rebuilt
                ∧ build
                  = swapchainQueries env
                    ++ [Event.createSwapchain createInfo,
                        Event.getSwapchainImages rebuilt.swapChain,
                        Event.getSwapchainImages rebuilt.swapChain]
                    ++ rebuilt.swapChainImages.map
                        (fun image => Event.createImageView image rebuilt.swapChainImageFormat)
                    ++ [Event.createRenderPass rebuilt.swapChainImageFormat]
                    ++ rebuilt.swapChainImageViews.map
                        (fun view => Event.createFramebuffer rebuilt.renderPass view
                          rebuilt.swapChainExtent)
                    ++ [Event.allocateCommandBuffers rebuilt.commandPool
                          rebuilt.swapChainFramebuffers.length]
                    ++ recordingCalls rebuilt
                        (rebuilt.commandBuffers.zip rebuilt.swapChainFramebuffers))
        ∧ (swapchainQueries env).head? = some Event.getSurfaceCapabilities
        ∧ (∀ e ∈ beforeDrain (recreateSwapChain env st).trace, e.isDestroy = false)
        ∧ (∀ e ∈ beforeSwapchainDestroy (recreateSwapChain env st).trace,
            e.isCreate = false) := by
  obtain ⟨window, flag, hrun⟩ := recreateSwapChain_run env st hsize
  have hhead : ∀ e ∈ Event.recreateSwapChain :: Event.getFramebufferSize
      :: polls (leadingZeros st.window.sizes),
      e.isDrain = false ∧ e.isDestroy = false ∧ e.isSwapchainDestroy = false
        ∧ e.isCreate = false := by
    intro e he
    simp only [List.mem_cons] at he
    rcases he with rfl | rfl | he
    · exact ⟨rfl, rfl, rfl, rfl⟩
    · exact ⟨rfl, rfl, rfl, rfl⟩
    · rcases polls_mem he with rfl | rfl <;> exact ⟨rfl, rfl, rfl, rfl⟩
  have hteardown : ∀ e ∈ st.swapChainFramebuffers.map Event.destroyFramebuffer
      ++ [Event.freeCommandBuffers st.commandPool st.commandBuffers,
          Event.destroyRenderPass st.renderPass]
      ++ st.swapChainImageViews.map Event.destroyImageView,
      e.isSwapchainDestroy = false ∧ e.isCreate = false := by
    intro e he
    simp only [List.mem_append, List.mem_map, List.mem_cons, List.mem_singleton,
      List.not_mem_nil, or_false] at he
    rcases he with (⟨_, _, rfl⟩ | rfl | rfl) | ⟨_, _, rfl⟩ <;> exact ⟨rfl, rfl⟩
  refine ⟨(buildSteps env { st with window := window, framebufferResized := flag }).trace,
    by rw [hrun, Run.after_trace],
    fun e he => ⟨buildSteps_build env _ e he, (isBuildStep_kind (buildSteps_build env _ e he)).1⟩,
    ?_, by simp [swapchainQueries, querySwapChainSupport], ?_, ?_⟩
  · intro hret
    rw [hrun, Run.after_outcome] at hret
    obtain ⟨built, createInfo, happ, htr, -⟩ := buildSteps_returned env _ hret
    exact ⟨built, createInfo, by rw [hrun, Run.after_app, happ], htr⟩
  · have htrace : (recreateSwapChain env st).trace
        = (Event.recreateSwapChain :: Event.getFramebufferSize
            :: polls (leadingZeros st.window.sizes))
          ++ Event.deviceWaitIdle
            :: ((st.swapChainFramebuffers.map Event.destroyFramebuffer
              ++ [Event.freeCommandBuffers st.commandPool st.commandBuffers,
                  Event.destroyRenderPass st.renderPass]
              ++ st.swapChainImageViews.map Event.destroyImageView)
              ++ [Event.destroySwapchain st.swapChain]
              ++ (buildSteps env
                  { st with window := window, framebufferResized := flag }).trace) := by
      rw [hrun, Run.after_trace]
      simp only [List.append_assoc, List.cons_append, List.nil_append]
    rw [htrace]
    unfold beforeDrain
    rw [takeWhile_stop _ _ _ (fun e he => by simp [(hhead e he).1]) (by simp [Event.isDrain])]
    exact fun e he => (hhead e he).2.1
  · have htrace : (recreateSwapChain env st).trace
        = ((Event.recreateSwapChain :: Event.getFramebufferSize
            :: polls (leadingZeros st.window.sizes))
          ++ Event.deviceWaitIdle
            :: (st.swapChainFramebuffers.map Event.destroyFramebuffer
              ++ [Event.freeCommandBuffers st.commandPool st.commandBuffers,
                  Event.destroyRenderPass st.renderPass]
              ++ st.swapChainImageViews.map Event.destroyImageView))
          ++ Event.destroySwapchain st.swapChain
            :: (buildSteps env
                { st with window := window, framebufferResized := flag }).trace := by
      rw [hrun, Run.after_trace]
      simp only [List.append_assoc, List.cons_append, List.nil_append]
    have hpre : ∀ e ∈ (Event.recreateSwapChain :: Event.getFramebufferSize
            :: polls (leadingZeros st.window.sizes))
          ++ Event.deviceWaitIdle
            :: (st.swapChainFramebuffers.map Event.destroyFramebuffer
              ++ [Event.freeCommandBuffers st.commandPool st.commandBuffers,
                  Event.destroyRenderPass st.renderPass]
              ++ st.swapChainImageViews.map Event.destroyImageView),
        e.isSwapchainDestroy = false ∧ e.isCreate = false := by
      intro e he
      rcases List.mem_append.1 he with he | he
      · exact ⟨(hhead e he).2.2.1, (hhead e he).2.2.2⟩
      · rcases List.mem_cons.1 he with rfl | he
        · exact ⟨rfl, rfl⟩
        · exact hteardown e he
    rw [htrace]
    unfold beforeSwapchainDestroy
    rw [takeWhile_stop _ _ _ (fun e he => by simp [(hpre e he).1])
      (by simp [Event.isSwapchainDestroy])]
    exact fun e he => (hpre e he).2

/-- C15 on the example application, whose window stays at 800 x 600: the
entry, one read, the drain, the teardown of its three framebuffers, its
command buffers, its render pass, its three image views and its swapchain, and
then build calls only. -/
theorem C15_rebuild_order_witness :
    ∃ build : List Event,
      (recreateSwapChain exampleRebuild exampleApp).trace
          = [Event.recreateSwapChain, Event.getFramebufferSize, Event.deviceWaitIdle,
              Event.destroyFramebuffer 401, Event.destroyFramebuffer 402,
              Event.destroyFramebuffer 403,
              Event.freeCommandBuffers 500 [501, 502, 503], Event.destroyRenderPass 300,
              Event.destroyImageView 211, Event.destroyImageView 212,
              Event.destroyImageView 213, Event.destroySwapchain 100]
            ++ build
        ∧ (∀ e ∈ build, e.isBuildStep = true ∧ e.isDestroy = false) := by
  obtain ⟨build, htrace, hbuild, -⟩ :=
    C15_rebuild_order exampleRebuild exampleApp (Or.inr (by decide))
  exact ⟨build, by rw [htrace]; rfl, hbuild⟩

/-! ## The image-in-flight map across a rebuild -/

theorem createSynchObjects_loop_map (env : SyncEnv) (remaining : Nat) :
    ∀ (i : Nat) (st : App),
      (createSynchObjects.loop env remaining i st).app.imagesInFlight = st.imagesInFlight
        ∧ (createSynchObjects.loop env remaining i st).app.swapChainImages
            = st.swapChainImages := by
  induction remaining with
  | zero => intro i st; exact ⟨rfl, rfl⟩
  | succ remaining ih =>
    intro i st
    unfold createSynchObjects.loop
    dsimp only
    split
    · exact ⟨rfl, rfl⟩
    · split
      · exact ⟨rfl, rfl⟩
      · split
        · exact ⟨rfl, rfl⟩
        · exact ih _ _

/-- The sibling path: `createSynchObjects`, the last step of `initVulkan`,
sizes the image-in-flight map to the number of swapchain images, and on a
fresh object every entry is `VK_NULL_HANDLE`. -/
theorem createSynchObjects_map (env : SyncEnv) (st : App) :
    (createSynchObjects env st).app.imagesInFlight.length
        = (createSynchObjects env st).app.swapChainImages.length
      ∧ (st.imagesInFlight = [] →
          ∀ fence ∈ (createSynchObjects env st).app.imagesInFlight, fence = VK_NULL_HANDLE) := by
  obtain ⟨h1, h2⟩ := createSynchObjects_loop_map env MAX_FRAMES_IN_FLIGHT 0
    { st with
      imageAvailableSemaphores := resize st.imageAvailableSemaphores MAX_FRAMES_IN_FLIGHT
      renderFinishedSemaphores := resize st.renderFinishedSemaphores MAX_FRAMES_IN_FLIGHT
      inFlightFences := resize st.inFlightFences MAX_FRAMES_IN_FLIGHT
      imagesInFlight := resize st.imagesInFlight st.swapChainImages.length }
  unfold createSynchObjects
  rw [h1, h2]
  refine ⟨resize_length _ _, ?_⟩
  intro hempty fence hfence
  simp only [hempty, resize, List.take_nil, List.nil_append, List.length_nil] at hfence
  exact (List.mem_replicate.1 hfence).2

theorem recreateSwapChain_returned_size (env : RebuildEnv) (st : App)
    (h : (recreateSwapChain env st).outcome = Outcome.returned) :
    leadingZeros st.window.sizes < st.window.sizes.length
      ∨ zeroExtent st.window.lastSize = false := by
  by_contra hn
  have hle := leadingZeros_le st.window.sizes
  have hk : leadingZeros st.window.sizes = st.window.sizes.length
      ∧ zeroExtent st.window.lastSize = true := by
    constructor
    · by_contra hne
      exact hn (Or.inl (by omega))
    · cases hz : zeroExtent st.window.lastSize with
      | true => rfl
      | false => exact absurd (Or.inr hz) hn
  obtain ⟨h1, -⟩ := (recreateSwapChain_wait st).2 hk
  have hstop : (recreateSwapChain.wait st.window.getFramebufferSize.2.sizes
      st.window.getFramebufferSize.1.1 st.window.getFramebufferSize.1.2
      { st with window := st.window.getFramebufferSize.2 }).outcome ≠ Outcome.returned := by
    rw [h1]; exact fun h => by cases h
  rw [recreateSwapChain_eq, Run.andThen_stopped _ _ hstop, Run.after_outcome, h1] at h
  cases h

/-- After a rebuild that returns, the images, the image views, the
framebuffers and the command buffers are as many as the new swapchain has
images, and the image-in-flight map is the one from before the rebuild. -/
theorem recreateSwapChain_lengths (env : RebuildEnv) (st : App)
    (h : (recreateSwapChain env st).outcome = Outcome.returned) :
    (recreateSwapChain env st).app.swapChainImages = env.newImages
      ∧ (recreateSwapChain env st).app.swapChainImageViews.length = env.newImages.length
      ∧ (recreateSwapChain env st).app.swapChainFramebuffers.length = env.newImages.length
      ∧ (recreateSwapChain env st).app.commandBuffers.length = env.newImages.length
      ∧ (recreateSwapChain env st).app.imagesInFlight = st.imagesInFlight := by
  obtain ⟨window, flag, hrun⟩ :=
    recreateSwapChain_run env st (recreateSwapChain_returned_size env st h)
  have hmap := (recreateSwapChain_ring env st).2.1
  rw [hrun, Run.after_outcome] at h
  obtain ⟨built, createInfo, happ, -, -, -, -, -, himages, hviews, hframebuffers, hbuffers⟩ :=
    buildSteps_returned env _ h
  rw [hrun, Run.after_app, happ] at hmap ⊢
  exact ⟨himages, hviews, hframebuffers, hbuffers, hmap.symm⟩

/-! ## C12 -/

/-- C12 evaluated on the code: the example application has three images and
a map of three entries; a rebuild whose new swapchain has four images returns
with four images, four image views and four framebuffers and leaves the
image-in-flight map at three entries, and the next frame, acquiring image 3,
reads the map out of range. -/
theorem C12_map_length_after_rebuild :
    exampleApp.imagesInFlight.length = exampleApp.swapChainImages.length
      ∧ (recreateSwapChain fourImageRebuild exampleApp).outcome = Outcome.returned
      ∧ (recreateSwapChain fourImageRebuild exampleApp).app.swapChainImages.length = 4
      ∧ (recreateSwapChain fourImageRebuild exampleApp).app.swapChainImageViews.length = 4
      ∧ (recreateSwapChain fourImageRebuild exampleApp).app.swapChainFramebuffers.length = 4
      ∧ (recreateSwapChain fourImageRebuild exampleApp).app.imagesInFlight.length = 3
      ∧ (drawFrame (exampleFrame 3)
          (recreateSwapChain fourImageRebuild exampleApp).app).outcome
        = Outcome.undefinedBehaviour := by
  decide

/-! ## C13 -/

/-- C13 evaluated on the code: after one frame on the example application the
image-in-flight map holds the fence 701 for image 0, and a rebuild from there
returns with the map as it was, the entry of image 0 still 701. -/
theorem C13_map_after_rebuild :
    (drawFrame (exampleFrame 0) exampleApp).app.imagesInFlight = [701, 0, 0]
      ∧ (recreateSwapChain exampleRebuild
          (drawFrame (exampleFrame 0) exampleApp).app).outcome = Outcome.returned
      ∧ (recreateSwapChain exampleRebuild
          (drawFrame (exampleFrame 0) exampleApp).app).app.imagesInFlight = [701, 0, 0] := by
  decide

/-! ## C18 -/

theorem search_some {availableFormats : List VkSurfaceFormatKHR} {chosen : VkSurfaceFormatKHR}
    (h : chooseSwapSurfaceFormat.search availableFormats = some chosen) :
    chosen ∈ availableFormats ∧ chosen = preferredSurfaceFormat := by
  induction availableFormats with
  | nil => simp [chooseSwapSurfaceFormat.search] at h
  | cons availableFormat rest ih =>
    unfold chooseSwapSurfaceFormat.search at h
    split at h
    · rename_i hpref
      cases h
      refine ⟨List.mem_cons_self _ _, ?_⟩
      cases chosen
      simp only [preferredSurfaceFormat, VkSurfaceFormatKHR.mk.injEq]
      exact hpref
    · exact ⟨List.mem_cons_of_mem _ (ih h).1, (ih h).2⟩

theorem search_none {availableFormats : List VkSurfaceFormatKHR}
    (h : chooseSwapSurfaceFormat.search availableFormats = none) :
    preferredSurfaceFormat ∉ availableFormats := by
  induction availableFormats with
  | nil => simp
  | cons availableFormat rest ih =>
    unfold chooseSwapSurfaceFormat.search at h
    split at h
    · cases h
    · rename_i hpref
      intro hmem
      rcases List.mem_cons.mp hmem with heq | hmem
      · apply hpref
        rw [← heq]
        exact ⟨rfl, rfl⟩
      · exact ih h hmem

/-- C18: for every non-empty list of supported surface formats,
`chooseSwapSurfaceFormat` returns an element of the list; when the list
contains the pair (B8G8R8A8, sRGB non-linear) the result is that pair, and
otherwise the result is the entry at index 0. -/
theorem C18_format_selection (availableFormats : List VkSurfaceFormatKHR)
    (hne : availableFormats ≠ []) :
    ∃ chosen, chooseSwapSurfaceFormat availableFormats = some chosen
      ∧ chosen ∈ availableFormats
      ∧ (preferredSurfaceFormat ∈ availableFormats → chosen = preferredSurfaceFormat)
      ∧ (preferredSurfaceFormat ∉ availableFormats → availableFormats[0]? = some chosen) := by
  unfold chooseSwapSurfaceFormat
  cases hsearch : chooseSwapSurfaceFormat.search availableFormats with
  | some found =>
    obtain ⟨hmem, hpref⟩ := search_some hsearch
    refine ⟨found, rfl, hmem, fun _ => hpref, ?_⟩
    intro hnot
    rw [hpref] at hmem
    exact absurd hmem hnot
  | none =>
    cases availableFormats with
    | nil => exact absurd rfl hne
    | cons first rest =>
      refine ⟨first, by simp, List.mem_cons_self _ _, ?_, fun _ => by simp⟩
      intro hmem
      exact absurd hmem (search_none hsearch)

/-- C18, witness: a list without the preferred pair gives its first entry. -/
theorem C18_format_selection_witness :
    plainFormats ≠ []
      ∧ ∃ chosen, chooseSwapSurfaceFormat plainFormats = some chosen
          ∧ plainFormats[0]? = some chosen := by
  have hne : plainFormats ≠ [] := by decide
  obtain ⟨chosen, hchosen, -, -, hfirst⟩ := C18_format_selection plainFormats hne
  exact ⟨hne, chosen, hchosen, hfirst (by decide)⟩

/-! ## C19 -/

theorem chooseSwapPresentMode_mem {availablePresentModes : List Nat}
    (h : VK_PRESENT_MODE_MAILBOX_KHR ∈ availablePresentModes) :
    chooseSwapPresentMode availablePresentModes = VK_PRESENT_MODE_MAILBOX_KHR := by
  induction availablePresentModes with
  | nil => simp at h
  | cons availablePresentMode rest ih =>
    unfold chooseSwapPresentMode
    split
    · assumption
    · rename_i hne
      rcases List.mem_cons.mp h with heq | hmem
      · exact absurd heq.symm hne
      · exact ih hmem

theorem chooseSwapPresentMode_not_mem {availablePresentModes : List Nat}
    (h : VK_PRESENT_MODE_MAILBOX_KHR ∉ availablePresentModes) :
    chooseSwapPresentMode availablePresentModes = VK_PRESENT_MODE_FIFO_KHR := by
  induction availablePresentModes with
  | nil => rfl
  | cons availablePresentMode rest ih =>
    unfold chooseSwapPresentMode
    split
    · rename_i heq
      exact absurd (heq ▸ List.mem_cons_self _ _) h
    · exact ih (fun hmem => h (List.mem_cons_of_mem _ hmem))

/-- C19: for every list of supported present modes, the empty one included,
`chooseSwapPresentMode` returns MAILBOX if and only if MAILBOX occurs in the
list, returns FIFO otherwise, and never returns any other mode. -/
theorem C19_present_mode_selection (availablePresentModes : List Nat) :
    (chooseSwapPresentMode availablePresentModes = VK_PRESENT_MODE_MAILBOX_KHR ↔
        VK_PRESENT_MODE_MAILBOX_KHR ∈ availablePresentModes)
      ∧ (VK_PRESENT_MODE_MAILBOX_KHR ∉ availablePresentModes →
          chooseSwapPresentMode availablePresentModes = VK_PRESENT_MODE_FIFO_KHR)
      ∧ (chooseSwapPresentMode availablePresentModes = VK_PRESENT_MODE_MAILBOX_KHR
          ∨ chooseSwapPresentMode availablePresentModes = VK_PRESENT_MODE_FIFO_KHR) := by
  refine ⟨⟨?_, chooseSwapPresentMode_mem⟩, chooseSwapPresentMode_not_mem, ?_⟩
  · intro hmailbox
    by_contra hnot
    rw [chooseSwapPresentMode_not_mem hnot] at hmailbox
    exact absurd hmailbox (by decide)
  · by_cases hmem : VK_PRESENT_MODE_MAILBOX_KHR ∈ availablePresentModes
    · exact Or.inl (chooseSwapPresentMode_mem hmem)
    · exact Or.inr (chooseSwapPresentMode_not_mem hmem)

/-- C19, witness: immediate (0), FIFO (2) and FIFO-relaxed (3) give FIFO, and
putting MAILBOX (1) anywhere in the list gives MAILBOX. -/
theorem C19_present_mode_selection_witness :
    chooseSwapPresentMode [0, 2, 3] = VK_PRESENT_MODE_FIFO_KHR
      ∧ chooseSwapPresentMode [0, 2, 1, 3] = VK_PRESENT_MODE_MAILBOX_KHR :=
  ⟨(C19_present_mode_selection [0, 2, 3]).2.1 (by decide),
    (C19_present_mode_selection [0, 2, 1, 3]).1.2 (by decide)⟩

/-! ## C20 -/

theorem toUint32_of_nat (n : Nat) (h : n < 4294967296) : toUint32 (n : Int) = n := by
  unfold toUint32
  omega

/-- C20: `chooseSwapExtent` returns `capabilities.currentExtent` unchanged when
its width is not the sentinel `UINT32_MAX`; when it is, the result is,
componentwise, `max(minImageExtent, min(maxImageExtent, size))` for the
framebuffer size that the window reports at that call, converted to
`uint32_t` (a size between 0 and `UINT32_MAX` converts to itself), and it
lies within `[minImageExtent, maxImageExtent]` componentwise whenever
`minImageExtent <= maxImageExtent`. -/
theorem C20_extent_selection (capabilities : VkSurfaceCapabilitiesKHR) (window : Window) :
    (capabilities.currentExtent.width ≠ UINT32_MAX →
        (chooseSwapExtent capabilities window).1 = capabilities.currentExtent
          ∧ (chooseSwapExtent capabilities window).2.2 = [])
      ∧ (capabilities.currentExtent.width = UINT32_MAX →
          (chooseSwapExtent capabilities window).1
            = { width := max capabilities.minImageExtent.width
                  (min capabilities.maxImageExtent.width
                    (toUint32 window.getFramebufferSize.1.1)),
                height := max capabilities.minImageExtent.height
                  (min capabilities.maxImageExtent.height
                    (toUint32 window.getFramebufferSize.1.2)) }
            ∧ (chooseSwapExtent capabilities window).2.2 = [Event.getFramebufferSize])
      ∧ (capabilities.currentExtent.width = UINT32_MAX →
          capabilities.minImageExtent.width ≤ capabilities.maxImageExtent.width →
          capabilities.minImageExtent.height ≤ capabilities.maxImageExtent.height →
          capabilities.minImageExtent.width ≤ (chooseSwapExtent capabilities window).1.width
            ∧ (chooseSwapExtent capabilities window).1.width
                ≤ capabilities.maxImageExtent.width
            ∧ capabilities.minImageExtent.height
                ≤ (chooseSwapExtent capabilities window).1.height
            ∧ (chooseSwapExtent capabilities window).1.height
                ≤ capabilities.maxImageExtent.height)
      ∧ (∀ n : Nat, n < 4294967296 → toUint32 (n : Int) = n) := by
  refine ⟨?_, ?_, ?_, toUint32_of_nat⟩
  · intro h
    simp [chooseSwapExtent, h]
  · intro h
    simp [chooseSwapExtent, h]
  · intro h hw hh
    simp only [chooseSwapExtent, h, ne_eq, not_true_eq_false, if_false]
    omega

/-- C20, witness: with the sentinel, bounds 100..1000 and a window that
reports 1600 x 50, the extent is 1000 x 100; the constants 800 x 600 play no
part. -/
theorem C20_extent_selection_witness :
    sentinelCapabilities.currentExtent.width = UINT32_MAX
      ∧ (chooseSwapExtent sentinelCapabilities wideWindow).1
          = { width := 1000, height := 100 }
      ∧ sentinelCapabilities.minImageExtent.width
          ≤ (chooseSwapExtent sentinelCapabilities wideWindow).1.width := by
  have h := C20_extent_selection sentinelCapabilities wideWindow
  exact ⟨rfl, by decide, (h.2.2.1 rfl (by decide) (by decide)).1⟩

/-! ## The request of `createSwapChain` -/

theorem findQueueFamilies_loop_calls (queueFamilies : List QueueFamily) :
    ∀ (i : Nat) (indices : QueueFamilyIndices),
      ∀ e ∈ (findQueueFamilies.loop queueFamilies i indices).2,
        ∃ j, e = Event.getSurfaceSupport j := by
  induction queueFamilies with
  | nil => intro i indices e he; simp [findQueueFamilies.loop] at he
  | cons queueFamily rest ih =>
    intro i indices e he
    simp only [findQueueFamilies.loop] at he
    split_ifs at he <;>
      first
      | (simp only [List.mem_singleton] at he; exact ⟨_, he⟩)
      | (simp only [List.mem_cons] at he
         rcases he with rfl | he
         · exact ⟨_, rfl⟩
         · exact ih _ _ e he)

theorem swapchainQueries_no_create (env : RebuildEnv) :
    ∀ e ∈ swapchainQueries env, e.isCreate = false := by
  intro e he
  simp only [swapchainQueries, querySwapChainSupport, findQueueFamilies, List.mem_append,
    List.mem_cons, List.mem_singleton, List.not_mem_nil, or_false] at he
  rcases he with ((((((rfl | rfl) | he) | rfl) | he)) | he) | rfl | rfl | he
  · rfl
  · rfl
  · split at he
    · simp only [List.mem_singleton] at he; subst he; rfl
    · simp at he
  · rfl
  · split at he
    · simp only [List.mem_singleton] at he; subst he; rfl
    · simp at he
  · split at he
    · simp at he
    · simp only [List.mem_singleton] at he; subst he; rfl
  · rfl
  · rfl
  · obtain ⟨j, rfl⟩ := findQueueFamilies_loop_calls _ _ _ e he
    rfl

/-- The `VkSwapchainCreateInfoKHR` of every `vkCreateSwapchainKHR` call that
`createSwapChain` makes, whether the call then succeeds or fails. -/
theorem createSwapChain_request (env : RebuildEnv) (st : App)
    (createInfo : SwapchainCreateInfo)
    (h : Event.createSwapchain createInfo ∈ (createSwapChain env st).trace) :
    ∃ (surfaceFormat : VkSurfaceFormatKHR) (graphicsFamily presentFamily : Nat),
      chooseSwapSurfaceFormat env.support.formats = some surfaceFormat
        ∧ (findQueueFamilies env.queueFamilies).1.graphicsFamily = some graphicsFamily
        ∧ (findQueueFamilies env.queueFamilies).1.presentFamily = some presentFamily
        ∧ createInfo
          = { minImageCount := requestedImageCount env.support.capabilities
              imageFormat := surfaceFormat.format
              imageColorSpace := surfaceFormat.colorSpace
              imageExtent := (chooseSwapExtent env.support.capabilities st.window).1
              imageArrayLayers := 1
              imageUsage := VK_IMAGE_USAGE_COLOR_ATTACHMENT_BIT
              imageSharingMode :=
                if graphicsFamily ≠ presentFamily then VK_SHARING_MODE_CONCURRENT
                else VK_SHARING_MODE_EXCLUSIVE
              queueFamilyIndices :=
                if graphicsFamily ≠ presentFamily then [graphicsFamily, presentFamily] else []
              preTransform := env.support.capabilities.currentTransform
              compositeAlpha := VK_COMPOSITE_ALPHA_OPAQUE_BIT_KHR
              presentMode := chooseSwapPresentMode env.support.presentModes
              clipped := true
              oldSwapchain := VK_NULL_HANDLE }
        ∧ (createSwapChain env st).app.swapChainExtent
            = (chooseSwapExtent env.support.capabilities st.window).1
        ∧ (createSwapChain env st).app.swapChainImageFormat = surfaceFormat.format := by
  have hq := swapchainQueries_no_create env
  have hcalls := chooseSwapExtent_calls env.support.capabilities st.window
  rw [swapchainQueries, ← hcalls] at hq
  have hno : ∀ t : List Event, (∀ e ∈ t, e.isCreate = false) →
      Event.createSwapchain createInfo ∉ t := by
    intro t ht hmem
    have := ht _ hmem
    simp [Event.isCreate] at this
  generalize hr : createSwapChain env st = r at h ⊢
  unfold createSwapChain at hr
  dsimp only at hr
  split at hr
  · subst hr
    exact absurd h (hno _ (fun e he =>
      hq e (List.mem_append_left _ (List.mem_append_left _ he))))
  · next _ surfaceFormat hformat =>
    split at hr
    · next _ _ graphicsFamily presentFamily hgraphics hpresent =>
      split at hr
      · subst hr
        simp only [List.mem_append, List.mem_singleton, Event.createSwapchain.injEq] at h
        rcases h with h | h
        · exact absurd (by simpa only [List.mem_append] using h) (hno _ hq)
        · exact ⟨surfaceFormat, graphicsFamily, presentFamily, hformat, hgraphics, hpresent,
            h, rfl, rfl⟩
      · subst hr
        simp only [List.mem_append, List.mem_cons, List.mem_singleton, List.not_mem_nil,
          or_false, Event.createSwapchain.injEq, reduceCtorEq] at h
        rcases h with h | h
        · exact absurd (by simpa only [List.mem_append] using h) (hno _ hq)
        · exact ⟨surfaceFormat, graphicsFamily, presentFamily, hformat, hgraphics, hpresent,
            h, rfl, rfl⟩
    · subst hr
      exact absurd h (hno _ hq)

theorem getFramebufferSize_lastSize (window : Window) :
    window.getFramebufferSize.2.lastSize = window.lastSize := by
  unfold Window.getFramebufferSize
  split <;> rfl

theorem chooseSwapExtent_size (capabilities : VkSurfaceCapabilitiesKHR)
    (window other : Window)
    (h : other.getFramebufferSize.1 = window.getFramebufferSize.1) :
    (chooseSwapExtent capabilities other).1 = (chooseSwapExtent capabilities window).1 := by
  unfold chooseSwapExtent
  split
  · rfl
  · simp only [h]

/-! ## C22 -/

/-- C22: every swapchain creation request that `createSwapChain` issues is
built from the two queue family indices that `findQueueFamilies` found; it
declares concurrent sharing with the index list [graphicsFamily,
presentFamily] when the two differ, and exclusive sharing with an empty index
list when they are equal; so it is concurrent if and only if they differ. -/
theorem C22_sharing_mode (env : RebuildEnv) (st : App) (createInfo : SwapchainCreateInfo)
    (h : Event.createSwapchain createInfo ∈ (createSwapChain env st).trace) :
    ∃ graphicsFamily presentFamily : Nat,
      (findQueueFamilies env.queueFamilies).1.graphicsFamily = some graphicsFamily
        ∧ (findQueueFamilies env.queueFamilies).1.presentFamily = some presentFamily
        ∧ (graphicsFamily ≠ presentFamily →
            createInfo.imageSharingMode = VK_SHARING_MODE_CONCURRENT
              ∧ createInfo.queueFamilyIndices = [graphicsFamily, presentFamily])
        ∧ (graphicsFamily = presentFamily →
            createInfo.imageSharingMode = VK_SHARING_MODE_EXCLUSIVE
              ∧ createInfo.queueFamilyIndices = [])
        ∧ (createInfo.imageSharingMode = VK_SHARING_MODE_CONCURRENT
            ↔ graphicsFamily ≠ presentFamily) := by
  obtain ⟨surfaceFormat, graphicsFamily, presentFamily, _, hgraphics, hpresent, hinfo, _, _⟩ :=
    createSwapChain_request env st createInfo h
  refine ⟨graphicsFamily, presentFamily, hgraphics, hpresent, ?_, ?_, ?_⟩
  · intro hne
    rw [hinfo]
    simp [hne]
  · intro heq
    rw [hinfo]
    simp [heq]
  · rw [hinfo]
    by_cases hne : graphicsFamily = presentFamily
    · simp [hne, VK_SHARING_MODE_CONCURRENT, VK_SHARING_MODE_EXCLUSIVE]
    · simp [hne]

/-- C22 on a device whose graphics family 0 cannot present and whose family 1
presents: the request is concurrent over [0, 1]. -/
theorem C22_sharing_mode_witness :
    ∃ createInfo : SwapchainCreateInfo,
      Event.createSwapchain createInfo ∈ (createSwapChain twoFamilyRebuild exampleApp).trace
        ∧ createInfo.imageSharingMode = VK_SHARING_MODE_CONCURRENT
        ∧ createInfo.queueFamilyIndices = [0, 1] := by
  have hmem : Event.createSwapchain
      { minImageCount := 3, imageFormat := 44, imageColorSpace := 0,
        imageExtent := { width := 1024, height := 768 }, imageArrayLayers := 1,
        imageUsage := 16, imageSharingMode := 1, queueFamilyIndices := [0, 1],
        preTransform := 1, compositeAlpha := 1, presentMode := 2, clipped := true,
        oldSwapchain := 0 } ∈ (createSwapChain twoFamilyRebuild exampleApp).trace := by
    decide
  obtain ⟨graphicsFamily, presentFamily, hgraphics, hpresent, hconcurrent, -, -⟩ :=
    C22_sharing_mode twoFamilyRebuild exampleApp _ hmem
  have hg : graphicsFamily = 0 := by
    have h0 : (findQueueFamilies twoFamilyRebuild.queueFamilies).1.graphicsFamily = some 0 := by
      decide
    rw [h0] at hgraphics
    exact (Option.some.inj hgraphics).symm
  have hp : presentFamily = 1 := by
    have h1 : (findQueueFamilies twoFamilyRebuild.queueFamilies).1.presentFamily = some 1 := by
      decide
    rw [h1] at hpresent
    exact (Option.some.inj hpresent).symm
  subst hg hp
  exact ⟨_, hmem, hconcurrent (by decide)⟩

/-! ## C23 -/

/-- C23: two runs of `createSwapChain` for the same surface capabilities,
format list and present-mode list, on windows that report the same
framebuffer size, request the same image count, extent, format, colour space
and present mode and store the same extent and format, whatever else the two
objects hold; so a build, a teardown and a rebuild ask for what the first
build asked for. -/
theorem C23_round_trip (env other : RebuildEnv) (st later : App)
    (first second : SwapchainCreateInfo)
    (hsupport : other.support = env.support)
    (hsize : later.window.getFramebufferSize.1 = st.window.getFramebufferSize.1)
    (hfirst : Event.createSwapchain first ∈ (createSwapChain env st).trace)
    (hsecond : Event.createSwapchain second ∈ (createSwapChain other later).trace) :
    second.minImageCount = first.minImageCount
      ∧ second.imageExtent = first.imageExtent
      ∧ second.imageFormat = first.imageFormat
      ∧ second.imageColorSpace = first.imageColorSpace
      ∧ second.presentMode = first.presentMode
      ∧ (createSwapChain other later).app.swapChainExtent
          = (createSwapChain env st).app.swapChainExtent
      ∧ (createSwapChain other later).app.swapChainImageFormat
          = (createSwapChain env st).app.swapChainImageFormat := by
  obtain ⟨format1, g1, p1, hformat1, _, _, hinfo1, hextent1, hstored1⟩ :=
    createSwapChain_request env st first hfirst
  obtain ⟨format2, g2, p2, hformat2, _, _, hinfo2, hextent2, hstored2⟩ :=
    createSwapChain_request other later second hsecond
  rw [hsupport] at hformat2 hinfo2 hextent2
  have hformat : format2 = format1 := Option.some.inj (hformat2.symm.trans hformat1)
  have hextent := chooseSwapExtent_size env.support.capabilities st.window later.window hsize
  subst hformat
  rw [hextent] at hinfo2 hextent2
  rw [hinfo1, hinfo2, hextent1, hextent2, hstored1, hstored2]
  exact ⟨rfl, rfl, rfl, rfl, rfl, rfl, rfl⟩

/-- C23 on a surface that leaves the extent open and a window that stays at
800 x 600: the build, the teardown and the rebuild on the object they leave
request 3 images of 800 x 600 both times. -/
theorem C23_round_trip_witness :
    ∃ first second : SwapchainCreateInfo,
      Event.createSwapchain first ∈ (createSwapChain sentinelRebuild exampleApp).trace
        ∧ Event.createSwapchain second
          ∈ (createSwapChain sentinelRebuild
              (cleanupOldSwapChain (buildSteps sentinelRebuild exampleApp).app).app).trace
        ∧ second.minImageCount = first.minImageCount
        ∧ second.imageExtent = first.imageExtent
        ∧ first.minImageCount = 3
        ∧ first.imageExtent = { width := 800, height := 600 } := by
  have hfirst : Event.createSwapchain
      { minImageCount := 3, imageFormat := 44, imageColorSpace := 0,
        imageExtent := { width := 800, height := 600 }, imageArrayLayers := 1,
        imageUsage := 16, imageSharingMode := 0, queueFamilyIndices := [],
        preTransform := 1, compositeAlpha := 1, presentMode := 2, clipped := true,
        oldSwapchain := 0 } ∈ (createSwapChain sentinelRebuild exampleApp).trace := by
    decide
  have hsecond : Event.createSwapchain
      { minImageCount := 3, imageFormat := 44, imageColorSpace := 0,
        imageExtent := { width := 800, height := 600 }, imageArrayLayers := 1,
        imageUsage := 16, imageSharingMode := 0, queueFamilyIndices := [],
        preTransform := 1, compositeAlpha := 1, presentMode := 2, clipped := true,
        oldSwapchain := 0 }
      ∈ (createSwapChain sentinelRebuild
          (cleanupOldSwapChain (buildSteps sentinelRebuild exampleApp).app).app).trace := by
    decide
  have h := C23_round_trip sentinelRebuild sentinelRebuild exampleApp
    (cleanupOldSwapChain (buildSteps sentinelRebuild exampleApp).app).app _ _ rfl
    (by decide) hfirst hsecond
  exact ⟨_, _, hfirst, hsecond, h.1, h.2.1, rfl, rfl⟩

/-! ## C24 -/

/-- C24: when `createCommandBuffers` returns, there is one command buffer per
framebuffer, so `commandBuffers[i]` exists for every `i` below the number of
framebuffers, and after the allocation the calls are, for each command buffer
paired with the framebuffer of its index, in index order: begin; begin render
pass on that framebuffer with render area (0, 0) and `swapChainExtent` and one
clear value; bind `graphicsPipeline`; set viewport to (0, 0, width, height,
depth 0 to 1), the extent converted to float; set scissor to offset (0, 0) and
`swapChainExtent`; draw 3 vertices, 1 instance; end render pass; end. An
extent below 2^24 converts to float unchanged. -/
theorem C24_command_buffers (env : RebuildEnv) (st : App)
    (h : (createCommandBuffers env st).outcome = Outcome.returned) :
    ∃ commandBuffers : List Nat,
      (createCommandBuffers env st).app = { st with commandBuffers := commandBuffers }
        ∧ commandBuffers.length = st.swapChainFramebuffers.length
        ∧ (∀ i, i < st.swapChainFramebuffers.length →
            ∃ commandBuffer framebuffer,
              commandBuffers[i]? = some commandBuffer
                ∧ st.swapChainFramebuffers[i]? = some framebuffer
                ∧ (commandBuffers.zip st.swapChainFramebuffers)[i]?
                    = some (commandBuffer, framebuffer))
        ∧ (createCommandBuffers env st).trace
          = Event.allocateCommandBuffers st.commandPool st.swapChainFramebuffers.length
            :: (commandBuffers.zip st.swapChainFramebuffers).flatMap (fun p =>
              [Event.beginCommandBuffer p.1,
               Event.cmdBeginRenderPass p.1 st.renderPass p.2
                 { offset := { x := 0, y := 0 }, extent := st.swapChainExtent } 1,
               Event.cmdBindPipeline p.1 st.graphicsPipeline,
               Event.cmdSetViewport p.1
                 { x := 0, y := 0,
                   width := floatOfUint32 st.swapChainExtent.width,
                   height := floatOfUint32 st.swapChainExtent.height,
                   minDepth := 0, maxDepth := 1 },
               Event.cmdSetScissor p.1
                 { offset := { x := 0, y := 0 }, extent := st.swapChainExtent },
               Event.cmdDraw p.1 3 1 0 0,
               Event.cmdEndRenderPass p.1,
               Event.endCommandBuffer p.1])
        ∧ (∀ n, n < 16777216 → floatOfUint32 n = n) := by
  obtain ⟨commandBuffers, happ, hlen, htrace⟩ := createCommandBuffers_returned env st h
  refine ⟨commandBuffers, happ, hlen, ?_, ?_, ?_⟩
  · intro i hi
    have hi1 : i < commandBuffers.length := by rw [hlen]; exact hi
    refine ⟨commandBuffers[i], st.swapChainFramebuffers[i], List.getElem?_eq_getElem hi1,
      List.getElem?_eq_getElem hi, ?_⟩
    rw [List.getElem?_zip_eq_some]
    exact ⟨List.getElem?_eq_getElem hi1, List.getElem?_eq_getElem hi⟩
  · rw [htrace]
    rfl
  · intro n hn
    unfold floatOfUint32
    rw [if_pos hn]

/-- C24 on the example application: three framebuffers give three command
buffers, and the first recording is on framebuffer 401 with the extent
800 x 600. -/
theorem C24_command_buffers_witness :
    ∃ rest : List Event,
      (createCommandBuffers exampleRebuild exampleApp).app.commandBuffers = [511, 512, 513]
        ∧ (createCommandBuffers exampleRebuild exampleApp).trace
          = [Event.allocateCommandBuffers 500 3,
              Event.beginCommandBuffer 511,
              Event.cmdBeginRenderPass 511 300 401
                { offset := { x := 0, y := 0 }, extent := { width := 800, height := 600 } } 1,
              Event.cmdBindPipeline 511 320,
              Event.cmdSetViewport 511
                { x := 0, y := 0, width := 800, height := 600, minDepth := 0, maxDepth := 1 },
              Event.cmdSetScissor 511
                { offset := { x := 0, y := 0 }, extent := { width := 800, height := 600 } },
              Event.cmdDraw 511 3 1 0 0,
              Event.cmdEndRenderPass 511,
              Event.endCommandBuffer 511] ++ rest := by
  obtain ⟨commandBuffers, happ, hlen, -, htrace, -⟩ :=
    C24_command_buffers exampleRebuild exampleApp (by decide)
  have hbuffers : commandBuffers = [511, 512, 513] := by
    have h1 : (createCommandBuffers exampleRebuild exampleApp).app.commandBuffers
        = [511, 512, 513] := by decide
    rw [happ] at h1
    exact h1
  subst hbuffers
  exact ⟨_, by rw [happ], by rw [htrace]; rfl⟩

/-! ## C25 -/

theorem Run.andThen_mem {r : Run} {f : App → Run} {e : Event}
    (h : e ∈ (r.andThen f).trace) : e ∈ r.trace ∨ e ∈ (f r.app).trace := by
  by_cases hr : r.outcome = Outcome.returned
  · rw [Run.andThen_returned r f hr, Run.after_trace, List.mem_append] at h
    exact h
  · rw [Run.andThen_stopped r f hr] at h
    exact Or.inl h

theorem createImageViews_loop_no_swapchain (env : RebuildEnv) (images : List Nat) :
    ∀ (i : Nat) (st : App),
      ∀ e ∈ (createImageViews.loop env images i st).trace, e.isSwapchainCreate = false := by
  induction images with
  | nil => intro i st e he; simp [createImageViews.loop] at he
  | cons image rest ih =>
    intro i st e he
    unfold createImageViews.loop at he
    split at he
    · simp only [List.mem_singleton] at he; subst he; rfl
    · simp only [Run.after_trace, List.mem_append, List.mem_singleton] at he
      rcases he with rfl | he
      · rfl
      · exact ih _ _ e he

theorem createRenderPass_no_swapchain (env : RebuildEnv) (st : App) :
    ∀ e ∈ (createRenderPass env st).trace, e.isSwapchainCreate = false := by
  intro e he
  unfold createRenderPass at he
  split at he <;> (simp only [List.mem_singleton] at he; subst he; rfl)

theorem createFramebuffers_loop_no_swapchain (env : RebuildEnv) (views : List Nat) :
    ∀ (i : Nat) (st : App),
      ∀ e ∈ (createFramebuffers.loop env views i st).trace, e.isSwapchainCreate = false := by
  induction views with
  | nil => intro i st e he; simp [createFramebuffers.loop] at he
  | cons view rest ih =>
    intro i st e he
    unfold createFramebuffers.loop at he
    split at he
    · simp only [List.mem_singleton] at he; subst he; rfl
    · simp only [Run.after_trace, List.mem_append, List.mem_singleton] at he
      rcases he with rfl | he
      · rfl
      · exact ih _ _ e he

theorem recordCommands_no_swapchain (st : App) (commandBuffer framebuffer : Nat) :
    ∀ e ∈ Event.beginCommandBuffer commandBuffer :: recordCommands st commandBuffer framebuffer,
      e.isSwapchainCreate = false := by
  intro e he
  simp only [recordCommands, List.mem_cons, List.mem_singleton, List.not_mem_nil,
    or_false] at he
  rcases he with rfl | rfl | rfl | rfl | rfl | rfl | rfl | rfl <;> rfl

theorem createCommandBuffers_loop_no_swapchain (env : RebuildEnv) (st : App)
    (buffers : List (Nat × Nat)) :
    ∀ (i : Nat), ∀ e ∈ (createCommandBuffers.loop env st buffers i).trace,
      e.isSwapchainCreate = false := by
  induction buffers with
  | nil => intro i e he; simp [createCommandBuffers.loop] at he
  | cons buffer rest ih =>
    intro i e he
    obtain ⟨commandBuffer, framebuffer⟩ := buffer
    unfold createCommandBuffers.loop at he
    split at he
    · simp only [List.mem_singleton] at he; subst he; rfl
    · split at he
      · exact recordCommands_no_swapchain st commandBuffer framebuffer e he
      · rw [Run.after_trace, List.mem_append] at he
        rcases he with he | he
        · exact recordCommands_no_swapchain st commandBuffer framebuffer e he
        · exact ih _ e he

theorem createCommandBuffers_no_swapchain (env : RebuildEnv) (st : App) :
    ∀ e ∈ (createCommandBuffers env st).trace, e.isSwapchainCreate = false := by
  intro e he
  unfold createCommandBuffers at he
  split at he
  · simp only [List.mem_singleton] at he; subst he; rfl
  · simp only [Run.after_trace, List.mem_append, List.mem_singleton] at he
    rcases he with rfl | he
    · rfl
    · exact createCommandBuffers_loop_no_swapchain env _ _ _ e he

/-- A `vkCreateSwapchainKHR` call among the calls of the five build steps is
one of `createSwapChain`, the first of them. -/
theorem buildSteps_request (env : RebuildEnv) (st : App) (createInfo : SwapchainCreateInfo)
    (h : Event.createSwapchain createInfo ∈ (buildSteps env st).trace) :
    Event.createSwapchain createInfo ∈ (createSwapChain env st).trace := by
  unfold buildSteps at h
  simp only [Run.andThen_assoc] at h
  rcases Run.andThen_mem h with h | h
  · exact h
  · exfalso
    have hother : ∀ e ∈ ((createImageViews env (createSwapChain env st).app).andThen
        (fun s => (createRenderPass env s).andThen
          (fun s => (createFramebuffers env s).andThen (createCommandBuffers env)))).trace,
        (!e.isSwapchainCreate) = true := by
      refine Run.andThen_calls
        (fun e he => by simp [createImageViews_loop_no_swapchain env _ _ _ e he]) ?_
      intro s
      refine Run.andThen_calls
        (fun e he => by simp [createRenderPass_no_swapchain env _ e he]) ?_
      intro s
      refine Run.andThen_calls
        (fun e he => by simp [createFramebuffers_loop_no_swapchain env _ _ _ e he]) ?_
      intro s e he
      simp [createCommandBuffers_no_swapchain env _ e he]
    have := hother _ h
    simp [Event.isSwapchainCreate] at this

theorem takeWhile_append_left {p : Event → Bool} (l r : List Event)
    (hl : ∀ e ∈ l, p e = true) : (l ++ r).takeWhile p = l ++ r.takeWhile p := by
  induction l with
  | nil => rfl
  | cons a l ih =>
    have ha : p a = true := hl a (List.mem_cons_self _ _)
    have hrest : ∀ e ∈ l, p e = true := fun e he => hl e (List.mem_cons_of_mem _ he)
    simp [List.takeWhile, ha, ih hrest]

/-- A rebuild on a window that never comes to a nonzero size: the entry, the
reads and the event waits, and no end. -/
theorem recreateSwapChain_blocked (env : RebuildEnv) (st : App)
    (hk : leadingZeros st.window.sizes = st.window.sizes.length
      ∧ zeroExtent st.window.lastSize = true) :
    (recreateSwapChain env st).outcome = Outcome.blocked
      ∧ (recreateSwapChain env st).trace
        = Event.recreateSwapChain :: Event.getFramebufferSize
            :: polls (st.window.sizes.length - 1) := by
  obtain ⟨h1, h2⟩ := (recreateSwapChain_wait st).2 hk
  have hstop : (recreateSwapChain.wait st.window.getFramebufferSize.2.sizes
      st.window.getFramebufferSize.1.1 st.window.getFramebufferSize.1.2
      { st with window := st.window.getFramebufferSize.2 }).outcome ≠ Outcome.returned := by
    rw [h1]; exact fun h => by cases h
  rw [recreateSwapChain_eq, Run.andThen_stopped _ _ hstop]
  exact ⟨h1, by rw [Run.after_trace, h2]; rfl⟩

theorem size_cases (st : App) :
    (leadingZeros st.window.sizes < st.window.sizes.length
        ∨ zeroExtent st.window.lastSize = false)
      ∨ (leadingZeros st.window.sizes = st.window.sizes.length
        ∧ zeroExtent st.window.lastSize = true) := by
  have hle := leadingZeros_le st.window.sizes
  cases hz : zeroExtent st.window.lastSize with
  | false => exact Or.inl (Or.inr rfl)
  | true =>
    by_cases hlt : leadingZeros st.window.sizes < st.window.sizes.length
    · exact Or.inl (Or.inl hlt)
    · exact Or.inr ⟨by omega, rfl⟩

/-- C25 evaluated against the claim: the example application holds the
swapchain 100; the request of its rebuild carries the null handle and not
100 as old swapchain; and on a device whose `vkCreateSwapchainKHR` fails, the
swapchain 100 is destroyed all the same and the rebuild ends with the error of
`createSwapChain`. -/
theorem C25_counterexample :
    exampleApp.swapChain = 100
      ∧ Event.createSwapchain
          { minImageCount := 3, imageFormat := 44, imageColorSpace := 0,
            imageExtent := { width := 1024, height := 768 }, imageArrayLayers := 1,
            imageUsage := 16, imageSharingMode := 0, queueFamilyIndices := [],
            preTransform := 1, compositeAlpha := 1, presentMode := 2, clipped := true,
            oldSwapchain := VK_NULL_HANDLE }
          ∈ (recreateSwapChain exampleRebuild exampleApp).trace
      ∧ Event.destroySwapchain 100 ∈ (recreateSwapChain failingRebuild exampleApp).trace
      ∧ (recreateSwapChain failingRebuild exampleApp).outcome
          = Outcome.threw Error.createSwapChain := by
  decide

/-- C25 as the code has it: every swapchain creation request issued in a
rebuild carries the null handle as old swapchain, and the swapchain that the
object held was destroyed before the request was issued, whether the creation
then succeeds or fails. -/
theorem C25_old_swapchain (env : RebuildEnv) (st : App) (createInfo : SwapchainCreateInfo)
    (h : Event.createSwapchain createInfo ∈ (recreateSwapChain env st).trace) :
    createInfo.oldSwapchain = VK_NULL_HANDLE
      ∧ Event.destroySwapchain st.swapChain
          ∈ beforeSwapchainCreate (recreateSwapChain env st).trace := by
  rcases size_cases st with hsize | hk
  · obtain ⟨window, flag, hrun⟩ := recreateSwapChain_run env st hsize
    have hpre : ∀ e ∈ (Event.recreateSwapChain :: Event.getFramebufferSize
          :: polls (leadingZeros st.window.sizes))
        ++ Event.deviceWaitIdle
          :: (st.swapChainFramebuffers.map Event.destroyFramebuffer
            ++ [Event.freeCommandBuffers st.commandPool st.commandBuffers,
                Event.destroyRenderPass st.renderPass]
            ++ st.swapChainImageViews.map Event.destroyImageView)
        ++ [Event.destroySwapchain st.swapChain], e.isSwapchainCreate = false := by
      intro e he
      simp only [List.mem_append, List.mem_cons, List.mem_map, List.mem_singleton,
        List.not_mem_nil, or_false] at he
      rcases he with ((rfl | rfl | he) | rfl | (⟨_, _, rfl⟩ | rfl | rfl) | ⟨_, _, rfl⟩) | rfl
      · rfl
      · rfl
      · rcases polls_mem he with rfl | rfl <;> rfl
      · rfl
      · rfl
      · rfl
      · rfl
      · rfl
      · rfl
    rw [hrun, Run.after_trace] at h ⊢
    constructor
    · rcases List.mem_append.1 h with h | h
      · have := hpre _ h
        simp [Event.isSwapchainCreate] at this
      · obtain ⟨_, _, _, _, _, _, hinfo, _, _⟩ :=
          createSwapChain_request env _ createInfo (buildSteps_request env _ createInfo h)
        rw [hinfo]
    · unfold beforeSwapchainCreate
      rw [takeWhile_append_left _ _ (fun e he => by simp [hpre e he])]
      exact List.mem_append_left _ (List.mem_append_right _ (List.mem_singleton_self _))
  · obtain ⟨-, htrace⟩ := recreateSwapChain_blocked env st hk
    rw [htrace] at h
    simp only [List.mem_cons, reduceCtorEq, false_or] at h
    rcases polls_mem h with h | h <;> cases h

/-- C25 on the example application: its rebuild requests a swapchain with the
null handle as old swapchain after `vkDestroySwapchainKHR` of swapchain 100. -/
theorem C25_old_swapchain_witness :
    Event.destroySwapchain 100
      ∈ beforeSwapchainCreate (recreateSwapChain exampleRebuild exampleApp).trace :=
  (C25_old_swapchain exampleRebuild exampleApp
    { minImageCount := 3, imageFormat := 44, imageColorSpace := 0,
      imageExtent := { width := 1024, height := 768 }, imageArrayLayers := 1,
      imageUsage := 16, imageSharingMode := 0, queueFamilyIndices := [],
      preTransform := 1, compositeAlpha := 1, presentMode := 2, clipped := true,
      oldSwapchain := VK_NULL_HANDLE } (by decide)).2

/-! ## C27 -/

theorem glfwWaitEvents_flag (st : App) (h : st.framebufferResized = true) :
    (glfwWaitEvents st).framebufferResized = true := by
  unfold glfwWaitEvents
  split
  · exact h
  · split
    · rfl
    · exact h

theorem wait_flag (sizes : List (Int × Int)) :
    ∀ (width height : Int) (st : App), st.framebufferResized = true →
      (recreateSwapChain.wait sizes width height st).app.framebufferResized = true := by
  induction sizes with
  | nil =>
    intro width height st h
    unfold recreateSwapChain.wait
    split
    · split
      · exact h
      · exact glfwWaitEvents_flag st h
    · exact h
  | cons size rest ih =>
    intro width height st h
    unfold recreateSwapChain.wait
    split
    · rw [Run.after_app]
      exact ih _ _ _ (glfwWaitEvents_flag _ h)
    · exact h

theorem Run.andThen_flag {r : Run} {f : App → Run} {flag : Bool}
    (h : r.app.framebufferResized = flag)
    (hf : ∀ s, (f s).app.framebufferResized = s.framebufferResized) :
    (r.andThen f).app.framebufferResized = flag := by
  by_cases hr : r.outcome = Outcome.returned
  · rw [Run.andThen_returned r f hr, Run.after_app, hf]
    exact h
  · rw [Run.andThen_stopped r f hr]
    exact h

theorem createSwapChain_flag (env : RebuildEnv) (st : App) :
    (createSwapChain env st).app.framebufferResized = st.framebufferResized := by
  unfold createSwapChain
  dsimp only
  split
  · rfl
  · split
    · split <;> rfl
    · rfl

theorem createImageViews_loop_flag (env : RebuildEnv) (images : List Nat) :
    ∀ (i : Nat) (st : App),
      (createImageViews.loop env images i st).app.framebufferResized
        = st.framebufferResized := by
  induction images with
  | nil => intro i st; rfl
  | cons image rest ih =>
    intro i st
    unfold createImageViews.loop
    split
    · rfl
    · exact ih _ _

theorem createRenderPass_flag (env : RebuildEnv) (st : App) :
    (createRenderPass env st).app.framebufferResized = st.framebufferResized := by
  unfold createRenderPass
  split <;> rfl

theorem createFramebuffers_loop_flag (env : RebuildEnv) (views : List Nat) :
    ∀ (i : Nat) (st : App),
      (createFramebuffers.loop env views i st).app.framebufferResized
        = st.framebufferResized := by
  induction views with
  | nil => intro i st; rfl
  | cons view rest ih =>
    intro i st
    unfold createFramebuffers.loop
    split
    · rfl
    · exact ih _ _

theorem createCommandBuffers_flag (env : RebuildEnv) (st : App) :
    (createCommandBuffers env st).app.framebufferResized = st.framebufferResized := by
  unfold createCommandBuffers
  split
  · rfl
  · rw [Run.after_app, createCommandBuffers_loop_app]

theorem buildSteps_flag (env : RebuildEnv) (st : App) :
    (buildSteps env st).app.framebufferResized = st.framebufferResized := by
  unfold buildSteps
  refine Run.andThen_flag ?_ (createCommandBuffers_flag env)
  refine Run.andThen_flag ?_ (fun s => createFramebuffers_loop_flag env _ _ _)
  refine Run.andThen_flag ?_ (createRenderPass_flag env)
  exact Run.andThen_flag (createSwapChain_flag env st)
    (fun s => createImageViews_loop_flag env _ _ _)

/-- A rebuild never clears the resized flag: a flag that is set stays set. -/
theorem recreateSwapChain_flag (env : RebuildEnv) (st : App)
    (h : st.framebufferResized = true) :
    (recreateSwapChain env st).app.framebufferResized = true := by
  rw [recreateSwapChain_eq, Run.after_app]
  refine Run.andThen_flag (wait_flag _ _ _ _ h) ?_
  intro s
  rw [Run.after_app]
  exact buildSteps_flag env s

/-- C27: a frame whose acquire returns out-of-date while the resized flag is
set starts exactly one rebuild and leaves the flag set; the next frame that
reaches its present, with a successful acquire and submission, starts exactly
one rebuild again, after its present, whatever the present returns, success
included. -/
theorem C27_early_return_keeps_flag (env next : FrameEnv) (st : App) (hring : RingOk st)
    (hflag : st.framebufferResized = true)
    (hacq : env.acquireResult = VK_ERROR_OUT_OF_DATE_KHR)
    (hidx2 : IndexOk next (drawFrame env st).app)
    (hacq2 : next.acquireResult = VK_SUCCESS)
    (hsub2 : next.submitResult = VK_SUCCESS) :
    rebuildCount (drawFrame env st).trace = 1
      ∧ (drawFrame env st).app.framebufferResized = true
      ∧ rebuildCount (drawFrame next (drawFrame env st).app).trace = 1
      ∧ Event.recreateSwapChain ∈ afterPresent (drawFrame next (drawFrame env st).app).trace := by
  obtain ⟨fence, imageAvailable, renderFinished, hf, ha, hr, -, -⟩ := hring.slot
  have hrun : drawFrame env st
      = Run.after [Event.waitForFences fence,
          Event.acquireNextImage st.swapChain imageAvailable]
          (recreateSwapChain env.rebuild st) := by
    simp only [drawFrame, hf, ha, hacq, if_true]
  have hset : (drawFrame env st).app.framebufferResized = true := by
    rw [hrun, Run.after_app]
    exact recreateSwapChain_flag env.rebuild st hflag
  have hone : rebuildCount (drawFrame env st).trace = 1 := by
    rw [hrun, Run.after_trace, rebuildCount_append, rebuildCount_recreateSwapChain]
    rfl
  have hring2 := drawFrame_ringOk env st hring
  have hnext := drawFrame_rebuild_after_present next (drawFrame env st).app hring2 hidx2
    (Or.inl hacq2) hsub2 (Or.inr (Or.inr hset))
  exact ⟨hone, hset, hnext.2.2.1, hnext.2.2.2.1⟩

/-- C27 on the example application after the resize callback: a frame with a
stale acquire rebuilds once and leaves the flag set, and the successful frame
after it rebuilds once more. -/
theorem C27_early_return_keeps_flag_witness :
    (exampleFrame 0).presentResult = VK_SUCCESS
      ∧ rebuildCount (drawFrame staleFrame resizedApp).trace = 1
      ∧ (drawFrame staleFrame resizedApp).app.framebufferResized = true
      ∧ rebuildCount (drawFrame (exampleFrame 0)
          (drawFrame staleFrame resizedApp).app).trace = 1
      ∧ Event.recreateSwapChain
          ∈ afterPresent (drawFrame (exampleFrame 0)
              (drawFrame staleFrame resizedApp).app).trace :=
  ⟨rfl, C27_early_return_keeps_flag staleFrame (exampleFrame 0) resizedApp
    (by unfold RingOk; decide) rfl rfl (by unfold IndexOk; decide) rfl rfl⟩

/-! ## C29 -/

/-- The loop of `findQueueFamilies` from position `i` on, entered with the
indices found so far. -/
theorem findQueueFamilies_loop_spec (queueFamilies : List QueueFamily) :
    ∀ (i : Nat) (indices : QueueFamilyIndices),
      (findQueueFamilies.loop queueFamilies i indices).1.graphicsFamily.isSome
          = (indices.graphicsFamily.isSome || queueFamilies.any QueueFamily.hasGraphics)
        ∧ (findQueueFamilies.loop queueFamilies i indices).1.presentFamily.isSome
          = (indices.presentFamily.isSome || queueFamilies.any (fun q => q.presentSupport))
        ∧ (∀ g, (findQueueFamilies.loop queueFamilies i indices).1.graphicsFamily = some g →
            indices.graphicsFamily = some g
              ∨ ∃ k q, g = i + k ∧ queueFamilies[k]? = some q ∧ q.hasGraphics = true)
        ∧ (∀ p, (findQueueFamilies.loop queueFamilies i indices).1.presentFamily = some p →
            indices.presentFamily = some p
              ∨ ∃ k q, p = i + k ∧ queueFamilies[k]? = some q ∧ q.presentSupport = true)
        ∧ ∃ n, n ≤ queueFamilies.length
            ∧ (findQueueFamilies.loop queueFamilies i indices).2
              = (List.range n).map (fun k => Event.getSurfaceSupport (i + k))
            ∧ (∀ j, j + 1 < n →
                ((indices.graphicsFamily.isSome
                    || (queueFamilies.take (j + 1)).any QueueFamily.hasGraphics)
                  && (indices.presentFamily.isSome
                    || (queueFamilies.take (j + 1)).any (fun q => q.presentSupport)))
                  = false)
            ∧ ((findQueueFamilies.loop queueFamilies i indices).1.isComplete = false →
                n = queueFamilies.length) := by
  induction queueFamilies with
  | nil =>
    intro i indices
    refine ⟨by simp [findQueueFamilies.loop], by simp [findQueueFamilies.loop],
      fun g hg => Or.inl hg, fun p hp => Or.inl hp, 0, Nat.le_refl _, rfl, ?_, fun _ => rfl⟩
    intro j hj
    omega
  | cons queueFamily rest ih =>
    intro i indices
    obtain ⟨graphics, present⟩ := indices
    have hstep : ∀ (indices2 : QueueFamilyIndices),
        indices2.graphicsFamily
            = (if queueFamily.hasGraphics = true then some i else graphics) →
        indices2.presentFamily
            = (if queueFamily.presentSupport = true then some i else present) →
        findQueueFamilies.loop (queueFamily :: rest) i
            { graphicsFamily := graphics, presentFamily := present }
          = if indices2.isComplete = true then (indices2, [Event.getSurfaceSupport i])
            else ((findQueueFamilies.loop rest (i + 1) indices2).1,
              Event.getSurfaceSupport i :: (findQueueFamilies.loop rest (i + 1) indices2).2) := by
      intro indices2 hg hp
      obtain ⟨g2, p2⟩ := indices2
      simp only at hg hp
      subst hg hp
      simp only [findQueueFamilies.loop, QueueFamily.hasGraphics, decide_eq_true_eq]
      by_cases h1 : queueFamily.queueFlags &&& VK_QUEUE_GRAPHICS_BIT ≠ 0 <;>
        by_cases h2 : queueFamily.presentSupport = true <;> simp [h1, h2]
    obtain ⟨indices2, hgraphics, hpresent⟩ : ∃ indices2 : QueueFamilyIndices,
        indices2.graphicsFamily
            = (if queueFamily.hasGraphics = true then some i else graphics)
          ∧ indices2.presentFamily
            = (if queueFamily.presentSupport = true then some i else present) :=
      ⟨⟨_, _⟩, rfl, rfl⟩
    have hrun := hstep indices2 hgraphics hpresent
    have hg2 : indices2.graphicsFamily.isSome
        = (graphics.isSome || queueFamily.hasGraphics) := by
      rw [hgraphics]
      cases hq : queueFamily.hasGraphics <;> simp
    have hp2 : indices2.presentFamily.isSome
        = (present.isSome || queueFamily.presentSupport) := by
      rw [hpresent]
      cases hq : queueFamily.presentSupport <;> simp
    have hgval : ∀ g, indices2.graphicsFamily = some g →
        graphics = some g ∨ (g = i ∧ queueFamily.hasGraphics = true) := by
      intro g hg
      rw [hgraphics] at hg
      cases hq : queueFamily.hasGraphics with
      | true => rw [hq] at hg; simp at hg; exact Or.inr ⟨hg.symm, rfl⟩
      | false => rw [hq] at hg; simp at hg; exact Or.inl hg
    have hpval : ∀ p, indices2.presentFamily = some p →
        present = some p ∨ (p = i ∧ queueFamily.presentSupport = true) := by
      intro p hp
      rw [hpresent] at hp
      cases hq : queueFamily.presentSupport with
      | true => rw [hq] at hp; simp at hp; exact Or.inr ⟨hp.symm, rfl⟩
      | false => rw [hq] at hp; simp at hp; exact Or.inl hp
    rw [hrun]
    by_cases hcomplete : indices2.isComplete = true
    · rw [if_pos hcomplete]
      have hboth := hcomplete
      unfold QueueFamilyIndices.isComplete at hboth
      rw [Bool.and_eq_true] at hboth
      refine ⟨?_, ?_, ?_, ?_, 1, by simp, by simp [List.range_succ], ?_, ?_⟩
      · have h := hboth.1
        rw [hg2] at h
        simp only [hboth.1, List.any_cons]
        rw [← Bool.or_assoc, h, Bool.true_or]
      · have h := hboth.2
        rw [hp2] at h
        simp only [hboth.2, List.any_cons]
        rw [← Bool.or_assoc, h, Bool.true_or]
      · intro g hg
        rcases hgval g hg with h | ⟨h, hq⟩
        · exact Or.inl h
        · exact Or.inr ⟨0, queueFamily, by simpa using h, List.getElem?_cons_zero, hq⟩
      · intro p hp
        rcases hpval p hp with h | ⟨h, hq⟩
        · exact Or.inl h
        · exact Or.inr ⟨0, queueFamily, by simpa using h, List.getElem?_cons_zero, hq⟩
      · intro j hj
        omega
      · intro hnot
        rw [hcomplete] at hnot
        cases hnot
    · rw [if_neg hcomplete]
      obtain ⟨ih1, ih2, ih3, ih4, n, hn, htrace, horder, hfull⟩ := ih (i + 1) indices2
      refine ⟨?_, ?_, ?_, ?_, n + 1, by simpa using hn, ?_, ?_, ?_⟩
      · rw [ih1, hg2, List.any_cons, Bool.or_assoc]
      · rw [ih2, hp2, List.any_cons, Bool.or_assoc]
      · intro g hg
        rcases ih3 g hg with h | ⟨k, q, hk, hq, hgr⟩
        · rcases hgval g h with h | ⟨h, hq⟩
          · exact Or.inl h
          · exact Or.inr ⟨0, queueFamily, by simpa using h, List.getElem?_cons_zero, hq⟩
        · exact Or.inr ⟨k + 1, q, by omega, by simpa using hq, hgr⟩
      · intro p hp
        rcases ih4 p hp with h | ⟨k, q, hk, hq, hpr⟩
        · rcases hpval p h with h | ⟨h, hq⟩
          · exact Or.inl h
          · exact Or.inr ⟨0, queueFamily, by simpa using h, List.getElem?_cons_zero, hq⟩
        · exact Or.inr ⟨k + 1, q, by omega, by simpa using hq, hpr⟩
      · simp only [htrace, List.range_succ_eq_map, List.map_cons, List.map_map, Nat.add_zero]
        congr 1
        apply List.map_congr_left
        intro k _
        simp only [Function.comp_apply]
        congr 1
        omega
      · intro j hj
        cases j with
        | zero =>
          simp only [Nat.zero_add, List.take_succ_cons, List.take_zero, List.any_cons,
            List.any_nil, Bool.or_false]
          rw [← hg2, ← hp2]
          simpa [QueueFamilyIndices.isComplete] using hcomplete
        | succ j =>
          have h := horder j (by omega)
          rw [hg2, hp2] at h
          simpa only [List.take_succ_cons, List.any_cons, Bool.or_assoc] using h
      · intro hnot
        rw [List.length_cons, hfull hnot]

/-- C29: for every list of queue families, `findQueueFamilies` returns
complete indices if and only if some family has the graphics bit and some
family supports presentation; a `graphicsFamily` that is set is the index, in
range, of a family with the graphics bit, and a `presentFamily` that is set is
the index, in range, of a family that supports presentation; the families
asked for their present support are those at the positions 0 to `n - 1`, in
order, where at no position before `n - 1` both a graphics family and a
presenting family had been seen, and where `n` is the whole list when the
indices are incomplete. -/
theorem C29_queue_families (queueFamilies : List QueueFamily) :
    ((findQueueFamilies queueFamilies).1.isComplete = true ↔
        (∃ q ∈ queueFamilies, q.hasGraphics = true)
          ∧ (∃ q ∈ queueFamilies, q.presentSupport = true))
      ∧ (∀ g, (findQueueFamilies queueFamilies).1.graphicsFamily = some g →
          ∃ q, queueFamilies[g]? = some q ∧ q.hasGraphics = true)
      ∧ (∀ p, (findQueueFamilies queueFamilies).1.presentFamily = some p →
          ∃ q, queueFamilies[p]? = some q ∧ q.presentSupport = true)
      ∧ ∃ n, n ≤ queueFamilies.length
          ∧ (findQueueFamilies queueFamilies).2
            = Event.getQueueFamilyProperties :: Event.getQueueFamilyProperties
                :: (List.range n).map Event.getSurfaceSupport
          ∧ (∀ j, j + 1 < n → bothFoundBy queueFamilies j = false)
          ∧ ((findQueueFamilies queueFamilies).1.isComplete = false →
              n = queueFamilies.length) := by
  obtain ⟨h1, h2, h3, h4, n, hn, htrace, horder, hfull⟩ :=
    findQueueFamilies_loop_spec queueFamilies 0
      { graphicsFamily := none, presentFamily := none }
  simp only [Option.isSome_none, Bool.false_or, Nat.zero_add] at h1 h2 h3 h4 htrace horder
  refine ⟨?_, ?_, ?_, n, hn, ?_, ?_, hfull⟩
  · unfold findQueueFamilies QueueFamilyIndices.isComplete
    simp only [Bool.and_eq_true, h1, h2, List.any_eq_true]
  · intro g hg
    rcases h3 g hg with h | ⟨k, q, hk, hq, hgr⟩
    · cases h
    · exact ⟨q, by rw [hk]; exact hq, hgr⟩
  · intro p hp
    rcases h4 p hp with h | ⟨k, q, hk, hq, hpr⟩
    · cases h
    · exact ⟨q, by rw [hk]; exact hq, hpr⟩
  · unfold findQueueFamilies
    simp only [htrace]
  · intro j hj
    exact horder j hj

/-- C29 on three families, the third with both capabilities: graphics is
found at 0 and presentation at 1, and the third family is not asked. -/
theorem C29_queue_families_witness :
    (findQueueFamilies threeFamilies).1 = { graphicsFamily := some 0, presentFamily := some 1 }
      ∧ (findQueueFamilies threeFamilies).2
        = [Event.getQueueFamilyProperties, Event.getQueueFamilyProperties,
            Event.getSurfaceSupport 0, Event.getSurfaceSupport 1]
      ∧ ∃ q, threeFamilies[0]? = some q ∧ q.hasGraphics = true :=
  ⟨by decide, by decide, (C29_queue_families threeFamilies).2.1 0 (by decide)⟩

/-! ## C28 -/

theorem erase_all_mem (availableExtensions : List String) :
    ∀ (required : List String) (name : String),
      name ∈ availableExtensions.foldl
          (fun required extensionName =>
            required.filter (fun name => decide (name ≠ extensionName))) required
        ↔ name ∈ required ∧ name ∉ availableExtensions := by
  induction availableExtensions with
  | nil => intro required name; simp
  | cons extensionName rest ih =>
    intro required name
    rw [List.foldl_cons, ih]
    simp only [List.mem_filter, decide_eq_true_eq, List.mem_cons, not_or]
    tauto

theorem checkDeviceExtensionSupport_iff (availableExtensions : List String) :
    (checkDeviceExtensionSupport availableExtensions).1 = true
      ↔ ∀ name ∈ deviceExtensions, name ∈ availableExtensions := by
  unfold checkDeviceExtensionSupport
  simp only [List.isEmpty_iff, List.eq_nil_iff_forall_not_mem, erase_all_mem, not_and,
    not_not]

theorem isDeviceSuitable_iff (device : PhysicalDevice) :
    (isDeviceSuitable device).1 = true
      ↔ (findQueueFamilies device.queueFamilies).1.isComplete = true
        ∧ (∀ name ∈ deviceExtensions, name ∈ device.availableExtensions)
        ∧ device.support.formats ≠ [] ∧ device.support.presentModes ≠ [] := by
  have hiff := checkDeviceExtensionSupport_iff device.availableExtensions
  unfold isDeviceSuitable
  dsimp only
  by_cases hext : (checkDeviceExtensionSupport device.availableExtensions).1 = true
  · have hall := hiff.1 hext
    simp only [hext, if_true, Bool.and_true, Bool.and_eq_true, Bool.not_eq_eq_eq_not,
      Bool.not_true, List.isEmpty_eq_false, ne_eq]
    constructor
    · rintro ⟨h1, h2, h3⟩
      exact ⟨h1, hall, h2, h3⟩
    · rintro ⟨h1, -, h2, h3⟩
      exact ⟨h1, h2, h3⟩
  · have hnot : ¬ ∀ name ∈ deviceExtensions, name ∈ device.availableExtensions :=
      fun h => hext (hiff.2 h)
    simp only [hext, Bool.and_false, Bool.false_and, Bool.false_eq_true, if_false, false_iff,
      not_and]
    intro _ hall
    exact absurd hall hnot

theorem pickPhysicalDevice_loop_some (devices : List PhysicalDevice) :
    (∃ d ∈ devices, (isDeviceSuitable d).1 = true) →
      ∃ pre d post, devices = pre ++ d :: post
        ∧ (pickPhysicalDevice.loop devices).1 = some d
        ∧ (isDeviceSuitable d).1 = true
        ∧ ∀ x ∈ pre, (isDeviceSuitable x).1 = false := by
  induction devices with
  | nil => rintro ⟨d, hd, -⟩; cases hd
  | cons device rest ih =>
    rintro ⟨d, hd, hsuitable⟩
    unfold pickPhysicalDevice.loop
    by_cases hfirst : (isDeviceSuitable device).1 = true
    · rw [if_pos hfirst]
      exact ⟨[], device, rest, rfl, rfl, hfirst, fun x hx => by cases hx⟩
    · rw [if_neg hfirst]
      have hrest : ∃ d ∈ rest, (isDeviceSuitable d).1 = true := by
        rcases List.mem_cons.1 hd with rfl | hd
        · exact absurd hsuitable hfirst
        · exact ⟨d, hd, hsuitable⟩
      obtain ⟨pre, d1, post, hsplit, hpick, hd1, hpre⟩ := ih hrest
      refine ⟨device :: pre, d1, post, by rw [hsplit]; rfl, hpick, hd1, ?_⟩
      intro x hx
      rcases List.mem_cons.1 hx with rfl | hx
      · simpa using hfirst
      · exact hpre x hx

theorem pickPhysicalDevice_loop_none (devices : List PhysicalDevice)
    (h : ∀ d ∈ devices, (isDeviceSuitable d).1 = false) :
    (pickPhysicalDevice.loop devices).1 = none := by
  induction devices with
  | nil => rfl
  | cons device rest ih =>
    unfold pickPhysicalDevice.loop
    rw [if_neg (by simp [h device (List.mem_cons_self _ _)])]
    exact ih (fun d hd => h d (List.mem_cons_of_mem _ hd))

/-- C28: of the devices that `vkEnumeratePhysicalDevices` lists, whose
handles are not null, `pickPhysicalDevice` picks the first for which
`isDeviceSuitable` holds, and it throws exactly when none is suitable: the
GPU error when none is listed, the suitability error otherwise.
`isDeviceSuitable` holds exactly when the queue family indices are complete,
every required device extension is among the available ones and the format
list and the present-mode list are not empty; so on the picked device
`chooseSwapSurfaceFormat` has a result and both family indices have a
value. -/
theorem C28_pick_physical_device (devices : List PhysicalDevice)
    (hhandles : ∀ d ∈ devices, d.handle ≠ VK_NULL_HANDLE) :
    ((∃ d ∈ devices, (isDeviceSuitable d).1 = true) →
        ∃ pre d post, devices = pre ++ d :: post
          ∧ (pickPhysicalDevice devices).1 = Picked.device d
          ∧ (isDeviceSuitable d).1 = true
          ∧ ∀ x ∈ pre, (isDeviceSuitable x).1 = false)
      ∧ ((∀ d ∈ devices, (isDeviceSuitable d).1 = false) →
          (pickPhysicalDevice devices).1
            = Picked.threw (if devices = [] then Error.noVulkanGpu else Error.noSuitableGpu))
      ∧ (∀ d : PhysicalDevice, (isDeviceSuitable d).1 = true
          ↔ (findQueueFamilies d.queueFamilies).1.isComplete = true
            ∧ (∀ name ∈ deviceExtensions, name ∈ d.availableExtensions)
            ∧ d.support.formats ≠ [] ∧ d.support.presentModes ≠ [])
      ∧ (∀ d : PhysicalDevice, (pickPhysicalDevice devices).1 = Picked.device d →
          (isDeviceSuitable d).1 = true
            ∧ (∃ surfaceFormat, chooseSwapSurfaceFormat d.support.formats = some surfaceFormat)
            ∧ ∃ graphicsFamily presentFamily,
                (findQueueFamilies d.queueFamilies).1.graphicsFamily = some graphicsFamily
                  ∧ (findQueueFamilies d.queueFamilies).1.presentFamily
                      = some presentFamily) := by
  have hpicked : ∀ d : PhysicalDevice, (pickPhysicalDevice devices).1 = Picked.device d →
      d ∈ devices ∧ (isDeviceSuitable d).1 = true := by
    intro d hd
    unfold pickPhysicalDevice at hd
    split at hd
    · cases hd
    · dsimp only at hd
      split at hd
      · cases hd
      · next device hloop =>
        split at hd
        · cases hd
        · cases hd
          by_cases hex : ∃ x ∈ devices, (isDeviceSuitable x).1 = true
          · obtain ⟨pre, d1, post, hsplit, hpick, hd1, -⟩ :=
              pickPhysicalDevice_loop_some devices hex
            rw [hloop] at hpick
            cases hpick
            exact ⟨by rw [hsplit]; simp, hd1⟩
          · have hnone := pickPhysicalDevice_loop_none devices (fun x hx => by
              by_contra hx1
              exact hex ⟨x, hx, by simpa using hx1⟩)
            rw [hloop] at hnone
            cases hnone
  refine ⟨?_, ?_, isDeviceSuitable_iff, ?_⟩
  · intro hex
    obtain ⟨pre, d, post, hsplit, hpick, hd, hpre⟩ := pickPhysicalDevice_loop_some devices hex
    refine ⟨pre, d, post, hsplit, ?_, hd, hpre⟩
    have hne : ¬ devices.length = 0 := by rw [hsplit]; simp
    have hhandle : ¬ d.handle = VK_NULL_HANDLE := hhandles d (by rw [hsplit]; simp)
    unfold pickPhysicalDevice
    rw [if_neg hne]
    simp only [hpick, if_neg hhandle]
  · intro hnone
    unfold pickPhysicalDevice
    by_cases hempty : devices = []
    · subst hempty
      rfl
    · have hne : ¬ devices.length = 0 := by
        intro h0
        exact hempty (List.length_eq_zero.1 h0)
      rw [if_neg hne, if_neg hempty]
      simp only [pickPhysicalDevice_loop_none devices hnone]
  · intro d hd
    obtain ⟨-, hsuitable⟩ := hpicked d hd
    obtain ⟨hcomplete, -, hformats, -⟩ := (isDeviceSuitable_iff d).1 hsuitable
    refine ⟨hsuitable, ?_, ?_⟩
    · obtain ⟨first, rest, hlist⟩ := List.exists_cons_of_ne_nil hformats
      unfold chooseSwapSurfaceFormat
      rw [hlist]
      cases chooseSwapSurfaceFormat.search (first :: rest) with
      | some found => exact ⟨found, rfl⟩
      | none => exact ⟨first, by simp⟩
    · unfold QueueFamilyIndices.isComplete at hcomplete
      rw [Bool.and_eq_true, Option.isSome_iff_exists, Option.isSome_iff_exists] at hcomplete
      obtain ⟨⟨g, hg⟩, ⟨p, hp⟩⟩ := hcomplete
      exact ⟨g, p, hg, hp⟩

/-- C28 on two devices, the first without the swapchain extension: the
second is picked. -/
theorem C28_pick_physical_device_witness :
    (∀ d ∈ [bareDevice, exampleDevice], d.handle ≠ VK_NULL_HANDLE)
      ∧ (isDeviceSuitable bareDevice).1 = false
      ∧ ∃ pre d post, [bareDevice, exampleDevice] = pre ++ d :: post
          ∧ (pickPhysicalDevice [bareDevice, exampleDevice]).1 = Picked.device d
          ∧ (isDeviceSuitable d).1 = true
          ∧ ∀ x ∈ pre, (isDeviceSuitable x).1 = false := by
  have hhandles : ∀ d ∈ [bareDevice, exampleDevice], d.handle ≠ VK_NULL_HANDLE := by decide
  exact ⟨hhandles, by decide,
    (C28_pick_physical_device [bareDevice, exampleDevice] hhandles).1
      ⟨exampleDevice, by simp, by decide⟩⟩

/-! ## C26 -/

theorem destroysDrained_append (t u : List Event) :
    ∀ before : Bool,
      destroysDrained before (t ++ u)
          = (destroysDrained before t && destroysDrained (pendingAfter before t) u)
        ∧ pendingAfter before (t ++ u) = pendingAfter (pendingAfter before t) u := by
  induction t with
  | nil => intro before; simp [destroysDrained, pendingAfter]
  | cons e t ih =>
    intro before
    have h := ih (e.pending before)
    constructor
    · show (!(e.isDestroy && before) && destroysDrained (e.pending before) (t ++ u))
        = ((!(e.isDestroy && before) && destroysDrained (e.pending before) t)
            && destroysDrained (pendingAfter (e.pending before) t) u)
      rw [h.1, Bool.and_assoc]
    · exact h.2

theorem destroysDrained_no_submit (t : List Event) (h : ∀ e ∈ t, e.isSubmit = false) :
    destroysDrained false t = true ∧ pendingAfter false t = false := by
  induction t with
  | nil => exact ⟨rfl, rfl⟩
  | cons e t ih =>
    have he : e.isSubmit = false := h e (List.mem_cons_self _ _)
    have hstep : e.pending false = false := by
      unfold Event.pending
      rw [he]
      simp
    simp only [destroysDrained, pendingAfter, hstep, Bool.and_false, Bool.not_false,
      Bool.true_and]
    exact ih (fun x hx => h x (List.mem_cons_of_mem _ hx))

theorem destroysDrained_no_destroy (t : List Event) (h : ∀ e ∈ t, e.isDestroy = false) :
    ∀ before : Bool, destroysDrained before t = true := by
  induction t with
  | nil => intro before; rfl
  | cons e t ih =>
    intro before
    simp only [destroysDrained, h e (List.mem_cons_self _ _), Bool.false_and, Bool.not_false,
      Bool.true_and]
    exact ih (fun x hx => h x (List.mem_cons_of_mem _ hx)) _

theorem isBuildStep_no_submit {e : Event} (h : e.isBuildStep = true) :
    e.isSubmit = false ∧ e.isSetupStep = true ∧ e.isFrameCall = false
      ∧ e ≠ Event.drawFrame := by
  cases e <;> simp_all [Event.isBuildStep, Event.isSubmit, Event.isSetupStep,
    Event.isFrameCall]

/-- In the calls of a rebuild no destroy call finds a submission pending,
whatever came before the rebuild. -/
theorem recreateSwapChain_drained (env : RebuildEnv) (st : App) :
    ∀ before : Bool, destroysDrained before (recreateSwapChain env st).trace = true := by
  intro before
  rcases size_cases st with hsize | hk
  · obtain ⟨window, flag, hrun⟩ := recreateSwapChain_run env st hsize
    have hhead : ∀ e ∈ Event.recreateSwapChain :: Event.getFramebufferSize
        :: polls (leadingZeros st.window.sizes), e.isDestroy = false := by
      intro e he
      simp only [List.mem_cons] at he
      rcases he with rfl | rfl | he
      · rfl
      · rfl
      · rcases polls_mem he with rfl | rfl <;> rfl
    have htail : ∀ e ∈ (st.swapChainFramebuffers.map Event.destroyFramebuffer
          ++ [Event.freeCommandBuffers st.commandPool st.commandBuffers,
              Event.destroyRenderPass st.renderPass]
          ++ st.swapChainImageViews.map Event.destroyImageView)
        ++ [Event.destroySwapchain st.swapChain]
        ++ (buildSteps env { st with window := window, framebufferResized := flag }).trace,
        e.isSubmit = false := by
      intro e he
      simp only [List.mem_append, List.mem_map, List.mem_cons, List.mem_singleton,
        List.not_mem_nil, or_false] at he
      rcases he with (((⟨_, _, rfl⟩ | rfl | rfl) | ⟨_, _, rfl⟩) | rfl) | he
      · rfl
      · rfl
      · rfl
      · rfl
      · rfl
      · exact (isBuildStep_no_submit (buildSteps_build env _ e he)).1
    have htrace : (recreateSwapChain env st).trace
        = (Event.recreateSwapChain :: Event.getFramebufferSize
            :: polls (leadingZeros st.window.sizes))
          ++ Event.deviceWaitIdle
            :: ((st.swapChainFramebuffers.map Event.destroyFramebuffer
              ++ [Event.freeCommandBuffers st.commandPool st.commandBuffers,
                  Event.destroyRenderPass st.renderPass]
              ++ st.swapChainImageViews.map Event.destroyImageView)
              ++ [Event.destroySwapchain st.swapChain]
              ++ (buildSteps env
                  { st with window := window, framebufferResized := flag }).trace) := by
      rw [hrun, Run.after_trace]
      simp only [List.append_assoc, List.cons_append, List.nil_append]
    rw [htrace, (destroysDrained_append _ _ _).1, destroysDrained_no_destroy _ hhead]
    simp only [destroysDrained, Event.isDestroy, Bool.false_and, Bool.not_false, Bool.true_and,
      Event.pending, Event.isSubmit, Event.isDrain, Bool.false_eq_true, if_false, if_true]
    exact (destroysDrained_no_submit _ htail).1
  · obtain ⟨-, htrace⟩ := recreateSwapChain_blocked env st hk
    rw [htrace]
    refine destroysDrained_no_destroy _ ?_ before
    intro e he
    simp only [List.mem_cons] at he
    rcases he with rfl | rfl | he
    · rfl
    · rfl
    · rcases polls_mem he with rfl | rfl <;> rfl

/-- The calls of a frame: Vulkan calls of `drawFrame` itself, then nothing or
the calls of one rebuild. -/
theorem drawFrame_shape (env : FrameEnv) (st : App) :
    ∃ calls rebuild : List Event,
      (drawFrame env st).trace = calls ++ rebuild
        ∧ calls.all Event.isFrameCall = true
        ∧ (rebuild = [] ∨ ∃ s, rebuild = (recreateSwapChain env.rebuild s).trace) := by
  unfold drawFrame
  split
  · exact ⟨[], [], rfl, rfl, Or.inl rfl⟩
  · split
    · exact ⟨_, [], (List.append_nil _).symm, rfl, Or.inl rfl⟩
    · dsimp only
      split
      · exact ⟨_, _, rfl, rfl, Or.inr ⟨_, rfl⟩⟩
      · split
        · exact ⟨_, [], (List.append_nil _).symm, rfl, Or.inl rfl⟩
        · split
          · exact ⟨_, [], (List.append_nil _).symm, rfl, Or.inl rfl⟩
          · have hwait : ∀ imageFence : Nat,
                (if imageFence ≠ VK_NULL_HANDLE then [Event.waitForFences imageFence]
                  else []).all Event.isFrameCall = true := by
              intro imageFence
              split <;> rfl
            split
            · split
              · exact ⟨_, [], (List.append_nil _).symm,
                  by simp [List.all_append, hwait, Event.isFrameCall], Or.inl rfl⟩
              · split
                · rw [Run.andThen_ok_trace, Run.after_trace]
                  exact ⟨_, _, rfl, by simp [List.all_append, hwait, Event.isFrameCall],
                    Or.inr ⟨_, rfl⟩⟩
                · split
                  · exact ⟨_, [], (List.append_nil _).symm,
                      by simp [List.all_append, hwait, Event.isFrameCall], Or.inl rfl⟩
                  · exact ⟨_, [], (List.append_nil _).symm,
                      by simp [List.all_append, hwait, Event.isFrameCall], Or.inl rfl⟩
            · exact ⟨_, [], (List.append_nil _).symm,
                by simp [List.all_append, hwait, Event.isFrameCall], Or.inl rfl⟩

theorem isFrameCall_kind {e : Event} (h : e.isFrameCall = true) :
    e.isDestroy = false ∧ e.isDrain = false ∧ e ≠ Event.drawFrame := by
  cases e <;> simp_all [Event.isFrameCall, Event.isDestroy, Event.isDrain]

theorem drawFrame_drained (env : FrameEnv) (st : App) :
    ∀ before : Bool, destroysDrained before (drawFrame env st).trace = true := by
  intro before
  obtain ⟨calls, rebuild, htrace, hcalls, hrebuild⟩ := drawFrame_shape env st
  rw [htrace, (destroysDrained_append _ _ _).1,
    destroysDrained_no_destroy calls
      (fun e he => (isFrameCall_kind (List.all_eq_true.1 hcalls e he)).1)]
  rcases hrebuild with rfl | ⟨s, rfl⟩
  · rfl
  · rw [recreateSwapChain_drained]
    rfl

theorem drawFrame_no_marker (env : FrameEnv) (st : App) :
    (drawFrame env st).trace.count Event.drawFrame = 0 := by
  obtain ⟨calls, rebuild, htrace, hcalls, hrebuild⟩ := drawFrame_shape env st
  rw [htrace, List.count_eq_zero]
  intro hmem
  rcases List.mem_append.1 hmem with h | h
  · exact (isFrameCall_kind (List.all_eq_true.1 hcalls _ h)).2.2 rfl
  · rcases hrebuild with rfl | ⟨s, rfl⟩
    · cases h
    · obtain ⟨r, hr, hq⟩ := recreateSwapChain_shape env.rebuild s
      rw [hr, Run.after_trace, List.mem_append, List.mem_singleton] at h
      rcases h with h | h
      · cases h
      · have := hq.2.1 _ h
        cases this

/-- The main loop: no destroy call finds a submission pending; and when the
loop ends, its calls are those of its rounds, one entry into `drawFrame` per
round, then the test that ends it and the device drain, after which no
submission is pending. -/
theorem mainLoop_drained (frames : List FrameEnv) :
    ∀ (st : App) (before : Bool),
      destroysDrained before (mainLoop frames st).trace = true
        ∧ ((mainLoop frames st).outcome = Outcome.returned →
            pendingAfter before (mainLoop frames st).trace = false
              ∧ ∃ rounds, (mainLoop frames st).trace
                  = rounds ++ [Event.windowShouldClose, Event.deviceWaitIdle]
                ∧ rounds.count Event.drawFrame = frames.length) := by
  induction frames with
  | nil =>
    intro st before
    refine ⟨by cases before <;> rfl, fun _ => ⟨by cases before <;> rfl, [], rfl, rfl⟩⟩
  | cons env frames ih =>
    intro st before
    have hframe := drawFrame_drained env (glfwPollEvents st)
    have hmarker := drawFrame_no_marker env (glfwPollEvents st)
    unfold mainLoop
    by_cases hr : (drawFrame env (glfwPollEvents st)).outcome = Outcome.returned
    · rw [Run.andThen_returned _ _ hr]
      simp only [Run.after_trace, Run.after_outcome]
      obtain ⟨h1, h2⟩ := ih (drawFrame env (glfwPollEvents st)).app
        (pendingAfter before ([Event.windowShouldClose, Event.pollEvents, Event.drawFrame]
          ++ (drawFrame env (glfwPollEvents st)).trace))
      constructor
      · rw [← List.append_assoc, (destroysDrained_append _ _ _).1, h1,
          (destroysDrained_append _ _ _).1, hframe]
        cases before <;> rfl
      · intro hloop
        obtain ⟨hpending, rounds, htrace, hcount⟩ := h2 hloop
        constructor
        · rw [← List.append_assoc, (destroysDrained_append _ _ _).2]
          exact hpending
        · refine ⟨[Event.windowShouldClose, Event.pollEvents, Event.drawFrame]
            ++ ((drawFrame env (glfwPollEvents st)).trace ++ rounds), ?_, ?_⟩
          · rw [htrace]
            simp only [List.append_assoc]
          · rw [List.count_append, List.count_append, hmarker, hcount, List.length_cons]
            simp only [List.count_cons, List.count_nil, beq_iff_eq, reduceCtorEq, if_false,
              if_true]
            omega
    · rw [Run.andThen_stopped _ _ hr]
      simp only [Run.after_trace, Run.after_outcome]
      refine ⟨?_, fun h => absurd h hr⟩
      rw [(destroysDrained_append _ _ _).1, hframe]
      cases before <;> rfl

theorem isSetupStep_kind {e : Event} (h : e.isSetupStep = true) :
    e.isSubmit = false ∧ e ≠ Event.drawFrame := by
  cases e <;> simp_all [Event.isSetupStep, Event.isBuildStep, Event.isSubmit]

theorem findQueueFamilies_setup (queueFamilies : List QueueFamily) :
    ∀ e ∈ (findQueueFamilies queueFamilies).2, e.isSetupStep = true := by
  intro e he
  simp only [findQueueFamilies, List.mem_cons] at he
  rcases he with rfl | rfl | he
  · rfl
  · rfl
  · exact (isBuildStep_no_submit (findQueueFamilies_loop_build _ _ _ e he)).2.1

theorem querySwapChainSupport_setup (details : SwapChainSupportDetails) :
    ∀ e ∈ querySwapChainSupport details, e.isSetupStep = true := by
  intro e he
  simp only [querySwapChainSupport, List.mem_append, List.mem_cons, List.mem_singleton,
    List.not_mem_nil, or_false] at he
  rcases he with ((((rfl | rfl) | he) | rfl) | he)
  · rfl
  · rfl
  · split at he
    · simp only [List.mem_singleton] at he; subst he; rfl
    · simp at he
  · rfl
  · split at he
    · simp only [List.mem_singleton] at he; subst he; rfl
    · simp at he

theorem createInstance_setup (env : InitEnv) (st : App) :
    ∀ e ∈ (createInstance env st).trace, e.isSetupStep = true := by
  intro e he
  unfold createInstance at he
  simp only [enableValidationLayers, if_true, Bool.true_and] at he
  split at he
  · simp only [List.mem_cons, List.mem_singleton, List.not_mem_nil, or_false] at he
    rcases he with rfl | rfl <;> rfl
  · split at he
    · simp only [List.mem_append, List.mem_cons, List.mem_singleton, List.not_mem_nil,
        or_false] at he
      rcases he with (rfl | rfl) | rfl | rfl <;> rfl
    · simp only [List.mem_append, List.mem_cons, List.mem_singleton, List.not_mem_nil,
        or_false] at he
      rcases he with ((rfl | rfl) | rfl | rfl) | rfl | rfl <;> rfl

theorem isDeviceSuitable_setup (device : PhysicalDevice) :
    ∀ e ∈ (isDeviceSuitable device).2, e.isSetupStep = true := by
  intro e he
  simp only [isDeviceSuitable, checkDeviceExtensionSupport, List.mem_append, List.mem_cons,
    List.mem_singleton, List.not_mem_nil, or_false] at he
  rcases he with (he | rfl | rfl) | he
  · exact findQueueFamilies_setup _ e he
  · rfl
  · rfl
  · split at he
    · exact querySwapChainSupport_setup _ e he
    · simp at he

theorem pickPhysicalDevice_loop_setup (devices : List PhysicalDevice) :
    ∀ e ∈ (pickPhysicalDevice.loop devices).2, e.isSetupStep = true := by
  induction devices with
  | nil => intro e he; simp [pickPhysicalDevice.loop] at he
  | cons device rest ih =>
    intro e he
    unfold pickPhysicalDevice.loop at he
    split at he
    · exact isDeviceSuitable_setup device e he
    · rcases List.mem_append.1 he with he | he
      · exact isDeviceSuitable_setup device e he
      · exact ih e he

theorem pickPhysicalDevice_setup (devices : List PhysicalDevice) :
    ∀ e ∈ (pickPhysicalDevice devices).2, e.isSetupStep = true := by
  have hcalls : ∀ e ∈ [Event.enumeratePhysicalDevices, Event.enumeratePhysicalDevices]
      ++ (pickPhysicalDevice.loop devices).2, e.isSetupStep = true := by
    intro e he
    simp only [List.mem_append, List.mem_cons, List.mem_singleton, List.not_mem_nil,
      or_false] at he
    rcases he with (rfl | rfl) | he
    · rfl
    · rfl
    · exact pickPhysicalDevice_loop_setup devices e he
  intro e he
  unfold pickPhysicalDevice at he
  split at he
  · simp only [List.mem_singleton] at he; subst he; rfl
  · dsimp only at he
    split at he
    · exact hcalls e he
    · split at he <;> exact hcalls e he

theorem createLogicalDevice_setup (queueFamilies : List QueueFamily) (result : Int)
    (st : App) :
    ∀ e ∈ (createLogicalDevice queueFamilies result st).trace, e.isSetupStep = true := by
  have hfound := findQueueFamilies_setup queueFamilies
  intro e he
  unfold createLogicalDevice at he
  dsimp only at he
  split at he
  · split at he
    · simp only [List.mem_append, List.mem_singleton] at he
      rcases he with he | rfl
      · exact hfound e he
      · rfl
    · simp only [List.mem_append, List.mem_cons, List.mem_singleton, List.not_mem_nil,
        or_false] at he
      rcases he with he | rfl | rfl | rfl
      · exact hfound e he
      · rfl
      · rfl
      · rfl
  · exact hfound e he

theorem createGraphicsPipeline_setup (env : PipelineEnv) (st : App) :
    ∀ e ∈ (createGraphicsPipeline env st).trace, e.isSetupStep = true := by
  unfold createGraphicsPipeline
  refine Run.andThen_calls (Run.andThen_calls ?_ ?_) ?_
  · intro e he
    simp only [createShaderModule, List.mem_singleton] at he
    subst he
    rfl
  · intro s e he
    simp only [createShaderModule, List.mem_singleton] at he
    subst he
    rfl
  · intro s e he
    dsimp only at he
    split at he
    · simp only [List.mem_singleton] at he; subst he; rfl
    · split at he
      · simp only [List.mem_cons, List.mem_singleton, List.not_mem_nil, or_false] at he
        rcases he with rfl | rfl <;> rfl
      · simp only [List.mem_append, List.mem_cons, List.mem_singleton, List.not_mem_nil,
          or_false] at he
        rcases he with (rfl | rfl) | rfl | rfl <;> rfl

theorem createCommandPool_setup (queueFamilies : List QueueFamily) (answer : Int × Nat)
    (st : App) :
    ∀ e ∈ (createCommandPool queueFamilies answer st).trace, e.isSetupStep = true := by
  have hfound := findQueueFamilies_setup queueFamilies
  intro e he
  unfold createCommandPool at he
  dsimp only at he
  split at he
  · exact hfound e he
  · split at he <;>
      (simp only [List.mem_append, List.mem_singleton] at he
       rcases he with he | rfl
       · exact hfound e he
       · rfl)

theorem createSynchObjects_loop_setup (env : SyncEnv) (remaining : Nat) :
    ∀ (i : Nat) (st : App),
      ∀ e ∈ (createSynchObjects.loop env remaining i st).trace, e.isSetupStep = true := by
  induction remaining with
  | zero => intro i st e he; simp [createSynchObjects.loop] at he
  | succ remaining ih =>
    intro i st e he
    unfold createSynchObjects.loop at he
    dsimp only at he
    split at he
    · simp only [List.mem_singleton] at he; subst he; rfl
    · split at he
      · simp only [List.mem_cons, List.mem_singleton, List.not_mem_nil, or_false] at he
        rcases he with rfl | rfl <;> rfl
      · split at he
        · simp only [List.mem_cons, List.mem_singleton, List.not_mem_nil, or_false] at he
          rcases he with rfl | rfl | rfl <;> rfl
        · simp only [Run.after_trace, List.mem_append, List.mem_cons, List.mem_singleton,
            List.not_mem_nil, or_false] at he
          rcases he with (rfl | rfl | rfl) | he
          · rfl
          · rfl
          · rfl
          · exact ih _ _ e he

theorem build_setup {t : List Event} (h : ∀ e ∈ t, e.isBuildStep = true) :
    ∀ e ∈ t, e.isSetupStep = true :=
  fun e he => (isBuildStep_no_submit (h e he)).2.1

theorem initVulkan_setup (env : InitEnv) (st : App) :
    ∀ e ∈ (initVulkan env st).trace, e.isSetupStep = true := by
  unfold initVulkan
  refine Run.andThen_calls (Run.andThen_calls (createInstance_setup env st) ?_) ?_
  · intro s e he
    simp only [createSurface, List.mem_singleton] at he
    subst he
    rfl
  · intro s
    have hpick := pickPhysicalDevice_setup env.devices
    split
    · exact hpick
    · next device _ =>
      intro e he
      rw [Run.after_trace, List.mem_append] at he
      rcases he with he | he
      · exact hpick e he
      · revert e
        unfold initVulkan.onDevice
        dsimp only
        refine Run.andThen_calls ?_ (fun s => createSynchObjects_loop_setup _ _ _ _)
        refine Run.andThen_calls ?_ (fun s => build_setup (createCommandBuffers_build _ s))
        refine Run.andThen_calls ?_ (fun s => createCommandPool_setup _ _ s)
        refine Run.andThen_calls ?_
          (fun s => build_setup (createFramebuffers_loop_build _ _ _ _))
        refine Run.andThen_calls ?_ (fun s => createGraphicsPipeline_setup _ s)
        refine Run.andThen_calls ?_ (fun s => build_setup (createRenderPass_build _ s))
        refine Run.andThen_calls ?_
          (fun s => build_setup (createImageViews_loop_build _ _ _ _))
        exact Run.andThen_calls (createLogicalDevice_setup _ _ _)
          (fun s => build_setup (createSwapChain_build _ s))

theorem cleanup_calls (st : App) :
    ∀ e ∈ (cleanup st).trace,
      e.isSubmit = false ∧ e.isFrameCall = false ∧ e.isDrain = false
        ∧ e ≠ Event.drawFrame := by
  have hloop : ∀ ring : List (Nat × Nat × Nat), ∀ e ∈ cleanup.loop ring,
      e.isSubmit = false ∧ e.isFrameCall = false ∧ e.isDrain = false
        ∧ e ≠ Event.drawFrame := by
    intro ring
    induction ring with
    | nil => intro e he; simp [cleanup.loop] at he
    | cons slot rest ih =>
      obtain ⟨renderFinished, imageAvailable, inFlight⟩ := slot
      intro e he
      simp only [cleanup.loop, List.mem_cons] at he
      rcases he with rfl | rfl | rfl | he
      · exact ⟨rfl, rfl, rfl, fun h => by cases h⟩
      · exact ⟨rfl, rfl, rfl, fun h => by cases h⟩
      · exact ⟨rfl, rfl, rfl, fun h => by cases h⟩
      · exact ih e he
  have hold : ∀ e ∈ (cleanupOldSwapChain st).trace
      ++ [Event.destroyPipeline st.graphicsPipeline,
          Event.destroyPipelineLayout st.pipelineLayout],
      e.isSubmit = false ∧ e.isFrameCall = false ∧ e.isDrain = false
        ∧ e ≠ Event.drawFrame := by
    intro e he
    simp only [cleanupOldSwapChain, List.mem_append, List.mem_map, List.mem_cons,
      List.mem_singleton, List.not_mem_nil, or_false] at he
    rcases he with ((((⟨_, _, rfl⟩ | rfl | rfl) | ⟨_, _, rfl⟩) | rfl)) | rfl | rfl <;>
      exact ⟨rfl, rfl, rfl, fun h => by cases h⟩
  intro e he
  unfold cleanup at he
  dsimp only at he
  split at he
  · exact hold e he
  · rcases List.mem_append.1 he with he | he
    · rcases List.mem_append.1 he with he | he
      · exact hold e he
      · exact hloop _ e he
    · simp only [List.mem_cons, List.mem_singleton, List.not_mem_nil, or_false] at he
      rcases he with rfl | rfl | rfl | rfl | rfl | rfl <;>
        exact ⟨rfl, rfl, rfl, fun h => by cases h⟩

theorem setup_calls (env : InitEnv) (st : App) :
    ∀ e ∈ ((initWindow st).andThen (initVulkan env)).trace, e.isSetupStep = true := by
  refine Run.andThen_calls ?_ (initVulkan_setup env)
  intro e he
  simp only [initWindow, List.mem_cons, List.mem_singleton, List.not_mem_nil, or_false] at he
  rcases he with rfl | rfl <;> rfl

/-- C26 evaluated against the claim: a start-up in which every call succeeds,
one frame whose present returns suboptimal, then the window closes. The run
returns; the frame rebuilds the swapchain after its present, and the
framebuffer 411 is destroyed after the last submission and before the last
device drain, the one of the shutdown. -/
theorem C26_counterexample :
    (run exampleInit [suboptimalPresent] freshApp).outcome = Outcome.returned
      ∧ Event.destroyFramebuffer 411
          ∈ afterLastSubmit
              (beforeLastDrain (run exampleInit [suboptimalPresent] freshApp).trace) := by
  decide

/-- C26 as the code has it: in every execution of `run`, no destroy call is
made while a submission is pending, that is, every destroy call that follows
a submission has a device drain between that submission and itself; and when
the loop comes to its end, with one entry into `drawFrame` for each round
before it, the calls from there on are the test that ends the loop, the
device drain and the calls of `cleanup`, none of which is a call of a frame or
a drain. -/
theorem C26_shutdown_drain (env : InitEnv) (frames : List FrameEnv) (st : App) :
    destroysDrained false (run env frames st).trace = true
      ∧ ((((initWindow st).andThen (initVulkan env)).andThen (mainLoop frames)).outcome
            = Outcome.returned →
          ∃ before : List Event,
            (run env frames st).trace
                = before ++ Event.windowShouldClose :: Event.deviceWaitIdle
                    :: (cleanup (((initWindow st).andThen (initVulkan env)).andThen
                          (mainLoop frames)).app).trace
              ∧ before.count Event.drawFrame = frames.length
              ∧ ∀ e ∈ (cleanup (((initWindow st).andThen (initVulkan env)).andThen
                          (mainLoop frames)).app).trace,
                  e.isFrameCall = false ∧ e.isDrain = false ∧ e ≠ Event.drawFrame) := by
  have hsetup := setup_calls env st
  obtain ⟨hscan, hpending⟩ := destroysDrained_no_submit _
    (fun e he => (isSetupStep_kind (hsetup e he)).1)
  have hnomarker : ((initWindow st).andThen (initVulkan env)).trace.count Event.drawFrame
      = 0 := by
    rw [List.count_eq_zero]
    exact fun hmem => (isSetupStep_kind (hsetup _ hmem)).2 rfl
  unfold run
  generalize (initWindow st).andThen (initVulkan env) = setup at hsetup hscan hpending hnomarker ⊢
  by_cases hs : setup.outcome = Outcome.returned
  · obtain ⟨hloop, hend⟩ := mainLoop_drained frames setup.app false
    rw [Run.andThen_returned setup _ hs]
    by_cases hl : (mainLoop frames setup.app).outcome = Outcome.returned
    · obtain ⟨hdone, rounds, hrounds, hcount⟩ := hend hl
      have hclean := cleanup_calls (mainLoop frames setup.app).app
      rw [Run.andThen_returned _ _ (by rw [Run.after_outcome]; exact hl)]
      simp only [Run.after_trace, Run.after_app, Run.after_outcome]
      constructor
      · rw [(destroysDrained_append _ _ _).1, (destroysDrained_append _ _ _).1,
          (destroysDrained_append _ _ _).2, hscan, hpending, hloop, hdone,
          (destroysDrained_no_submit _ (fun e he => (hclean e he).1)).1]
        rfl
      · intro _
        refine ⟨setup.trace ++ rounds, ?_, ?_, fun e he => (hclean e he).2⟩
        · rw [hrounds]
          simp only [List.append_assoc, List.cons_append, List.nil_append]
        · rw [List.count_append, hnomarker, hcount, Nat.zero_add]
    · have hl2 : (Run.after setup.trace (mainLoop frames setup.app)).outcome
          ≠ Outcome.returned := by rw [Run.after_outcome]; exact hl
      rw [Run.andThen_stopped _ _ hl2]
      refine ⟨?_, fun h => absurd h hl2⟩
      rw [Run.after_trace, (destroysDrained_append _ _ _).1, hscan, hpending, hloop]
      rfl
  · rw [Run.andThen_stopped setup _ hs, Run.andThen_stopped setup _ hs]
    exact ⟨hscan, fun h => absurd h hs⟩

/-- C26 on the run with one frame whose present returns suboptimal: no
destroy call finds a submission pending, although framebuffers are destroyed
between the last submission and the drain of the shutdown. -/
theorem C26_shutdown_drain_witness :
    destroysDrained false (run exampleInit [suboptimalPresent] freshApp).trace = true :=
  (C26_shutdown_drain exampleInit [suboptimalPresent] freshApp).1

/-! ## C21 -/

/-- Below the largest `uint32_t` the sum `minImageCount + 1` does not wrap:
the requested image count is `minImageCount + 1`, which is
`max (minImageCount + 1) minImageCount`, lowered to `maxImageCount` when that
is not zero and smaller, and left alone when `maxImageCount` is zero. -/
theorem requestedImageCount_below (capabilities : VkSurfaceCapabilitiesKHR)
    (hmin : capabilities.minImageCount < UINT32_MAX) :
    (capabilities.maxImageCount = 0 →
        requestedImageCount capabilities
          = max (capabilities.minImageCount + 1) capabilities.minImageCount)
      ∧ (capabilities.maxImageCount ≠ 0 →
          capabilities.maxImageCount
            < max (capabilities.minImageCount + 1) capabilities.minImageCount →
          requestedImageCount capabilities = capabilities.maxImageCount)
      ∧ (capabilities.maxImageCount ≠ 0 →
          max (capabilities.minImageCount + 1) capabilities.minImageCount
            ≤ capabilities.maxImageCount →
          requestedImageCount capabilities
            = max (capabilities.minImageCount + 1) capabilities.minImageCount) := by
  have hmin1 : capabilities.minImageCount < 4294967295 := hmin
  have hwrap : (capabilities.minImageCount + 1) % 4294967296
      = capabilities.minImageCount + 1 := Nat.mod_eq_of_lt (by omega)
  have hmax : max (capabilities.minImageCount + 1) capabilities.minImageCount
      = capabilities.minImageCount + 1 := by omega
  rw [hmax]
  unfold requestedImageCount
  simp only [hwrap]
  refine ⟨?_, ?_, ?_⟩
  · intro h0
    rw [if_neg (by omega)]
  · intro h0 hlt
    rw [if_pos ⟨by omega, hlt⟩]
  · intro h0 hle
    rw [if_neg (by omega)]

/-- C21 evaluated on the code: with `minImageCount` the largest `uint32_t` the
sum `minImageCount + 1` wraps to 0, and `createSwapChain` requests 0 images,
with no maximal image count as well as with the maximal image count at the
largest `uint32_t`; `max (minImageCount + 1) minImageCount` is not 0, whether
the sum is taken in `uint32_t` or in the integers. -/
theorem C21_image_count_wraps :
    requestedImageCount wrappingCapabilities = 0
      ∧ requestedImageCount wrappingBoundedCapabilities = 0
      ∧ max ((wrappingCapabilities.minImageCount + 1) % 4294967296)
          wrappingCapabilities.minImageCount = 4294967295
      ∧ max (wrappingCapabilities.minImageCount + 1)
          wrappingCapabilities.minImageCount = 4294967296 := by
  decide

/-! ## C30 -/

/-- C30: the `chooseSwapExtent` of main.cpp and the one of main-actual.cpp
return the same extent for every capabilities value when the window reports a
framebuffer size of 800 x 600, and for every window when the width of the
current extent is not the sentinel `UINT32_MAX`. -/
theorem C30_extent_versions_agree (capabilities : VkSurfaceCapabilitiesKHR)
    (window : Window) :
    (window.getFramebufferSize.1 = (800, 600) →
        (chooseSwapExtent capabilities window).1 = MainActual.chooseSwapExtent capabilities)
      ∧ (capabilities.currentExtent.width ≠ UINT32_MAX →
          (chooseSwapExtent capabilities window).1
            = MainActual.chooseSwapExtent capabilities) := by
  constructor
  · intro hsize
    unfold chooseSwapExtent MainActual.chooseSwapExtent
    split
    · rfl
    · simp only [hsize, WIDTH, HEIGHT]
  · intro hcur
    unfold chooseSwapExtent MainActual.chooseSwapExtent
    rw [if_pos hcur, if_pos hcur]

/-- C30 on the window that stays at 800 x 600 and capabilities with the
sentinel: both versions give 800 x 600. -/
theorem C30_extent_versions_agree_witness :
    exampleWindow.getFramebufferSize.1 = (800, 600)
      ∧ (chooseSwapExtent sentinelCapabilities exampleWindow).1
          = MainActual.chooseSwapExtent sentinelCapabilities
      ∧ MainActual.chooseSwapExtent sentinelCapabilities = { width := 800, height := 600 } :=
  ⟨rfl, (C30_extent_versions_agree sentinelCapabilities exampleWindow).1 rfl, by decide⟩

end Vulkan2019
